import Mathlib

/-!
# Cart service (backend/cart-service/internal): shallow embedding

The cart lifecycle manager and its pricing engine, translated from
`service.go`, `model.go` and `product_client.go`, with the ownership check of
the HTTP handlers from `handler.go`.

Modelling conventions
* `float64` money is embedded as exact rationals (`ℚ`).
* A Go `int` is taken to be 64 bits wide, as on every 64-bit platform, and is
  embedded as an integer (`Int`); the additions the code performs on quantities
  (`+=` in `AddItem` and `MergeGuestCart`) are embedded as `addInt`, the sum
  wrapped into the range −2^63 … 2^63 − 1 as Go computes it.  Values that come
  from outside (request quantities, stored documents) are not constrained to
  that range by the type; statements say so where it matters.
* `time.Time` is an integer count of clock ticks and `time.Duration` an integer
  number of ticks; every reading of `time.Now()` is an explicit argument.
* The Mongo collection `cartCol` is a list of cart documents, passed in and out
  of every operation.  `$set` patches are functions on a document.
* Identifiers freshly generated by the driver (`InsertedID`,
  `primitive.NewObjectID()`) are explicit arguments.
* A Go `error` result is `Option CartError` (`none` is `nil`); a Go
  `(*Cart, error)` result is `Except CartError Cart`.
* Request validation (the `validate` tags of model.go) is done by the HTTP
  handler before it calls the service; the service methods are embedded
  without it, and it is assumed only where a statement says so.
* Calls are sequential: every method runs to completion on the collection it
  is given and returns the collection it leaves.  Store and transport failures
  are not modelled, except the failure of the secondary write of
  `MergeGuestCart`, which is an explicit argument.
* The aggregation pipeline of `GetCartStatistics` is a filter (`$match`)
  followed by folds over the matched documents (`$group` with `_id: nil`),
  which yields one row for a non-empty match and no row for an empty one.
* Of `handler.go`, the middleware `OptionalAuthMiddleware` and the handlers
  `GetCart` and `ClearCart` are embedded.  The `userID` of the request context
  is an `Option String`, and `ValidateToken` with the handler's key is a
  function held by the handler.
-/

namespace Sattviko

/-! ## Data model (model.go) -/

/-- A `primitive.ObjectID`: the 12-byte value, read as a big-endian number. -/
abbrev ObjectID := Nat

/-- An instant (`time.Time`), in clock ticks. -/
abbrev Time := Int

/-- A `time.Duration`, in clock ticks. -/
abbrev Duration := Int

/-- A Go `map[string]string`, as an association list. -/
abbrev Metadata := List (String × String)

/-- The Go type `CartStatus`, a string. -/
abbrev CartStatus := String

def CartStatusActive : CartStatus := "active"

def CartStatusAbandoned : CartStatus := "abandoned"

def CartStatusCompleted : CartStatus := "completed"

def CartStatusProcessing : CartStatus := "processing"

/-- A product line of a cart. -/
structure CartItem where
  ID : ObjectID
  ProductID : String
  Title : String
  Description : String
  Price : ℚ
  Quantity : Int
  Weight : String
  Image : String
  Metadata : Metadata
  AddedAt : Time
deriving DecidableEq

/-- A discount coupon applied to a cart. -/
structure Coupon where
  Code : String
  DiscountType : String
  DiscountValue : ℚ
  AppliedAt : Time
deriving DecidableEq

/-- A shopping cart document. -/
structure Cart where
  ID : ObjectID
  UserID : String
  Status : CartStatus
  Items : List CartItem
  Subtotal : ℚ
  TaxAmount : ℚ
  ShippingCost : ℚ
  TotalAmount : ℚ
  Coupon : Option Coupon
  Metadata : Metadata
  CreatedAt : Time
  UpdatedAt : Time
  ExpiresAt : Time
deriving DecidableEq

/-- The standard errors of model.go, together with the errors of the Mongo
driver and of the product service that the operations pass through. -/
inductive CartError where
  | ErrCartNotFound
  | ErrCartExpired
  | ErrItemNotInCart
  | ErrProductNotAvailable
  | ErrCouponNotValid
  | ErrQuantityInvalid
  | ErrCartEmpty
  | ErrInvalidHex
  | ErrNoDocuments
  | ErrDuplicateKey
  | Other (msg : String)
deriving DecidableEq

open CartError

structure CreateCartRequest where
  UserID : String
  Metadata : Metadata
deriving DecidableEq

structure AddItemRequest where
  ProductID : String
  Title : String
  Description : String
  Price : ℚ
  Quantity : Int
  Weight : String
  Image : String
  Metadata : Metadata
deriving DecidableEq

structure UpdateItemRequest where
  Quantity : Int
deriving DecidableEq

structure ApplyCouponRequest where
  Code : String
deriving DecidableEq

/-! ## Driver primitives -/

/-- Value of one hexadecimal digit, either case. -/
def hexDigit (c : Char) : Option Nat :=
  if 48 ≤ c.toNat ∧ c.toNat ≤ 57 then some (c.toNat - 48)
  else if 97 ≤ c.toNat ∧ c.toNat ≤ 102 then some (c.toNat - 87)
  else if 65 ≤ c.toNat ∧ c.toNat ≤ 70 then some (c.toNat - 55)
  else none

/-- Big-endian value of a string of hexadecimal digits. -/
def decodeHex : List Char → Nat → Option Nat
  | [], acc => some acc
  | c :: cs, acc =>
    match hexDigit c with
    | some d => decodeHex cs (16 * acc + d)
    | none => none

/-- The driver's `primitive.ObjectIDFromHex`: a string of exactly 24
hexadecimal digits decodes to an id, anything else is an error. -/
def ObjectIDFromHex (s : String) : Except CartError ObjectID :=
  if s.length ≠ 24 then .error ErrInvalidHex
  else
    match decodeHex s.data 0 with
    | some n => .ok n
    | none => .error ErrInvalidHex

/-- The collection `cartCol`. -/
abbrev Store := List Cart

/-- The driver call `FindOne` with filter `_id = oid`. -/
def FindOne (store : Store) (oid : ObjectID) : Option Cart :=
  store.find? (fun c => decide (c.ID = oid))

/-- Apply a `$set` patch to the first document with `_id = oid`. -/
def updateFirst (oid : ObjectID) (patch : Cart → Cart) : Store → Store
  | [] => []
  | c :: cs => if c.ID = oid then patch c :: cs else c :: updateFirst oid patch cs

/-- The driver call `FindOneAndUpdate` with filter `_id = oid` and `ReturnDocument(After)`:
the post-image, or `none` when no document matches. -/
def FindOneAndUpdate (store : Store) (oid : ObjectID) (patch : Cart → Cart) :
    Option Cart × Store :=
  match FindOne store oid with
  | none => (none, store)
  | some c => (some (patch c), updateFirst oid patch store)

/-- The driver call `UpdateOne` with filter `_id = oid`. -/
def UpdateOne (store : Store) (oid : ObjectID) (patch : Cart → Cart) : Store :=
  updateFirst oid patch store

/-- The driver call `InsertOne` of a document without `_id`: the driver assigns `newID`;
a clash with a stored `_id` is a duplicate-key error. -/
def InsertOne (store : Store) (cart : Cart) (newID : ObjectID) :
    Except CartError ObjectID × Store :=
  match FindOne store newID with
  | some _ => (.error ErrDuplicateKey, store)
  | none => (.ok newID, store ++ [{ cart with ID := newID }])

/-- The driver call `UpdateMany`: patch every document matching the filter; the result's
`ModifiedCount` (the matched documents that the patch changes) and the new
collection. -/
def UpdateMany (store : Store) (filter : Cart → Bool) (patch : Cart → Cart) :
    Nat × Store :=
  ((store.filter (fun c => filter c && decide (patch c ≠ c))).length,
   store.map (fun c => if filter c then patch c else c))

/-! ## Product service (product_client.go) -/

/-- The interface `ProductServiceClient`: `CheckProductAvailability`. -/
abbrev ProductServiceClient := String → Int → Option CartError

/-- The mock client: a map from product id to stock. -/
structure MockProductServiceClient where
  AvailableProducts : List (String × Int)

/-- The mock's `CheckProductAvailability`. -/
def MockProductServiceClient.CheckProductAvailability (c : MockProductServiceClient)
    (productID : String) (quantity : Int) : Option CartError :=
  match c.AvailableProducts.lookup productID with
  | none => some ErrProductNotAvailable
  | some stock => if stock < quantity then some ErrProductNotAvailable else none

/-- The mock's `SetProductStock`. -/
def MockProductServiceClient.SetProductStock (c : MockProductServiceClient)
    (productID : String) (stock : Int) : MockProductServiceClient :=
  { AvailableProducts := (productID, stock) :: c.AvailableProducts }

/-! ## Go `int` arithmetic -/

/-- The value of an integer expression as a Go `int` of 64 bits: wrapped into
the range −2^63 … 2^63 − 1. -/
def wrapInt (x : Int) : Int :=
  (x + 9223372036854775808) % 18446744073709551616 - 9223372036854775808

/-- The Go operation `a + b` on `int`. -/
def addInt (a b : Int) : Int := wrapInt (a + b)

/-! ## The service (service.go) -/

/-- The receiver `CartService`, without its collection handle. -/
structure CartService where
  productSvc : Option ProductServiceClient
  cartTTL : Duration
  taxRate : ℚ
  shippingCost : ℚ

/-- The subtotal loop of `calculateCartTotals`. -/
def subtotalLoop (items : List CartItem) : ℚ :=
  items.foldl (fun subtotal item => subtotal + item.Price * (item.Quantity : ℚ)) 0

/-- The coupon step of `calculateCartTotals`: the value of the local variable
`subtotal` after the coupon block. -/
def applyCouponStep (coupon : Option Coupon) (subtotal : ℚ) : ℚ :=
  match coupon with
  | none => subtotal
  | some c =>
    if c.DiscountType = "percentage" then
      subtotal - (c.DiscountValue / 100) * subtotal
    else if c.DiscountType = "fixed" then
      (if subtotal - c.DiscountValue < 0 then 0 else subtotal - c.DiscountValue)
    else subtotal

/-- The method `calculateCartTotals`, returning the mutated cart. -/
def calculateCartTotals (s : CartService) (cart : Cart) : Cart :=
  let subtotal := subtotalLoop cart.Items
  let cart := { cart with Subtotal := subtotal }
  let subtotal := applyCouponStep cart.Coupon subtotal
  let taxAmount := subtotal * s.taxRate
  let cart := { cart with TaxAmount := taxAmount }
  let cart := { cart with ShippingCost := s.shippingCost }
  { cart with TotalAmount := subtotal + taxAmount + cart.ShippingCost }

/-- The method `CreateCart`. -/
def CreateCart (s : CartService) (store : Store) (insertedID : ObjectID) (now : Time)
    (req : CreateCartRequest) : Except CartError Cart × Store :=
  let expiresAt := now + s.cartTTL
  let cart : Cart :=
    { ID := 0, UserID := req.UserID, Status := CartStatusActive, Items := [],
      Subtotal := 0, TaxAmount := 0, ShippingCost := 0, TotalAmount := 0,
      Coupon := none, Metadata := req.Metadata,
      CreatedAt := now, UpdatedAt := now, ExpiresAt := expiresAt }
  match InsertOne store cart insertedID with
  | (.error err, store1) => (.error err, store1)
  | (.ok id, store1) => (.ok { cart with ID := id }, store1)

/-- The method `GetCart`. -/
def GetCart (_s : CartService) (store : Store) (now : Time) (cartID : String) :
    Except CartError Cart × Store :=
  match ObjectIDFromHex cartID with
  | .error err => (.error err, store)
  | .ok oid =>
    match FindOne store oid with
    | none => (.error ErrCartNotFound, store)
    | some cart =>
      if now > cart.ExpiresAt then (.error ErrCartExpired, store)
      else (.ok cart, store)

/-- The method `GetCartByUserID`. -/
def GetCartByUserID (_s : CartService) (store : Store) (now : Time) (userID : String) :
    Except CartError Cart × Store :=
  match store.find? (fun c => decide (c.UserID = userID ∧ c.Status = CartStatusActive)) with
  | none => (.error ErrCartNotFound, store)
  | some cart =>
    if now > cart.ExpiresAt then (.error ErrCartExpired, store)
    else (.ok cart, store)

/-- The search loop of `AddItem`: add `quantity` to the first line with the
product id and report whether one was found. -/
def addToExisting (productID : String) (quantity : Int) :
    List CartItem → List CartItem × Bool
  | [] => ([], false)
  | existingItem :: rest =>
    if existingItem.ProductID = productID then
      ({ existingItem with Quantity := addInt existingItem.Quantity quantity } :: rest, true)
    else
      let r := addToExisting productID quantity rest
      (existingItem :: r.1, r.2)

/-- The patch written by `AddItem`, `UpdateItem`, `RemoveItem` and
`MergeGuestCart`. -/
def setItemsAndTotals (cart : Cart) : Cart → Cart := fun doc =>
  { doc with Items := cart.Items, Subtotal := cart.Subtotal, TaxAmount := cart.TaxAmount,
             ShippingCost := cart.ShippingCost, TotalAmount := cart.TotalAmount,
             UpdatedAt := cart.UpdatedAt, ExpiresAt := cart.ExpiresAt }

/-- Decoding the result of `FindOneAndUpdate`. -/
def decodeResult (r : Option Cart × Store) : Except CartError Cart × Store :=
  match r.1 with
  | none => (.error ErrNoDocuments, r.2)
  | some updatedCart => (.ok updatedCart, r.2)

/-- The method `AddItem`. -/
def AddItem (s : CartService) (store : Store) (newItemID : ObjectID) (addedAt now : Time)
    (cartID : String) (item : AddItemRequest) : Except CartError Cart × Store :=
  match (match s.productSvc with
         | some svc => svc item.ProductID item.Quantity
         | none => none) with
  | some err => (.error err, store)
  | none =>
    match ObjectIDFromHex cartID with
    | .error err => (.error err, store)
    | .ok oid =>
      match FindOne store oid with
      | none => (.error ErrCartNotFound, store)
      | some cart =>
        let r := addToExisting item.ProductID item.Quantity cart.Items
        let cart := { cart with Items := r.1 }
        let cart :=
          if !r.2 then
            let newItem : CartItem :=
              { ID := newItemID, ProductID := item.ProductID, Title := item.Title,
                Description := item.Description, Price := item.Price,
                Quantity := item.Quantity, Weight := item.Weight, Image := item.Image,
                Metadata := item.Metadata, AddedAt := addedAt }
            { cart with Items := cart.Items ++ [newItem] }
          else cart
        let cart := calculateCartTotals s cart
        let cart := { cart with UpdatedAt := now }
        let cart := { cart with ExpiresAt := now + s.cartTTL }
        decodeResult (FindOneAndUpdate store oid (setItemsAndTotals cart))

/-- The search loop of `UpdateItem` and `RemoveItem`: index (and product id)
of the first line with the given id. -/
def findItem (itemOID : ObjectID) : List CartItem → Nat → Option (Nat × String)
  | [], _ => none
  | item :: rest, i =>
    if item.ID = itemOID then some (i, item.ProductID) else findItem itemOID rest (i + 1)

/-- The assignment `cart.Items[itemIndex].Quantity = quantity`. -/
def setQuantityAt : Nat → Int → List CartItem → List CartItem
  | _, _, [] => []
  | 0, q, item :: rest => { item with Quantity := q } :: rest
  | i + 1, q, item :: rest => item :: setQuantityAt i q rest

/-- The method `UpdateItem`. -/
def UpdateItem (s : CartService) (store : Store) (now : Time)
    (cartID itemID : String) (req : UpdateItemRequest) : Except CartError Cart × Store :=
  if req.Quantity ≤ 0 then (.error ErrQuantityInvalid, store)
  else
    match ObjectIDFromHex cartID with
    | .error err => (.error err, store)
    | .ok cartOID =>
      match ObjectIDFromHex itemID with
      | .error err => (.error err, store)
      | .ok itemOID =>
        match FindOne store cartOID with
        | none => (.error ErrCartNotFound, store)
        | some cart =>
          match findItem itemOID cart.Items 0 with
          | none => (.error ErrItemNotInCart, store)
          | some (itemIndex, productID) =>
            match (match s.productSvc with
                   | some svc => svc productID req.Quantity
                   | none => none) with
            | some err => (.error err, store)
            | none =>
              let cart := { cart with Items := setQuantityAt itemIndex req.Quantity cart.Items }
              let cart := calculateCartTotals s cart
              let cart := { cart with UpdatedAt := now }
              let cart := { cart with ExpiresAt := now + s.cartTTL }
              decodeResult (FindOneAndUpdate store cartOID (setItemsAndTotals cart))

/-- The method `RemoveItem`. -/
def RemoveItem (s : CartService) (store : Store) (now : Time)
    (cartID itemID : String) : Except CartError Cart × Store :=
  match ObjectIDFromHex cartID with
  | .error err => (.error err, store)
  | .ok cartOID =>
    match ObjectIDFromHex itemID with
    | .error err => (.error err, store)
    | .ok itemOID =>
      match FindOne store cartOID with
      | none => (.error ErrCartNotFound, store)
      | some cart =>
        match findItem itemOID cart.Items 0 with
        | none => (.error ErrItemNotInCart, store)
        | some (itemIndex, _) =>
          let cart :=
            { cart with Items := cart.Items.take itemIndex ++ cart.Items.drop (itemIndex + 1) }
          let cart := calculateCartTotals s cart
          let cart := { cart with UpdatedAt := now }
          let cart := { cart with ExpiresAt := now + s.cartTTL }
          decodeResult (FindOneAndUpdate store cartOID (setItemsAndTotals cart))

/-- The method `ClearCart`. -/
def ClearCart (s : CartService) (store : Store) (now : Time) (cartID : String) :
    Except CartError Cart × Store :=
  match ObjectIDFromHex cartID with
  | .error err => (.error err, store)
  | .ok oid =>
    let expiresAt := now + s.cartTTL
    let r := FindOneAndUpdate store oid (fun doc =>
      { doc with Items := [], Subtotal := 0, TaxAmount := 0, ShippingCost := 0,
                 TotalAmount := 0, UpdatedAt := now, ExpiresAt := expiresAt })
    match r.1 with
    | none => (.error ErrCartNotFound, r.2)
    | some updatedCart => (.ok updatedCart, r.2)

/-- The patch written by `ApplyCoupon` and `RemoveCoupon`. -/
def setCouponAndTotals (cart : Cart) : Cart → Cart := fun doc =>
  { doc with Coupon := cart.Coupon, Subtotal := cart.Subtotal, TaxAmount := cart.TaxAmount,
             ShippingCost := cart.ShippingCost, TotalAmount := cart.TotalAmount,
             UpdatedAt := cart.UpdatedAt, ExpiresAt := cart.ExpiresAt }

/-- The method `ApplyCoupon`. -/
def ApplyCoupon (s : CartService) (store : Store) (appliedAt now : Time)
    (cartID : String) (req : ApplyCouponRequest) : Except CartError Cart × Store :=
  match ObjectIDFromHex cartID with
  | .error err => (.error err, store)
  | .ok oid =>
    match FindOne store oid with
    | none => (.error ErrCartNotFound, store)
    | some cart =>
      if cart.Items.length = 0 then (.error ErrCartEmpty, store)
      else
        let coupon : Coupon :=
          { Code := req.Code, DiscountType := "percentage", DiscountValue := 10,
            AppliedAt := appliedAt }
        let cart := { cart with Coupon := some coupon }
        let cart := calculateCartTotals s cart
        let cart := { cart with UpdatedAt := now }
        let cart := { cart with ExpiresAt := now + s.cartTTL }
        decodeResult (FindOneAndUpdate store oid (setCouponAndTotals cart))

/-- The method `RemoveCoupon`. -/
def RemoveCoupon (s : CartService) (store : Store) (now : Time) (cartID : String) :
    Except CartError Cart × Store :=
  match ObjectIDFromHex cartID with
  | .error err => (.error err, store)
  | .ok oid =>
    match FindOne store oid with
    | none => (.error ErrCartNotFound, store)
    | some cart =>
      let cart := { cart with Coupon := none }
      let cart := calculateCartTotals s cart
      let cart := { cart with UpdatedAt := now }
      let cart := { cart with ExpiresAt := now + s.cartTTL }
      decodeResult (FindOneAndUpdate store oid (setCouponAndTotals cart))

/-- The method `CheckoutCart`. -/
def CheckoutCart (_s : CartService) (store : Store) (now : Time) (cartID : String) :
    Except CartError Cart × Store :=
  match ObjectIDFromHex cartID with
  | .error err => (.error err, store)
  | .ok oid =>
    match FindOne store oid with
    | none => (.error ErrCartNotFound, store)
    | some cart =>
      if cart.Items.length = 0 then (.error ErrCartEmpty, store)
      else
        decodeResult (FindOneAndUpdate store oid (fun doc =>
          { doc with Status := CartStatusProcessing, UpdatedAt := now }))

/-- The first loop of `MergeGuestCart`: the map from product id to index in
the user cart; a later assignment to a key shadows the earlier one. -/
def buildItemMap : List CartItem → Nat → List (String × Nat) → List (String × Nat)
  | [], _, itemMap => itemMap
  | item :: rest, i, itemMap => buildItemMap rest (i + 1) ((item.ProductID, i) :: itemMap)

/-- The update `userCart.Items[idx].Quantity += quantity`. -/
def addQuantityAt : Nat → Int → List CartItem → List CartItem
  | _, _, [] => []
  | 0, q, item :: rest => { item with Quantity := addInt item.Quantity q } :: rest
  | i + 1, q, item :: rest => item :: addQuantityAt i q rest

/-- The second loop of `MergeGuestCart` over the guest items. -/
def mergeLoop (itemMap : List (String × Nat)) :
    List CartItem → List CartItem → List CartItem
  | [], userItems => userItems
  | guestItem :: rest, userItems =>
    match itemMap.lookup guestItem.ProductID with
    | some idx => mergeLoop itemMap rest (addQuantityAt idx guestItem.Quantity userItems)
    | none => mergeLoop itemMap rest (userItems ++ [guestItem])

/-- The method `MergeGuestCart`; `secondaryWriteOk` tells whether the
`UpdateOne` on the guest cart goes through. -/
def MergeGuestCart (s : CartService) (store : Store) (now : Time) (secondaryWriteOk : Bool)
    (userCartID guestCartID : String) : Except CartError Cart × Store :=
  match ObjectIDFromHex userCartID with
  | .error err => (.error err, store)
  | .ok userOID =>
    match ObjectIDFromHex guestCartID with
    | .error err => (.error err, store)
    | .ok guestOID =>
      match FindOne store guestOID with
      | none => (.error ErrCartNotFound, store)
      | some guestCart =>
        match FindOne store userOID with
        | none => (.error ErrCartNotFound, store)
        | some userCart =>
          let itemMap := buildItemMap userCart.Items 0 []
          let userCart := { userCart with Items := mergeLoop itemMap guestCart.Items userCart.Items }
          let userCart := calculateCartTotals s userCart
          let userCart := { userCart with UpdatedAt := now }
          let userCart := { userCart with ExpiresAt := now + s.cartTTL }
          let r := FindOneAndUpdate store userOID (setItemsAndTotals userCart)
          match r.1 with
          | none => (.error ErrNoDocuments, r.2)
          | some updatedCart =>
            let store2 :=
              if secondaryWriteOk then
                UpdateOne r.2 guestOID (fun doc =>
                  { doc with Status := CartStatusCompleted,
                             Metadata := [("mergedTo", userCartID)] })
              else r.2
            (.ok updatedCart, store2)

/-- The method `CleanupAbandonedCarts`. -/
def CleanupAbandonedCarts (_s : CartService) (store : Store) (now : Time)
    (olderThan : Duration) : Except CartError Int × Store :=
  let cutoffTime := now + (-olderThan)
  let r := UpdateMany store
    (fun c => decide (c.Status = CartStatusActive ∧ c.UpdatedAt < cutoffTime))
    (fun doc => { doc with Status := CartStatusAbandoned })
  (.ok (r.1 : Int), r.2)

/-! ## Pricing rules as the specification words them -/

/-- The raw subtotal of the specification: the sum over the items of
price × quantity. -/
def rawSubtotal (items : List CartItem) : ℚ :=
  (items.map (fun item => item.Price * (item.Quantity : ℚ))).sum

/-- The discounted subtotal of the specification: the raw subtotal when no
coupon is present, the raw subtotal reduced by `discountValue` percent for a
`percentage` coupon, and the raw subtotal reduced by `discountValue` and
clamped at zero for a `fixed` coupon. -/
def IsDiscountedSubtotal (coupon : Option Coupon) (raw d : ℚ) : Prop :=
  match coupon with
  | none => d = raw
  | some c =>
    (c.DiscountType = "percentage" ∧ d = raw - raw * (c.DiscountValue / 100)) ∨
    (c.DiscountType = "fixed" ∧ d = max 0 (raw - c.DiscountValue))

/-! ## Concrete data for the worked examples -/

/-- The default configuration of config.go (tax 18%, free shipping, TTL 72
hours counted in seconds), with no product service attached. -/
def defaultService : CartService :=
  { productSvc := none, cartTTL := 259200, taxRate := 18 / 100, shippingCost := 0 }

/-- A line with the given id, product id, unit price and quantity. -/
def mkItem (id : ObjectID) (productID : String) (price : ℚ) (quantity : Int) : CartItem :=
  { ID := id, ProductID := productID, Title := productID, Description := "",
    Price := price, Quantity := quantity, Weight := "", Image := "", Metadata := [],
    AddedAt := 0 }

/-- An active guest cart with the given id, lines and coupon; the monetary
fields are zero. -/
def mkCart (id : ObjectID) (items : List CartItem) (coupon : Option Coupon) : Cart :=
  { ID := id, UserID := "", Status := CartStatusActive, Items := items,
    Subtotal := 0, TaxAmount := 0, ShippingCost := 0, TotalAmount := 0,
    Coupon := coupon, Metadata := [], CreatedAt := 0, UpdatedAt := 0, ExpiresAt := 259200 }

/-- A coupon of the given type and value. -/
def mkCoupon (discountType : String) (discountValue : ℚ) : Coupon :=
  { Code := "SAVE", DiscountType := discountType, DiscountValue := discountValue,
    AppliedAt := 0 }

/-! ## The service as a transition system -/

/-- One call of a mutating service method, with the clock readings and
driver-generated identifiers it consumes. -/
inductive Op where
  | createCart (insertedID : ObjectID) (now : Time) (req : CreateCartRequest)
  | addItem (newItemID : ObjectID) (addedAt now : Time) (cartID : String) (item : AddItemRequest)
  | updateItem (now : Time) (cartID itemID : String) (req : UpdateItemRequest)
  | removeItem (now : Time) (cartID itemID : String)
  | clearCart (now : Time) (cartID : String)
  | applyCoupon (appliedAt now : Time) (cartID : String) (req : ApplyCouponRequest)
  | removeCoupon (now : Time) (cartID : String)
  | checkoutCart (now : Time) (cartID : String)
  | mergeGuestCart (now : Time) (secondaryWriteOk : Bool) (userCartID guestCartID : String)
  | cleanupAbandonedCarts (now : Time) (olderThan : Duration)

/-- The collection after running one call. -/
def Op.run (s : CartService) (store : Store) : Op → Store
  | .createCart insertedID now req => (CreateCart s store insertedID now req).2
  | .addItem newItemID addedAt now cartID item =>
    (AddItem s store newItemID addedAt now cartID item).2
  | .updateItem now cartID itemID req => (UpdateItem s store now cartID itemID req).2
  | .removeItem now cartID itemID => (RemoveItem s store now cartID itemID).2
  | .clearCart now cartID => (ClearCart s store now cartID).2
  | .applyCoupon appliedAt now cartID req => (ApplyCoupon s store appliedAt now cartID req).2
  | .removeCoupon now cartID => (RemoveCoupon s store now cartID).2
  | .checkoutCart now cartID => (CheckoutCart s store now cartID).2
  | .mergeGuestCart now ok userCartID guestCartID =>
    (MergeGuestCart s store now ok userCartID guestCartID).2
  | .cleanupAbandonedCarts now olderThan => (CleanupAbandonedCarts s store now olderThan).2

/-- The collections reachable from the empty collection by service calls
under a fixed configuration; the product service may answer differently at
every call. -/
inductive Reachable (cartTTL : Duration) (taxRate shippingCost : ℚ) : Store → Prop where
  | empty : Reachable cartTTL taxRate shippingCost []
  | step (productSvc : Option ProductServiceClient) (op : Op) (store : Store) :
      Reachable cartTTL taxRate shippingCost store →
      Reachable cartTTL taxRate shippingCost
        (op.run { productSvc := productSvc, cartTTL := cartTTL, taxRate := taxRate,
                  shippingCost := shippingCost } store)

/-! ## Effect of each method on the collection -/

/-- The cart written back by the item and coupon mutators: totals recomputed,
then `UpdatedAt` and `ExpiresAt` renewed. -/
def recomputed (s : CartService) (now : Time) (cart : Cart) : Cart :=
  { calculateCartTotals s cart with UpdatedAt := now, ExpiresAt := now + s.cartTTL }

/-! ## Stored totals against recomputed totals -/

/-- The per-cart invariant behind C1: the stored total is the recomputed one,
or the cart is empty with a stored total of 0; and a coupon, when present, is
a `percentage` coupon. -/
def TotalsInv (s : CartService) (cart : Cart) : Prop :=
  (cart.TotalAmount = (calculateCartTotals s cart).TotalAmount
      ∨ (cart.Items = [] ∧ cart.TotalAmount = 0))
    ∧ ∀ c, cart.Coupon = some c → c.DiscountType = "percentage"

/-! ## The worked scenario: create, add a line, apply a coupon -/

/-- The request adding product `p1` at price 10, quantity 2. -/
def p1Request : AddItemRequest :=
  { ProductID := "p1", Title := "p1", Description := "", Price := 10, Quantity := 2,
    Weight := "", Image := "", Metadata := [] }

/-- The cart of the scenario after the line was added. -/
def cartAfterAdd : Cart :=
  { mkCart 1 [mkItem 7 "p1" 10 2] none with
    Subtotal := 20, TaxAmount := 18 / 5, TotalAmount := 118 / 5 }

/-- The cart of the scenario after the coupon was applied. -/
def cartAfterCoupon : Cart :=
  { mkCart 1 [mkItem 7 "p1" 10 2] (some (mkCoupon "percentage" 10)) with
    Subtotal := 20, TaxAmount := 81 / 25, TotalAmount := 531 / 25 }

/-! ## The merge loop -/

/-- The merged item list as the specification words it: the target's lines in
order, each with its quantity increased by that of the source line with the
same product id (unchanged if there is none), followed by the source lines
whose product id is not in the target, in source order and verbatim. -/
def mergedItemsSpec (target source : List CartItem) : List CartItem :=
  target.map (fun t =>
      match source.find? (fun g => decide (g.ProductID = t.ProductID)) with
      | some g => { t with Quantity := t.Quantity + g.Quantity }
      | none => t)
    ++ source.filter (fun g => decide (g.ProductID ∉ target.map (fun t => t.ProductID)))

/-- The integers a Go `int` of 64 bits can hold. -/
def InIntRange (x : Int) : Prop := -9223372036854775808 ≤ x ∧ x ≤ 9223372036854775807

instance (x : Int) : Decidable (InIntRange x) := by
  unfold InIntRange
  infer_instance

/-- Add `q`, as a Go `int`, to the quantity of a line when its product id is
`p`. -/
def bumpBy (p : String) (q : Int) (t : CartItem) : CartItem :=
  if t.ProductID = p then { t with Quantity := addInt t.Quantity q } else t

/-- The target line after all of `gs` has been merged into it, the sum taken
as a Go `int`. -/
def bumpAll (gs : List CartItem) (t : CartItem) : CartItem :=
  match gs.find? (fun g => decide (g.ProductID = t.ProductID)) with
  | some g => { t with Quantity := addInt t.Quantity g.Quantity }
  | none => t

/-- The quantity of a product in an item list: the sum of the quantities of
the lines that hold the product. -/
def quantityOf (p : String) (items : List CartItem) : Int :=
  ((items.filter (fun x => decide (x.ProductID = p))).map (fun x => x.Quantity)).sum

/-- The merged item list with the sums as the code computes them: as
`mergedItemsSpec`, each sum taken as a Go `int`. -/
def mergedItemsInt (target source : List CartItem) : List CartItem :=
  target.map (bumpAll source)
    ++ source.filter (fun g => decide (g.ProductID ∉ target.map (fun t => t.ProductID)))

/-! ## MergeGuestCart -/

/-- The items the merge writes to the target: the result of the two loops. -/
def mergedCart (target source : Cart) : Cart :=
  { target with
    Items := mergeLoop (buildItemMap target.Items 0 []) source.Items target.Items }

/-- The `$set` patch of the secondary write of `MergeGuestCart`. -/
def markMerged (userCartID : String) : Cart → Cart := fun doc =>
  { doc with Status := CartStatusCompleted, Metadata := [("mergedTo", userCartID)] }

/-- The target cart of the merge example: one line, product `p1`, quantity 1. -/
def mergeTarget : Cart := mkCart 1 [mkItem 11 "p1" 10 1] none

/-- The source cart of the merge example: `p1` with quantity 2 and `p2` with
quantity 1. -/
def mergeSource : Cart := mkCart 2 [mkItem 21 "p1" 10 2, mkItem 22 "p2" 5 1] none

/-- A cart whose one line, of product `p1`, has the largest quantity a Go
`int` holds, 2^63 − 1. -/
def fullCart : Cart := mkCart 1 [mkItem 7 "p1" 10 9223372036854775807] none

/-- A cart holding one unit of product `p1`. -/
def oneUnitCart : Cart := mkCart 2 [mkItem 21 "p1" 10 1] none

/-- A target cart holding 2^62 units of product `p1`. -/
def halfTarget : Cart := mkCart 1 [mkItem 11 "p1" 10 4611686018427387904] none

/-- A source cart holding 2^62 units of product `p1`. -/
def halfSource : Cart := mkCart 2 [mkItem 21 "p1" 10 4611686018427387904] none

/-- A source cart with two lines of product `p1`, of 2 and 3 units. -/
def twoLineSource : Cart := mkCart 2 [mkItem 21 "p1" 10 2, mkItem 22 "p1" 10 3] none

/-- The request adding one unit of product `p1`. -/
def oneMoreRequest : AddItemRequest :=
  { ProductID := "p1", Title := "p1", Description := "", Price := 10, Quantity := 1,
    Weight := "", Image := "", Metadata := [] }

/-! ## Derived forms used to state what each method writes -/

/-- The availability check at the head of `AddItem` and inside `UpdateItem`:
skipped when no product service is attached. -/
def oracleCheck (s : CartService) (productID : String) (quantity : Int) : Option CartError :=
  match s.productSvc with
  | some svc => svc productID quantity
  | none => none

/-- The line `AddItem` builds when the product is not in the cart yet. -/
def newLine (newItemID : ObjectID) (addedAt : Time) (item : AddItemRequest) : CartItem :=
  { ID := newItemID, ProductID := item.ProductID, Title := item.Title,
    Description := item.Description, Price := item.Price, Quantity := item.Quantity,
    Weight := item.Weight, Image := item.Image, Metadata := item.Metadata,
    AddedAt := addedAt }

/-- The item list `AddItem` writes back: the result of its search loop, with
the new line appended when the loop found no line of the product. -/
def addItemLines (newItemID : ObjectID) (addedAt : Time) (item : AddItemRequest)
    (items : List CartItem) : List CartItem :=
  if !(addToExisting item.ProductID item.Quantity items).2 then
    (addToExisting item.ProductID item.Quantity items).1 ++ [newLine newItemID addedAt item]
  else (addToExisting item.ProductID item.Quantity items).1

/-- The `$set` patch of `ClearCart`. -/
def clearPatch (s : CartService) (now : Time) : Cart → Cart := fun doc =>
  { doc with Items := [], Subtotal := 0, TaxAmount := 0, ShippingCost := 0,
             TotalAmount := 0, UpdatedAt := now, ExpiresAt := now + s.cartTTL }

/-- The `$set` patch of `CheckoutCart`. -/
def checkoutPatch (now : Time) : Cart → Cart := fun doc =>
  { doc with Status := CartStatusProcessing, UpdatedAt := now }

/-- The coupon `ApplyCoupon` builds from the submitted code. -/
def stubCoupon (code : String) (appliedAt : Time) : Coupon :=
  { Code := code, DiscountType := "percentage", DiscountValue := 10, AppliedAt := appliedAt }

/-- The `validate` tags of `AddItemRequest` in model.go, as checked by the
handler before it calls `AddItem`: product id and title are required, price
and quantity are required and greater than zero. -/
def AddItemRequest.Validate (r : AddItemRequest) : Bool :=
  decide (r.ProductID ≠ "") && decide (r.Title ≠ "") && decide (0 < r.Price)
    && decide (0 < r.Quantity)

/-- A call whose request passed the handler's validation; only `AddItem`
depends on it, the other methods check what they need themselves. -/
def Op.validated : Op → Prop
  | .addItem _ _ _ _ item => item.Validate = true
  | _ => True

/-- The collections reachable from the empty collection by service calls
whose `AddItem` requests passed validation. -/
inductive ReachableValidated (cartTTL : Duration) (taxRate shippingCost : ℚ) : Store → Prop where
  | empty : ReachableValidated cartTTL taxRate shippingCost []
  | step (productSvc : Option ProductServiceClient) (op : Op) (store : Store) :
      op.validated →
      ReachableValidated cartTTL taxRate shippingCost store →
      ReachableValidated cartTTL taxRate shippingCost
        (op.run { productSvc := productSvc, cartTTL := cartTTL, taxRate := taxRate,
                  shippingCost := shippingCost } store)

/-- The default configuration with the mock product service attached, product
`p1` being in stock with 5 units. -/
def mockService : CartService :=
  { productSvc := some (MockProductServiceClient.CheckProductAvailability
      { AvailableProducts := [("p1", 5)] }),
    cartTTL := 259200, taxRate := 18 / 100, shippingCost := 0 }

/-- A request for product `p1` with quantity 0: it does not pass validation,
but `AddItem` itself accepts it. -/
def zeroQuantityRequest : AddItemRequest :=
  { ProductID := "p1", Title := "p1", Description := "", Price := 10, Quantity := 0,
    Weight := "", Image := "", Metadata := [] }

/-- The request adding 2^62 units of product `p1`: it passes validation. -/
def halfRequest : AddItemRequest :=
  { ProductID := "p1", Title := "p1", Description := "", Price := 10,
    Quantity := 4611686018427387904, Weight := "", Image := "", Metadata := [] }

/-- The collection after `CreateCart` and two `AddItem` calls of 2^62 units
of `p1` each. -/
def overflowStore : Store :=
  (AddItem defaultService
    (AddItem defaultService [mkCart 1 [] none] 7 0 0 "000000000000000000000001" halfRequest).2
    8 0 0 "000000000000000000000001" halfRequest).2

/-- A call whose quantity additions stay in the range of a Go `int` on the
given collection: for `AddItem`, the sum of the requested quantity and the
quantity of a line of the addressed cart that holds the request's product; for
`MergeGuestCart`, the sum of the quantities of a target line and a source line
that hold the same product.  The other calls add no quantities. -/
def Op.inRange (store : Store) : Op → Prop
  | .addItem _ _ _ cartID item =>
    ∀ oid c, ObjectIDFromHex cartID = .ok oid → FindOne store oid = some c →
      ∀ t ∈ c.Items, t.ProductID = item.ProductID →
        InIntRange (t.Quantity + item.Quantity)
  | .mergeGuestCart _ _ userCartID guestCartID =>
    ∀ userOID guestOID target source, ObjectIDFromHex userCartID = .ok userOID →
      ObjectIDFromHex guestCartID = .ok guestOID →
      FindOne store userOID = some target → FindOne store guestOID = some source →
      ∀ t ∈ target.Items, ∀ g ∈ source.Items, g.ProductID = t.ProductID →
        InIntRange (t.Quantity + g.Quantity)
  | _ => True

/-- The collections reachable from the empty collection by service calls
whose `AddItem` requests passed validation and whose quantity additions stay
in the range of a Go `int`. -/
inductive ReachableInRange (cartTTL : Duration) (taxRate shippingCost : ℚ) : Store → Prop where
  | empty : ReachableInRange cartTTL taxRate shippingCost []
  | step (productSvc : Option ProductServiceClient) (op : Op) (store : Store) :
      op.validated →
      op.inRange store →
      ReachableInRange cartTTL taxRate shippingCost store →
      ReachableInRange cartTTL taxRate shippingCost
        (op.run { productSvc := productSvc, cartTTL := cartTTL, taxRate := taxRate,
                  shippingCost := shippingCost } store)

/-- The document `CreateCart` inserts. -/
def createdCart (s : CartService) (insertedID : ObjectID) (now : Time)
    (req : CreateCartRequest) : Cart :=
  { ID := insertedID, UserID := req.UserID, Status := CartStatusActive, Items := [],
    Subtotal := 0, TaxAmount := 0, ShippingCost := 0, TotalAmount := 0,
    Coupon := none, Metadata := req.Metadata,
    CreatedAt := now, UpdatedAt := now, ExpiresAt := now + s.cartTTL }

/-- What one service call can do to one stored cart: nothing, or one of the
patches the methods write. -/
inductive CartStep (s : CartService) : Cart → Cart → Prop where
  | unchanged (c : Cart) : CartStep s c c
  | items (now : Time) (cart c : Cart) :
      cart.Coupon = c.Coupon → CartStep s c (setItemsAndTotals (recomputed s now cart) c)
  | cleared (now : Time) (c : Cart) : CartStep s c (clearPatch s now c)
  | couponApplied (appliedAt now : Time) (code : String) (c : Cart) :
      c.Items ≠ [] →
      CartStep s c (setCouponAndTotals
        (recomputed s now { c with Coupon := some (stubCoupon code appliedAt) }) c)
  | couponRemoved (now : Time) (c : Cart) :
      CartStep s c (setCouponAndTotals (recomputed s now { c with Coupon := none }) c)
  | checkedOut (now : Time) (c : Cart) : CartStep s c (checkoutPatch now c)
  | merged (userCartID : String) (c : Cart) : CartStep s c (markMerged userCartID c)
  | mergedIntoItself (now : Time) (userCartID : String) (cart c : Cart) :
      cart.Coupon = c.Coupon →
      CartStep s c (markMerged userCartID (setItemsAndTotals (recomputed s now cart) c))
  | abandoned (c : Cart) :
      c.Status = CartStatusActive → CartStep s c { c with Status := CartStatusAbandoned }

/-! ## Statistics (service.go, model.go) -/

/-- Analytics data for carts. -/
structure CartStatistics where
  TotalCarts : Int
  ActiveCarts : Int
  AbandonedCarts : Int
  CompletedCarts : Int
  AverageCartValue : ℚ
deriving DecidableEq

/-- One row of the `$group` stage of the statistics pipeline. -/
structure StatisticsRow where
  TotalCarts : Int
  ActiveCarts : Int
  AbandonedCarts : Int
  CompletedCarts : Int
  TotalValue : ℚ
deriving DecidableEq

/-- The accumulator `$sum` of `$cond [status = wanted, 1, 0]` over the
grouped documents. -/
def sumStatus (wanted : CartStatus) (docs : List Cart) : Int :=
  docs.foldl (fun n c => n + (if c.Status = wanted then 1 else 0)) 0

/-- The driver call `Aggregate` with the pipeline of `GetCartStatistics`:
`$match` on `createdAt ≥ startTime`, then one `$group` with `_id = nil` over
the matched documents, which yields a single row, or no row when no document
matches. -/
def Aggregate (store : Store) (startTime : Time) : List StatisticsRow :=
  match store.filter (fun c => decide (c.CreatedAt ≥ startTime)) with
  | [] => []
  | d :: ds =>
    [{ TotalCarts := (d :: ds).foldl (fun n _ => n + 1) 0,
       ActiveCarts := sumStatus CartStatusActive (d :: ds),
       AbandonedCarts := sumStatus CartStatusAbandoned (d :: ds),
       CompletedCarts := sumStatus CartStatusCompleted (d :: ds),
       TotalValue := (d :: ds).foldl (fun v c => v + c.TotalAmount) 0 }]

/-- The method `GetCartStatistics`. -/
def GetCartStatistics (_s : CartService) (store : Store) (now : Time) (timeRange : Duration) :
    Except CartError CartStatistics × Store :=
  let startTime := now + (-timeRange)
  let results := Aggregate store startTime
  let stats : CartStatistics :=
    { TotalCarts := 0, ActiveCarts := 0, AbandonedCarts := 0, CompletedCarts := 0,
      AverageCartValue := 0 }
  match results with
  | [] => (.ok stats, store)
  | r :: _ =>
    let stats := { stats with TotalCarts := r.TotalCarts, ActiveCarts := r.ActiveCarts,
                              AbandonedCarts := r.AbandonedCarts,
                              CompletedCarts := r.CompletedCarts }
    if stats.TotalCarts > 0 then
      (.ok { stats with AverageCartValue := r.TotalValue / (stats.TotalCarts : ℚ) }, store)
    else (.ok stats, store)

/-! ## The sweep as the specification words it -/

/-- The abandonment sweep on one cart, in the specification's words: an
active cart last updated strictly before the cutoff becomes abandoned, any
other cart is left as it is. -/
def sweepCart (cutoff : Time) (c : Cart) : Cart :=
  if c.Status = CartStatusActive ∧ c.UpdatedAt < cutoff then
    { c with Status := CartStatusAbandoned }
  else c

/-! ## HTTP handlers (handler.go) -/

/-- An HTTP response: the status code and, on success, the cart sent back. -/
structure Response where
  status : Nat
  body : Option Cart
deriving DecidableEq

/-- The receiver `CartHandler`: the service, and `ValidateToken` with the
handler's key (the subject of a valid token, or nothing). -/
structure CartHandler where
  svc : CartService
  validateToken : String → Option String

/-- Split at the first space. -/
def splitAtSpace : List Char → Option (List Char × List Char)
  | [] => none
  | c :: cs =>
    if c = ' ' then some ([], cs)
    else
      match splitAtSpace cs with
      | some (a, b) => some (c :: a, b)
      | none => none

/-- The library call `strings.SplitN(auth, " ", 2)`. -/
def SplitN2 (auth : String) : List String :=
  match splitAtSpace auth.data with
  | some (a, b) => [String.mk a, String.mk b]
  | none => [auth]

/-- The middleware `OptionalAuthMiddleware`, as the value of `userID` it
leaves in the request context: set only for a `Bearer` token that validates. -/
def CartHandler.OptionalAuthMiddleware (h : CartHandler) (auth : String) : Option String :=
  match SplitN2 auth with
  | [scheme, token] => if scheme = "Bearer" then h.validateToken token else none
  | _ => none

/-- The ownership condition repeated in the cart handlers:
`userID, ok := c.Get("userID").(string); ok && cart.UserID != "" && cart.UserID != userID`. -/
def ownershipDenied (userID : Option String) (cart : Cart) : Bool :=
  match userID with
  | some u => decide (cart.UserID ≠ "" ∧ cart.UserID ≠ u)
  | none => false

/-- The handler `GetCart` (GET /carts/:id). -/
def CartHandler.GetCart (h : CartHandler) (store : Store) (now : Time)
    (userID : Option String) (cartID : String) : Response × Store :=
  match Sattviko.GetCart h.svc store now cartID with
  | (.error err, store1) =>
    if err = ErrCartNotFound then ({ status := 404, body := none }, store1)
    else if err = ErrCartExpired then ({ status := 410, body := none }, store1)
    else ({ status := 500, body := none }, store1)
  | (.ok cart, store1) =>
    if ownershipDenied userID cart then ({ status := 403, body := none }, store1)
    else ({ status := 200, body := some cart }, store1)

/-- The handler `ClearCart` (DELETE /carts/:id/items); `now` is the clock
reading of its `GetCart` call, `now2` that of its `ClearCart` call. -/
def CartHandler.ClearCart (h : CartHandler) (store : Store) (now now2 : Time)
    (userID : Option String) (cartID : String) : Response × Store :=
  match Sattviko.GetCart h.svc store now cartID with
  | (.error err, store1) =>
    if err = ErrCartNotFound then ({ status := 404, body := none }, store1)
    else if err = ErrCartExpired then ({ status := 410, body := none }, store1)
    else ({ status := 500, body := none }, store1)
  | (.ok cart, store1) =>
    if ownershipDenied userID cart then ({ status := 403, body := none }, store1)
    else
      match Sattviko.ClearCart h.svc store1 now2 cartID with
      | (.error err, store2) =>
        if err = ErrCartNotFound then ({ status := 404, body := none }, store2)
        else ({ status := 500, body := none }, store2)
      | (.ok updatedCart, store2) => ({ status := 200, body := some updatedCart }, store2)

/-- A cart owned by user `alice`, holding one line. -/
def aliceCart : Cart :=
  { ID := 1, UserID := "alice", Status := CartStatusActive, Items := [mkItem 7 "p1" 10 2],
    Subtotal := 20, TaxAmount := 18 / 5, ShippingCost := 0, TotalAmount := 118 / 5,
    Coupon := none, Metadata := [], CreatedAt := 0, UpdatedAt := 0, ExpiresAt := 259200 }

/-- A handler over the default service whose token check accepts the tokens
`alice-token` and `bob-token` for the users `alice` and `bob`. -/
def demoHandler : CartHandler :=
  { svc := defaultService,
    validateToken := fun token =>
      if token = "alice-token" then some "alice"
      else if token = "bob-token" then some "bob"
      else none }

/-- The carts created in the lookback window, in the specification's words:
those with `createdAt ≥ now − window`. -/
def inWindow (store : Store) (now : Time) (window : Duration) : List Cart :=
  store.filter (fun c => decide (c.CreatedAt ≥ now - window))

/-- The carts the sweep is about, in the specification's words: status
`active` and `updatedAt` strictly earlier than `now − threshold`. -/
def staleCarts (store : Store) (now : Time) (threshold : Duration) : List Cart :=
  store.filter (fun c => decide (c.Status = CartStatusActive ∧ c.UpdatedAt < now - threshold))

/-- An active cart last updated at the given time. -/
def cartUpdatedAt (id : ObjectID) (updatedAt : Time) : Cart :=
  { mkCart id [mkItem 7 "p1" 10 2] none with UpdatedAt := updatedAt }

/-- The expiry rule in the specification's words, for the cart a call
returned and the collection the call left: the returned cart expires one TTL
after its update time, and so does the document stored under its id. -/
def ExpiryRenewed (s : CartService) (updated : Cart) (store1 : Store) : Prop :=
  updated.ExpiresAt = updated.UpdatedAt + s.cartTTL
    ∧ ∃ stored, FindOne store1 updated.ID = some stored
        ∧ stored.ExpiresAt = stored.UpdatedAt + s.cartTTL

/-- The scenario's cart in status `completed`. -/
def completedCart : Cart := { cartAfterAdd with Status := CartStatusCompleted }

/-- The scenario's cart after a checkout at time 5. -/
def processingCart : Cart := checkoutPatch 5 cartAfterAdd

/-- The source cart of the merge example after a checkout: status
`processing`. -/
def processingGuest : Cart := { mergeSource with Status := CartStatusProcessing }

/-! ## Pricing engine: lemmas -/

theorem foldl_subtotal_acc (items : List CartItem) (acc : ℚ) :
    items.foldl (fun subtotal item => subtotal + item.Price * (item.Quantity : ℚ)) acc
      = acc + rawSubtotal items := by
  induction items generalizing acc with
  | nil => simp [rawSubtotal]
  | cons item rest ih =>
    simp only [List.foldl_cons, ih, rawSubtotal, List.map_cons, List.sum_cons]
    ring

theorem subtotalLoop_eq_rawSubtotal (items : List CartItem) :
    subtotalLoop items = rawSubtotal items := by
  unfold subtotalLoop
  rw [foldl_subtotal_acc]
  simp

theorem rawSubtotal_nonneg (items : List CartItem)
    (h : ∀ item ∈ items, 0 ≤ item.Price ∧ 0 ≤ item.Quantity) :
    0 ≤ rawSubtotal items := by
  induction items with
  | nil => simp [rawSubtotal]
  | cons item rest ih =>
    have h1 := h item (List.mem_cons_self _ _)
    have h2 : 0 ≤ rawSubtotal rest := ih (fun x hx => h x (List.mem_cons_of_mem _ hx))
    have h3 : (0 : ℚ) ≤ (item.Quantity : ℚ) := by exact_mod_cast h1.2
    have h4 : 0 ≤ item.Price * (item.Quantity : ℚ) := mul_nonneg h1.1 h3
    simp only [rawSubtotal, List.map_cons, List.sum_cons] at h2 ⊢
    linarith

@[simp] theorem calculateCartTotals_Subtotal (s : CartService) (cart : Cart) :
    (calculateCartTotals s cart).Subtotal = subtotalLoop cart.Items := rfl

@[simp] theorem calculateCartTotals_TaxAmount (s : CartService) (cart : Cart) :
    (calculateCartTotals s cart).TaxAmount
      = applyCouponStep cart.Coupon (subtotalLoop cart.Items) * s.taxRate := rfl

@[simp] theorem calculateCartTotals_ShippingCost (s : CartService) (cart : Cart) :
    (calculateCartTotals s cart).ShippingCost = s.shippingCost := rfl

@[simp] theorem calculateCartTotals_TotalAmount (s : CartService) (cart : Cart) :
    (calculateCartTotals s cart).TotalAmount
      = applyCouponStep cart.Coupon (subtotalLoop cart.Items)
        + applyCouponStep cart.Coupon (subtotalLoop cart.Items) * s.taxRate
        + s.shippingCost := rfl

@[simp] theorem calculateCartTotals_Items (s : CartService) (cart : Cart) :
    (calculateCartTotals s cart).Items = cart.Items := rfl

@[simp] theorem calculateCartTotals_Coupon (s : CartService) (cart : Cart) :
    (calculateCartTotals s cart).Coupon = cart.Coupon := rfl

theorem applyCouponStep_of_discounted (coupon : Option Coupon) (raw d : ℚ)
    (h : IsDiscountedSubtotal coupon raw d) : applyCouponStep coupon raw = d := by
  cases coupon with
  | none => simpa [IsDiscountedSubtotal, applyCouponStep] using h.symm
  | some c =>
    simp only [IsDiscountedSubtotal] at h
    rcases h with ⟨ht, hd⟩ | ⟨ht, hd⟩
    · simp only [applyCouponStep, ht, if_true, hd]
      ring
    · have hne : ¬ ("fixed" = "percentage") := by decide
      simp only [applyCouponStep, ht, if_neg hne, if_true, hd]
      by_cases hlt : raw - c.DiscountValue < 0
      · rw [if_pos hlt, max_eq_left (le_of_lt hlt)]
      · rw [if_neg hlt, max_eq_right (not_lt.mp hlt)]

/-! ## Pricing engine: claims -/

/-- C2: after `calculateCartTotals` the `Subtotal` field is the sum over the
items of price × quantity, whatever the coupon, and it is 0 for an empty item
list. -/
theorem calculateCartTotals_subtotal_is_sum (s : CartService) (cart : Cart) :
    (calculateCartTotals s cart).Subtotal
        = (cart.Items.map (fun item => item.Price * (item.Quantity : ℚ))).sum
      ∧ (calculateCartTotals s { cart with Items := [] }).Subtotal = 0 := by
  constructor
  · rw [calculateCartTotals_Subtotal, subtotalLoop_eq_rawSubtotal]
    rfl
  · rw [calculateCartTotals_Subtotal]
    rfl

/-- C3: tax and total are computed on the post-discount value: when `d` is
the discounted subtotal of the specification for the cart's items and coupon,
`TaxAmount = d × taxRate` and `TotalAmount = d + TaxAmount + shippingCost`. -/
theorem calculateCartTotals_tax_on_discounted (s : CartService) (cart : Cart) (d : ℚ)
    (h : IsDiscountedSubtotal cart.Coupon (rawSubtotal cart.Items) d) :
    (calculateCartTotals s cart).TaxAmount = d * s.taxRate
      ∧ (calculateCartTotals s cart).TotalAmount
          = d + (calculateCartTotals s cart).TaxAmount + s.shippingCost := by
  have hd := applyCouponStep_of_discounted _ _ _ h
  rw [← subtotalLoop_eq_rawSubtotal] at hd
  simp [hd]

/-- C3, worked example: one line of price 10 and quantity 2 with a 10 percent
coupon, tax rate 0.18 and free shipping has discounted subtotal 18, tax 3.24
and total 21.24. -/
theorem calculateCartTotals_tax_on_discounted_witness :
    IsDiscountedSubtotal (some (mkCoupon "percentage" 10)) (rawSubtotal [mkItem 1 "p1" 10 2]) 18
      ∧ (calculateCartTotals defaultService
            (mkCart 1 [mkItem 1 "p1" 10 2] (some (mkCoupon "percentage" 10)))).TaxAmount
          = 324 / 100
      ∧ (calculateCartTotals defaultService
            (mkCart 1 [mkItem 1 "p1" 10 2] (some (mkCoupon "percentage" 10)))).TotalAmount
          = 2124 / 100 := by
  have hd : IsDiscountedSubtotal (some (mkCoupon "percentage" 10))
      (rawSubtotal [mkItem 1 "p1" 10 2]) 18 := by
    left
    refine ⟨rfl, ?_⟩
    norm_num [rawSubtotal, mkItem, mkCoupon]
  have h := calculateCartTotals_tax_on_discounted defaultService
    (mkCart 1 [mkItem 1 "p1" 10 2] (some (mkCoupon "percentage" 10))) 18 hd
  refine ⟨hd, ?_, ?_⟩
  · rw [h.1]
    norm_num [defaultService]
  · rw [h.2, h.1]
    norm_num [defaultService]

/-- C4: with a `fixed` coupon whose value is at least the raw subtotal, the
discounted subtotal is 0, the tax is 0 and the total is the shipping cost. -/
theorem calculateCartTotals_fixed_clamps (s : CartService) (cart : Cart) (c : Coupon)
    (hc : cart.Coupon = some c) (ht : c.DiscountType = "fixed")
    (hv : rawSubtotal cart.Items ≤ c.DiscountValue) :
    applyCouponStep cart.Coupon (subtotalLoop cart.Items) = 0
      ∧ (calculateCartTotals s cart).TaxAmount = 0
      ∧ (calculateCartTotals s cart).TotalAmount = s.shippingCost := by
  have hd : IsDiscountedSubtotal cart.Coupon (rawSubtotal cart.Items) 0 := by
    rw [hc]
    right
    exact ⟨ht, (max_eq_left (by linarith)).symm⟩
  have h0 := applyCouponStep_of_discounted _ _ _ hd
  rw [← subtotalLoop_eq_rawSubtotal] at h0
  simp [h0]

/-- C4, worked example: subtotal 50 (one line of price 50, quantity 1) with a
fixed coupon of 80. -/
theorem calculateCartTotals_fixed_clamps_witness :
    rawSubtotal (mkCart 1 [mkItem 1 "p1" 50 1] (some (mkCoupon "fixed" 80))).Items = 50
      ∧ applyCouponStep (mkCart 1 [mkItem 1 "p1" 50 1] (some (mkCoupon "fixed" 80))).Coupon
          (subtotalLoop (mkCart 1 [mkItem 1 "p1" 50 1] (some (mkCoupon "fixed" 80))).Items) = 0
      ∧ (calculateCartTotals defaultService
          (mkCart 1 [mkItem 1 "p1" 50 1] (some (mkCoupon "fixed" 80)))).TaxAmount = 0
      ∧ (calculateCartTotals defaultService
          (mkCart 1 [mkItem 1 "p1" 50 1] (some (mkCoupon "fixed" 80)))).TotalAmount
          = defaultService.shippingCost :=
  ⟨by norm_num [rawSubtotal, mkCart, mkItem],
   calculateCartTotals_fixed_clamps defaultService
     (mkCart 1 [mkItem 1 "p1" 50 1] (some (mkCoupon "fixed" 80))) (mkCoupon "fixed" 80)
     rfl rfl (by norm_num [rawSubtotal, mkCart, mkItem, mkCoupon])⟩

/-- C5 as stated fails: a `percentage` coupon is not clamped.  One line of
price 100 and quantity 1 with a percentage coupon of 150 is taxed on −50, so
the tax is negative and the total is below the shipping cost. -/
theorem percentage_coupon_not_clamped :
    (∀ item ∈ (mkCart 1 [mkItem 1 "p1" 100 1] (some (mkCoupon "percentage" 150))).Items,
        0 ≤ item.Price ∧ 0 ≤ item.Quantity)
      ∧ 0 ≤ defaultService.taxRate
      ∧ applyCouponStep (some (mkCoupon "percentage" 150))
          (subtotalLoop [mkItem 1 "p1" 100 1]) = -50
      ∧ (calculateCartTotals defaultService
          (mkCart 1 [mkItem 1 "p1" 100 1] (some (mkCoupon "percentage" 150)))).TaxAmount < 0
      ∧ (calculateCartTotals defaultService
          (mkCart 1 [mkItem 1 "p1" 100 1] (some (mkCoupon "percentage" 150)))).TotalAmount
          < defaultService.shippingCost := by
  have h : applyCouponStep (some (mkCoupon "percentage" 150))
      (subtotalLoop [mkItem 1 "p1" 100 1]) = -50 := by
    norm_num [applyCouponStep, subtotalLoop, mkItem, mkCoupon]
  refine ⟨?_, ?_, h, ?_, ?_⟩
  · intro item hitem
    simp only [mkCart, List.mem_singleton] at hitem
    subst hitem
    norm_num [mkItem]
  · norm_num [defaultService]
  · rw [calculateCartTotals_TaxAmount]
    simp only [mkCart]
    rw [h]
    norm_num [defaultService]
  · rw [calculateCartTotals_TotalAmount]
    simp only [mkCart]
    rw [h]
    norm_num [defaultService]

/-- C5, amended: for items with non-negative prices and quantities, the
amount on which tax is computed is non-negative when the coupon is `fixed`
(any value) or `percentage` with a value of at most 100; then, with a
non-negative tax rate, the tax is non-negative and the total is at least the
shipping cost. -/
theorem calculateCartTotals_discounted_nonneg (s : CartService) (cart : Cart) (c : Coupon)
    (hitems : ∀ item ∈ cart.Items, 0 ≤ item.Price ∧ 0 ≤ item.Quantity)
    (hc : cart.Coupon = some c)
    (ht : c.DiscountType = "fixed" ∨ (c.DiscountType = "percentage" ∧ c.DiscountValue ≤ 100)) :
    0 ≤ applyCouponStep cart.Coupon (subtotalLoop cart.Items)
      ∧ (0 ≤ s.taxRate →
          0 ≤ (calculateCartTotals s cart).TaxAmount
            ∧ s.shippingCost ≤ (calculateCartTotals s cart).TotalAmount) := by
  have hraw : 0 ≤ subtotalLoop cart.Items := by
    rw [subtotalLoop_eq_rawSubtotal]
    exact rawSubtotal_nonneg _ hitems
  have hnn : 0 ≤ applyCouponStep cart.Coupon (subtotalLoop cart.Items) := by
    rw [hc]
    rcases ht with ht | ⟨ht, hv⟩
    · have hne : ¬ ("fixed" = "percentage") := by decide
      simp only [applyCouponStep, ht, if_neg hne, if_true]
      split
      · exact le_refl _
      · linarith
    · simp only [applyCouponStep, ht, if_true]
      have h1 : 0 ≤ (1 - c.DiscountValue / 100) * subtotalLoop cart.Items :=
        mul_nonneg (by linarith) hraw
      linarith
  refine ⟨hnn, fun htax => ?_⟩
  have h2 := mul_nonneg hnn htax
  rw [calculateCartTotals_TaxAmount, calculateCartTotals_TotalAmount]
  exact ⟨h2, by linarith⟩

/-- C5, amended, worked example: a fixed coupon of 80 on a subtotal of 50 at
the default tax rate. -/
theorem calculateCartTotals_discounted_nonneg_witness :
    0 ≤ applyCouponStep (mkCart 1 [mkItem 1 "p1" 50 1] (some (mkCoupon "fixed" 80))).Coupon
          (subtotalLoop (mkCart 1 [mkItem 1 "p1" 50 1] (some (mkCoupon "fixed" 80))).Items)
      ∧ 0 ≤ (calculateCartTotals defaultService
                (mkCart 1 [mkItem 1 "p1" 50 1] (some (mkCoupon "fixed" 80)))).TaxAmount
      ∧ defaultService.shippingCost
          ≤ (calculateCartTotals defaultService
              (mkCart 1 [mkItem 1 "p1" 50 1] (some (mkCoupon "fixed" 80)))).TotalAmount :=
  have h := calculateCartTotals_discounted_nonneg defaultService
    (mkCart 1 [mkItem 1 "p1" 50 1] (some (mkCoupon "fixed" 80))) (mkCoupon "fixed" 80)
    (by
      intro item hitem
      simp only [mkCart, List.mem_singleton] at hitem
      subst hitem
      norm_num [mkItem])
    rfl (Or.inl rfl)
  ⟨h.1, h.2 (by norm_num [defaultService])⟩

/-! ## Collection lemmas -/

theorem FindOne_some_mem {store : Store} {oid : ObjectID} {c : Cart}
    (h : FindOne store oid = some c) : c ∈ store ∧ c.ID = oid := by
  unfold FindOne at h
  exact ⟨List.mem_of_find?_eq_some h, by simpa using List.find?_some h⟩

theorem updateFirst_of_FindOne_none (patch : Cart → Cart) {store : Store} {oid : ObjectID}
    (h : FindOne store oid = none) : updateFirst oid patch store = store := by
  induction store with
  | nil => rfl
  | cons c cs ih =>
    by_cases hc : c.ID = oid
    · simp [FindOne, List.find?_cons, hc] at h
    · have h2 : FindOne cs oid = none := by
        simpa [FindOne, List.find?_cons, hc] using h
      simp [updateFirst, hc, ih h2]

theorem mem_updateFirst {patch : Cart → Cart} {store : Store} {oid : ObjectID} {x : Cart}
    (h : x ∈ updateFirst oid patch store) :
    x ∈ store ∨ ∃ c, FindOne store oid = some c ∧ x = patch c := by
  induction store with
  | nil => simp [updateFirst] at h
  | cons c cs ih =>
    by_cases hc : c.ID = oid
    · simp only [updateFirst, hc, if_true, List.mem_cons] at h
      rcases h with h | h
      · right
        exact ⟨c, by simp [FindOne, List.find?_cons, hc], h⟩
      · left
        exact List.mem_cons_of_mem _ h
    · simp only [updateFirst, hc, if_false, List.mem_cons] at h
      rcases h with h | h
      · left
        rw [h]
        exact List.mem_cons_self _ _
      · rcases ih h with h2 | ⟨c2, h2, h3⟩
        · left
          exact List.mem_cons_of_mem _ h2
        · right
          exact ⟨c2, by simpa [FindOne, List.find?_cons, hc] using h2, h3⟩

theorem FindOneAndUpdate_snd (store : Store) (oid : ObjectID) (patch : Cart → Cart) :
    (FindOneAndUpdate store oid patch).2 = updateFirst oid patch store := by
  unfold FindOneAndUpdate
  cases h : FindOne store oid with
  | none => simp [updateFirst_of_FindOne_none patch h]
  | some c => simp

theorem FindOneAndUpdate_of_some {store : Store} {oid : ObjectID} {c : Cart}
    (patch : Cart → Cart) (h : FindOne store oid = some c) :
    FindOneAndUpdate store oid patch = (some (patch c), updateFirst oid patch store) := by
  simp [FindOneAndUpdate, h]

theorem decodeResult_snd (store : Store) (oid : ObjectID) (patch : Cart → Cart) :
    (decodeResult (FindOneAndUpdate store oid patch)).2 = updateFirst oid patch store := by
  unfold decodeResult
  split <;> exact FindOneAndUpdate_snd store oid patch

theorem decodeResult_of_some {store : Store} {oid : ObjectID} {c : Cart}
    (patch : Cart → Cart) (h : FindOne store oid = some c) :
    decodeResult (FindOneAndUpdate store oid patch)
      = (.ok (patch c), updateFirst oid patch store) := by
  simp [decodeResult, FindOneAndUpdate_of_some patch h]

theorem forall_mem_updateFirst {P : Cart → Prop} {patch : Cart → Cart} {store : Store}
    {oid : ObjectID} (hstore : ∀ c ∈ store, P c)
    (hpatch : ∀ c, FindOne store oid = some c → P (patch c)) :
    ∀ x ∈ updateFirst oid patch store, P x := by
  intro x hx
  rcases mem_updateFirst hx with h | ⟨c, hc, rfl⟩
  · exact hstore x h
  · exact hpatch c hc

/-! ## Effect of each method on the collection: lemmas -/

theorem CreateCart_store (s : CartService) (store : Store) (insertedID : ObjectID)
    (now : Time) (req : CreateCartRequest) :
    (CreateCart s store insertedID now req).2 = store ∨
    (CreateCart s store insertedID now req).2 = store ++
      [{ ID := insertedID, UserID := req.UserID, Status := CartStatusActive, Items := [],
         Subtotal := 0, TaxAmount := 0, ShippingCost := 0, TotalAmount := 0,
         Coupon := none, Metadata := req.Metadata,
         CreatedAt := now, UpdatedAt := now, ExpiresAt := now + s.cartTTL }] := by
  unfold CreateCart InsertOne
  cases FindOne store insertedID with
  | none => right; rfl
  | some c => left; rfl

theorem AddItem_store (s : CartService) (store : Store) (newItemID : ObjectID)
    (addedAt now : Time) (cartID : String) (item : AddItemRequest) :
    (AddItem s store newItemID addedAt now cartID item).2 = store ∨
    ∃ oid c cart, FindOne store oid = some c ∧ cart.Coupon = c.Coupon ∧
      (AddItem s store newItemID addedAt now cartID item).2
        = updateFirst oid (setItemsAndTotals (recomputed s now cart)) store := by
  unfold AddItem
  split
  · left; rfl
  · split
    · left; rfl
    · split
      · left; rfl
      · right
        refine ⟨_, _, _, by assumption, ?_, decodeResult_snd _ _ _⟩
        split <;> rfl

theorem UpdateItem_store (s : CartService) (store : Store) (now : Time)
    (cartID itemID : String) (req : UpdateItemRequest) :
    (UpdateItem s store now cartID itemID req).2 = store ∨
    ∃ oid c cart, FindOne store oid = some c ∧ cart.Coupon = c.Coupon ∧
      (UpdateItem s store now cartID itemID req).2
        = updateFirst oid (setItemsAndTotals (recomputed s now cart)) store := by
  unfold UpdateItem
  split
  · left; rfl
  · split
    · left; rfl
    · split
      · left; rfl
      · split
        · left; rfl
        · split
          · left; rfl
          · split
            · left; rfl
            · right
              refine ⟨_, _, _, by assumption, ?_, decodeResult_snd _ _ _⟩
              rfl

theorem RemoveItem_store (s : CartService) (store : Store) (now : Time)
    (cartID itemID : String) :
    (RemoveItem s store now cartID itemID).2 = store ∨
    ∃ oid c cart, FindOne store oid = some c ∧ cart.Coupon = c.Coupon ∧
      (RemoveItem s store now cartID itemID).2
        = updateFirst oid (setItemsAndTotals (recomputed s now cart)) store := by
  unfold RemoveItem
  split
  · left; rfl
  · split
    · left; rfl
    · split
      · left; rfl
      · split
        · left; rfl
        · right
          refine ⟨_, _, _, by assumption, ?_, decodeResult_snd _ _ _⟩
          rfl

theorem ClearCart_store (s : CartService) (store : Store) (now : Time) (cartID : String) :
    (ClearCart s store now cartID).2 = store ∨
    ∃ oid, (ClearCart s store now cartID).2
        = updateFirst oid (fun doc =>
            { doc with Items := [], Subtotal := 0, TaxAmount := 0, ShippingCost := 0,
                       TotalAmount := 0, UpdatedAt := now, ExpiresAt := now + s.cartTTL })
          store := by
  unfold ClearCart
  split
  · left; rfl
  · rename_i oid _
    right
    refine ⟨oid, ?_⟩
    simp only []
    split <;> exact FindOneAndUpdate_snd _ _ _

theorem ApplyCoupon_store (s : CartService) (store : Store) (appliedAt now : Time)
    (cartID : String) (req : ApplyCouponRequest) :
    (ApplyCoupon s store appliedAt now cartID req).2 = store ∨
    ∃ oid c, FindOne store oid = some c ∧ c.Items ≠ [] ∧
      (ApplyCoupon s store appliedAt now cartID req).2
        = updateFirst oid (setCouponAndTotals (recomputed s now
            { c with Coupon := some { Code := req.Code, DiscountType := "percentage",
                                      DiscountValue := 10, AppliedAt := appliedAt } })) store := by
  unfold ApplyCoupon
  split
  · left; rfl
  · split
    · left; rfl
    · split
      · left; rfl
      · rename_i oid _ _ c hfind hne
        right
        refine ⟨oid, c, hfind, ?_, decodeResult_snd _ _ _⟩
        intro h
        exact hne (by simp [h])

theorem RemoveCoupon_store (s : CartService) (store : Store) (now : Time) (cartID : String) :
    (RemoveCoupon s store now cartID).2 = store ∨
    ∃ oid c, FindOne store oid = some c ∧
      (RemoveCoupon s store now cartID).2
        = updateFirst oid (setCouponAndTotals (recomputed s now { c with Coupon := none }))
            store := by
  unfold RemoveCoupon
  split
  · left; rfl
  · split
    · left; rfl
    · rename_i oid _ _ c hfind
      right
      exact ⟨oid, c, hfind, decodeResult_snd _ _ _⟩

theorem CheckoutCart_store (s : CartService) (store : Store) (now : Time) (cartID : String) :
    (CheckoutCart s store now cartID).2 = store ∨
    ∃ oid, (CheckoutCart s store now cartID).2
        = updateFirst oid (fun doc =>
            { doc with Status := CartStatusProcessing, UpdatedAt := now }) store := by
  unfold CheckoutCart
  split
  · left; rfl
  · split
    · left; rfl
    · split
      · left; rfl
      · right
        exact ⟨_, decodeResult_snd _ _ _⟩

theorem MergeGuestCart_store (s : CartService) (store : Store) (now : Time)
    (secondaryWriteOk : Bool) (userCartID guestCartID : String) :
    (MergeGuestCart s store now secondaryWriteOk userCartID guestCartID).2 = store ∨
    ∃ userOID guestOID c cart, FindOne store userOID = some c ∧ cart.Coupon = c.Coupon ∧
      (MergeGuestCart s store now secondaryWriteOk userCartID guestCartID).2
        = if secondaryWriteOk then
            updateFirst guestOID (fun doc =>
                { doc with Status := CartStatusCompleted,
                           Metadata := [("mergedTo", userCartID)] })
              (updateFirst userOID (setItemsAndTotals (recomputed s now cart)) store)
          else updateFirst userOID (setItemsAndTotals (recomputed s now cart)) store := by
  unfold MergeGuestCart
  split
  · left; rfl
  · split
    · left; rfl
    · split
      · left; rfl
      · split
        · left; rfl
        · right
          rename_i userOID _ _ guestOID _ _ guestCart _ _ c hfind
          refine ⟨userOID, guestOID, c,
            { c with Items := mergeLoop (buildItemMap c.Items 0 []) guestCart.Items c.Items },
            hfind, rfl, ?_⟩
          simp only [FindOneAndUpdate_of_some _ hfind, UpdateOne]
          rfl

theorem CleanupAbandonedCarts_store (s : CartService) (store : Store) (now : Time)
    (olderThan : Duration) :
    (CleanupAbandonedCarts s store now olderThan).2
      = store.map (fun c =>
          if decide (c.Status = CartStatusActive ∧ c.UpdatedAt < now + (-olderThan))
          then { c with Status := CartStatusAbandoned } else c) := rfl

/-! ## Stored totals against recomputed totals: the invariant -/

theorem TotalsInv_congr {s s1 : CartService} {c d : Cart}
    (htax : s1.taxRate = s.taxRate) (hship : s1.shippingCost = s.shippingCost)
    (hi : d.Items = c.Items) (hc : d.Coupon = c.Coupon) (ht : d.TotalAmount = c.TotalAmount)
    (h : TotalsInv s c) : TotalsInv s1 d := by
  unfold TotalsInv at *
  simp only [calculateCartTotals_TotalAmount, hi, hc, ht, htax, hship] at *
  exact h

theorem TotalsInv_setItemsAndTotals {s s1 : CartService} {c cart : Cart} (now : Time)
    (htax : s1.taxRate = s.taxRate) (hship : s1.shippingCost = s.shippingCost)
    (hcoupon : cart.Coupon = c.Coupon) (h : TotalsInv s c) :
    TotalsInv s (setItemsAndTotals (recomputed s1 now cart) c) := by
  refine ⟨Or.inl ?_, ?_⟩
  · simp [setItemsAndTotals, recomputed, hcoupon, htax, hship]
  · exact h.2

theorem TotalsInv_setCouponAndTotals {s s1 : CartService} {c : Cart} (now : Time)
    (coupon : Option Coupon)
    (htax : s1.taxRate = s.taxRate) (hship : s1.shippingCost = s.shippingCost)
    (hperc : ∀ k, coupon = some k → k.DiscountType = "percentage") :
    TotalsInv s (setCouponAndTotals (recomputed s1 now { c with Coupon := coupon }) c) := by
  refine ⟨Or.inl ?_, ?_⟩
  · simp [setCouponAndTotals, recomputed, htax, hship]
  · exact hperc

theorem applyCouponStep_percentage_zero (coupon : Option Coupon)
    (h : ∀ c, coupon = some c → c.DiscountType = "percentage") :
    applyCouponStep coupon 0 = 0 := by
  cases coupon with
  | none => rfl
  | some c => simp [applyCouponStep, h c rfl]

theorem reachable_TotalsInv (s : CartService) (store : Store)
    (h : Reachable s.cartTTL s.taxRate s.shippingCost store) :
    ∀ cart ∈ store, TotalsInv s cart := by
  induction h with
  | empty => intro cart hc; simp at hc
  | step productSvc op store _ ih =>
    cases op with
    | createCart insertedID now req =>
      intro cart hc
      simp only [Op.run] at hc
      rcases CreateCart_store _ store insertedID now req with h | h
      · rw [h] at hc; exact ih cart hc
      · rw [h, List.mem_append, List.mem_singleton] at hc
        rcases hc with hc | hc
        · exact ih cart hc
        · subst hc
          exact ⟨Or.inr ⟨rfl, rfl⟩, fun c hc => by simp at hc⟩
    | addItem newItemID addedAt now cartID item =>
      simp only [Op.run]
      rcases AddItem_store _ store newItemID addedAt now cartID item with h | ⟨oid, c, cart, hf, hcp, h⟩
      · rw [h]; exact ih
      · rw [h]
        exact forall_mem_updateFirst ih (fun c1 hc1 => by
          have hcc : c1 = c := by rw [hf] at hc1; exact (Option.some.inj hc1).symm
          subst hcc
          exact TotalsInv_setItemsAndTotals now rfl rfl hcp (ih c1 (FindOne_some_mem hf).1))
    | updateItem now cartID itemID req =>
      simp only [Op.run]
      rcases UpdateItem_store _ store now cartID itemID req with h | ⟨oid, c, cart, hf, hcp, h⟩
      · rw [h]; exact ih
      · rw [h]
        exact forall_mem_updateFirst ih (fun c1 hc1 => by
          have hcc : c1 = c := by rw [hf] at hc1; exact (Option.some.inj hc1).symm
          subst hcc
          exact TotalsInv_setItemsAndTotals now rfl rfl hcp (ih c1 (FindOne_some_mem hf).1))
    | removeItem now cartID itemID =>
      simp only [Op.run]
      rcases RemoveItem_store _ store now cartID itemID with h | ⟨oid, c, cart, hf, hcp, h⟩
      · rw [h]; exact ih
      · rw [h]
        exact forall_mem_updateFirst ih (fun c1 hc1 => by
          have hcc : c1 = c := by rw [hf] at hc1; exact (Option.some.inj hc1).symm
          subst hcc
          exact TotalsInv_setItemsAndTotals now rfl rfl hcp (ih c1 (FindOne_some_mem hf).1))
    | clearCart now cartID =>
      simp only [Op.run]
      rcases ClearCart_store _ store now cartID with h | ⟨oid, h⟩
      · rw [h]; exact ih
      · rw [h]
        exact forall_mem_updateFirst ih (fun c1 hc1 =>
          ⟨Or.inr ⟨rfl, rfl⟩, (ih c1 (FindOne_some_mem hc1).1).2⟩)
    | applyCoupon appliedAt now cartID req =>
      simp only [Op.run]
      rcases ApplyCoupon_store _ store appliedAt now cartID req with h | ⟨oid, c, hf, _, h⟩
      · rw [h]; exact ih
      · rw [h]
        exact forall_mem_updateFirst ih (fun c1 hc1 => by
          have hcc : c1 = c := by rw [hf] at hc1; exact (Option.some.inj hc1).symm
          subst hcc
          exact TotalsInv_setCouponAndTotals now _ rfl rfl (fun k hk => by
            rw [← Option.some.inj hk]))
    | removeCoupon now cartID =>
      simp only [Op.run]
      rcases RemoveCoupon_store _ store now cartID with h | ⟨oid, c, hf, h⟩
      · rw [h]; exact ih
      · rw [h]
        exact forall_mem_updateFirst ih (fun c1 hc1 => by
          have hcc : c1 = c := by rw [hf] at hc1; exact (Option.some.inj hc1).symm
          subst hcc
          exact TotalsInv_setCouponAndTotals now _ rfl rfl (fun k hk => by simp at hk))
    | checkoutCart now cartID =>
      simp only [Op.run]
      rcases CheckoutCart_store _ store now cartID with h | ⟨oid, h⟩
      · rw [h]; exact ih
      · rw [h]
        exact forall_mem_updateFirst ih (fun c1 hc1 =>
          TotalsInv_congr rfl rfl rfl rfl rfl (ih c1 (FindOne_some_mem hc1).1))
    | mergeGuestCart now ok userCartID guestCartID =>
      simp only [Op.run]
      rcases MergeGuestCart_store _ store now ok userCartID guestCartID with
        h | ⟨userOID, guestOID, c, cart, hf, hcp, h⟩
      · rw [h]; exact ih
      · rw [h]
        have hprimary : ∀ x ∈ updateFirst userOID
            (setItemsAndTotals (recomputed
              { productSvc := productSvc, cartTTL := s.cartTTL, taxRate := s.taxRate,
                shippingCost := s.shippingCost } now cart)) store, TotalsInv s x :=
          forall_mem_updateFirst ih (fun c1 hc1 => by
            have hcc : c1 = c := by rw [hf] at hc1; exact (Option.some.inj hc1).symm
            subst hcc
            exact TotalsInv_setItemsAndTotals now rfl rfl hcp (ih c1 (FindOne_some_mem hf).1))
        cases ok with
        | false => simpa using hprimary
        | true =>
          simp only [if_true]
          exact forall_mem_updateFirst hprimary (fun c1 hc1 =>
            TotalsInv_congr rfl rfl rfl rfl rfl (hprimary c1 (FindOne_some_mem hc1).1))
    | cleanupAbandonedCarts now olderThan =>
      simp only [Op.run, CleanupAbandonedCarts_store]
      intro cart hc
      rw [List.mem_map] at hc
      obtain ⟨c, hcs, rfl⟩ := hc
      split
      · exact TotalsInv_congr rfl rfl rfl rfl rfl (ih c hcs)
      · exact ih c hcs

/-! ## The worked scenario, evaluated -/

theorem ObjectIDFromHex_one : ObjectIDFromHex "000000000000000000000001" = .ok 1 := rfl

theorem ObjectIDFromHex_two : ObjectIDFromHex "000000000000000000000002" = .ok 2 := rfl

theorem scenario_create :
    CreateCart defaultService [] 1 0 { UserID := "", Metadata := [] }
      = (.ok (mkCart 1 [] none), [mkCart 1 [] none]) := rfl

theorem scenario_add :
    AddItem defaultService [mkCart 1 [] none] 7 0 0 "000000000000000000000001" p1Request
      = (.ok cartAfterAdd, [cartAfterAdd]) := by
  simp [AddItem, defaultService, ObjectIDFromHex_one, FindOne, mkCart, decodeResult,
    FindOneAndUpdate, updateFirst, setItemsAndTotals, calculateCartTotals, subtotalLoop,
    applyCouponStep, addToExisting, mkItem, p1Request, cartAfterAdd]
  norm_num

theorem scenario_coupon :
    ApplyCoupon defaultService [cartAfterAdd] 0 0 "000000000000000000000001" { Code := "SAVE" }
      = (.ok cartAfterCoupon, [cartAfterCoupon]) := by
  simp [ApplyCoupon, defaultService, ObjectIDFromHex_one, FindOne, mkCart, decodeResult,
    FindOneAndUpdate, updateFirst, setCouponAndTotals, calculateCartTotals, subtotalLoop,
    applyCouponStep, mkItem, mkCoupon, cartAfterAdd, cartAfterCoupon]
  norm_num

/-- The scenario's collection after create and add is reachable under the
default configuration. -/
theorem scenario_reachable : Reachable 259200 (18 / 100) 0 [cartAfterAdd] := by
  have h0 : Reachable 259200 (18 / 100) 0 [] := Reachable.empty
  have h1 := Reachable.step none (Op.createCart 1 0 { UserID := "", Metadata := [] }) [] h0
  have e1 : (Op.createCart 1 0 { UserID := "", Metadata := [] }).run
      { productSvc := none, cartTTL := 259200, taxRate := 18 / 100, shippingCost := 0 } []
      = [mkCart 1 [] none] := congrArg Prod.snd scenario_create
  rw [e1] at h1
  have h2 := Reachable.step none
    (Op.addItem 7 0 0 "000000000000000000000001" p1Request) _ h1
  have e2 : (Op.addItem 7 0 0 "000000000000000000000001" p1Request).run
      { productSvc := none, cartTTL := 259200, taxRate := 18 / 100, shippingCost := 0 }
      [mkCart 1 [] none] = [cartAfterAdd] := congrArg Prod.snd scenario_add
  rw [e2] at h2
  exact h2

/-! ## Stored totals against recomputed totals: claims -/

/-- C1 as stated fails when the shipping cost is not zero: with a shipping
cost of 5, the cart stored by `CreateCart` has `TotalAmount = 0`, while the
total recomputed from its (empty) items is 5. -/
theorem created_cart_total_not_recomputed :
    Reachable 259200 (18 / 100) 5
        ((Op.createCart 1 0 { UserID := "", Metadata := [] }).run
          { productSvc := none, cartTTL := 259200, taxRate := 18 / 100, shippingCost := 5 } [])
      ∧ ∃ cart ∈ (Op.createCart 1 0 { UserID := "", Metadata := [] }).run
          { productSvc := none, cartTTL := 259200, taxRate := 18 / 100, shippingCost := 5 } [],
          cart.TotalAmount = 0
            ∧ (calculateCartTotals
                { productSvc := none, cartTTL := 259200, taxRate := 18 / 100, shippingCost := 5 }
                cart).TotalAmount = 5
            ∧ cart.TotalAmount ≠ (calculateCartTotals
                { productSvc := none, cartTTL := 259200, taxRate := 18 / 100, shippingCost := 5 }
                cart).TotalAmount := by
  refine ⟨Reachable.step none _ [] Reachable.empty, mkCart 1 [] none, ?_, rfl, ?_, ?_⟩
  · exact List.mem_singleton.mpr rfl
  · norm_num [calculateCartTotals_TotalAmount, mkCart, applyCouponStep, subtotalLoop]
  · norm_num [calculateCartTotals_TotalAmount, mkCart, applyCouponStep, subtotalLoop]

/-- C1, amended: in every collection reachable by service calls, each cart's
stored `TotalAmount` is the total recomputed by `calculateCartTotals` from its
items and coupon, or the cart is empty with a stored total of 0 (as written by
`CreateCart` and `ClearCart`); when the configured shipping cost is 0 the
stored total always equals the recomputed one. -/
theorem reachable_total_recomputed (s : CartService) (store : Store)
    (h : Reachable s.cartTTL s.taxRate s.shippingCost store) (cart : Cart)
    (hc : cart ∈ store) :
    (cart.TotalAmount = (calculateCartTotals s cart).TotalAmount
        ∨ (cart.Items = [] ∧ cart.TotalAmount = 0))
      ∧ (s.shippingCost = 0 →
          cart.TotalAmount = (calculateCartTotals s cart).TotalAmount) := by
  have hinv := reachable_TotalsInv s store h cart hc
  refine ⟨hinv.1, fun hship => ?_⟩
  rcases hinv.1 with h1 | ⟨hi, ht⟩
  · exact h1
  · rw [ht, calculateCartTotals_TotalAmount, hi, hship]
    have h0 : subtotalLoop [] = 0 := rfl
    rw [h0, applyCouponStep_percentage_zero _ hinv.2]
    ring

/-- C1, amended, worked example: the cart holding one line of price 10 and
quantity 2 under the default configuration (shipping 0) stores the recomputed
total. -/
theorem reachable_total_recomputed_witness :
    Reachable defaultService.cartTTL defaultService.taxRate defaultService.shippingCost
        [cartAfterAdd]
      ∧ cartAfterAdd ∈ [cartAfterAdd]
      ∧ defaultService.shippingCost = 0
      ∧ cartAfterAdd.TotalAmount = (calculateCartTotals defaultService cartAfterAdd).TotalAmount :=
  ⟨scenario_reachable, List.mem_singleton.mpr rfl, rfl,
   (reachable_total_recomputed defaultService [cartAfterAdd] scenario_reachable cartAfterAdd
      (List.mem_singleton.mpr rfl)).2 rfl⟩

/-! ## ApplyCoupon: claims -/

theorem ApplyCoupon_ok {s : CartService} {store : Store} {appliedAt now : Time}
    {cartID : String} {req : ApplyCouponRequest} {updated : Cart}
    (h : (ApplyCoupon s store appliedAt now cartID req).1 = .ok updated) :
    ∃ oid c, ObjectIDFromHex cartID = .ok oid ∧ FindOne store oid = some c ∧ c.Items ≠ [] ∧
      updated = setCouponAndTotals (recomputed s now
        { c with Coupon := some { Code := req.Code, DiscountType := "percentage",
                                  DiscountValue := 10, AppliedAt := appliedAt } }) c := by
  unfold ApplyCoupon at h
  split at h
  · simp at h
  · split at h
    · simp at h
    · split at h
      · simp at h
      · rename_i oid hoid _ c hfind hne
        rw [decodeResult_of_some _ hfind] at h
        refine ⟨oid, c, hoid, hfind, fun hnil => hne (by simp [hnil]), ?_⟩
        exact (Except.ok.inj h).symm

/-- C6 as stated fails: in the scenario (one line of price 10, quantity 2),
`ApplyCoupon` succeeds and the returned cart has `Subtotal = 20`, not 18. -/
theorem ApplyCoupon_subtotal_not_reduced :
    (ApplyCoupon defaultService [cartAfterAdd] 0 0 "000000000000000000000001"
        { Code := "SAVE" }).1 = .ok cartAfterCoupon
      ∧ cartAfterCoupon.Subtotal = 20 ∧ cartAfterCoupon.Subtotal ≠ 18 := by
  refine ⟨congrArg Prod.fst scenario_coupon, rfl, ?_⟩
  norm_num [cartAfterCoupon]

/-- C6, amended: after a successful `ApplyCoupon` the returned cart's
`Subtotal` is still the raw sum of price × quantity; the 10 percent discount
enters only the tax and the total, which are computed on nine tenths of it. -/
theorem ApplyCoupon_subtotal_raw (s : CartService) (store : Store) (appliedAt now : Time)
    (cartID : String) (req : ApplyCouponRequest) (updated : Cart)
    (h : (ApplyCoupon s store appliedAt now cartID req).1 = .ok updated) :
    updated.Subtotal = rawSubtotal updated.Items
      ∧ updated.TaxAmount = (rawSubtotal updated.Items * (9 / 10)) * s.taxRate
      ∧ updated.TotalAmount
          = rawSubtotal updated.Items * (9 / 10) + updated.TaxAmount + s.shippingCost := by
  obtain ⟨oid, c, _, _, _, rfl⟩ := ApplyCoupon_ok h
  simp only [setCouponAndTotals, recomputed, calculateCartTotals_Subtotal,
    calculateCartTotals_TaxAmount, calculateCartTotals_TotalAmount,
    calculateCartTotals_ShippingCost, subtotalLoop_eq_rawSubtotal, applyCouponStep, if_true]
  refine ⟨trivial, ?_, ?_⟩ <;> ring

/-- C6, amended, worked example: the scenario's cart keeps subtotal 20 after
the coupon; tax 3.24 and total 21.24 are computed on 18. -/
theorem ApplyCoupon_subtotal_raw_witness :
    (ApplyCoupon defaultService [cartAfterAdd] 0 0 "000000000000000000000001"
        { Code := "SAVE" }).1 = .ok cartAfterCoupon
      ∧ cartAfterCoupon.Subtotal = 20
      ∧ cartAfterCoupon.TaxAmount = 324 / 100
      ∧ cartAfterCoupon.TotalAmount = 2124 / 100 := by
  have h := ApplyCoupon_subtotal_raw defaultService [cartAfterAdd] 0 0
    "000000000000000000000001" { Code := "SAVE" } cartAfterCoupon
    (congrArg Prod.fst scenario_coupon)
  have hraw : rawSubtotal cartAfterCoupon.Items = 20 := by
    norm_num [rawSubtotal, cartAfterCoupon, mkCart, mkItem]
  rw [hraw] at h
  refine ⟨congrArg Prod.fst scenario_coupon, h.1, ?_, ?_⟩
  · rw [h.2.1]; norm_num [defaultService]
  · rw [h.2.2, h.2.1]; norm_num [defaultService]

/-! ## The merge loop: lemmas -/

theorem bumpBy_ProductID (p : String) (q : Int) (t : CartItem) :
    (bumpBy p q t).ProductID = t.ProductID := by
  unfold bumpBy
  split <;> rfl

theorem map_bumpBy_of_not_mem (p : String) (q : Int) (items : List CartItem)
    (h : p ∉ items.map (fun t => t.ProductID)) : items.map (bumpBy p q) = items := by
  induction items with
  | nil => rfl
  | cons t rest ih =>
    simp only [List.map_cons, List.mem_cons, not_or] at h
    have ht : ¬ (t.ProductID = p) := fun e => h.1 e.symm
    simp only [List.map_cons, bumpBy, if_neg ht]
    exact congrArg _ (ih h.2)

theorem buildItemMap_cons (t : CartItem) (rest : List CartItem) (i : Nat)
    (itemMap : List (String × Nat)) :
    buildItemMap (t :: rest) i itemMap
      = buildItemMap rest (i + 1) ((t.ProductID, i) :: itemMap) := rfl

theorem addQuantityAt_zero (q : Int) (t : CartItem) (rest : List CartItem) :
    addQuantityAt 0 q (t :: rest) = { t with Quantity := addInt t.Quantity q } :: rest := rfl

theorem addQuantityAt_succ (i : Nat) (q : Int) (t : CartItem) (rest : List CartItem) :
    addQuantityAt (i + 1) q (t :: rest) = t :: addQuantityAt i q rest := rfl

theorem lookup_buildItemMap_of_not_mem (p : String) (items : List CartItem) (i : Nat)
    (itemMap : List (String × Nat)) (h : p ∉ items.map (fun t => t.ProductID)) :
    (buildItemMap items i itemMap).lookup p = itemMap.lookup p := by
  induction items generalizing i itemMap with
  | nil => rfl
  | cons t rest ih =>
    simp only [List.map_cons, List.mem_cons, not_or] at h
    have hne : (p == t.ProductID) = false := by simpa using h.1
    rw [buildItemMap_cons, ih (i + 1) _ h.2, List.lookup_cons, hne]

theorem lookup_buildItemMap_of_split (pre post : List CartItem) (t : CartItem) (i : Nat)
    (itemMap : List (String × Nat))
    (hnd : ((pre ++ t :: post).map (fun x => x.ProductID)).Nodup) :
    (buildItemMap (pre ++ t :: post) i itemMap).lookup t.ProductID = some (i + pre.length) := by
  induction pre generalizing i itemMap with
  | nil =>
    simp only [List.nil_append, List.map_cons, List.nodup_cons] at hnd
    rw [List.nil_append, buildItemMap_cons, lookup_buildItemMap_of_not_mem _ _ _ _ hnd.1]
    simp
  | cons x pre ih =>
    simp only [List.cons_append, List.map_cons, List.nodup_cons] at hnd
    rw [List.cons_append, buildItemMap_cons, ih (i + 1) _ hnd.2, List.length_cons]
    congr 1
    omega

theorem addQuantityAt_split (pre post extra : List CartItem) (t : CartItem) (q : Int)
    (hnd : ((pre ++ t :: post).map (fun x => x.ProductID)).Nodup) :
    addQuantityAt pre.length q ((pre ++ t :: post) ++ extra)
      = (pre ++ t :: post).map (bumpBy t.ProductID q) ++ extra := by
  induction pre with
  | nil =>
    simp only [List.nil_append, List.map_cons, List.nodup_cons] at hnd
    rw [List.nil_append, List.length_nil, List.cons_append, addQuantityAt_zero,
      List.map_cons, map_bumpBy_of_not_mem _ _ _ hnd.1, List.cons_append]
    simp only [bumpBy, if_true]
  | cons x pre ih =>
    simp only [List.cons_append, List.map_cons, List.nodup_cons] at hnd
    have hx : ¬ (x.ProductID = t.ProductID) := by
      intro e
      apply hnd.1
      rw [e]
      simp
    rw [List.cons_append, List.cons_append, List.length_cons, addQuantityAt_succ, ih hnd.2,
      List.map_cons, List.cons_append]
    simp only [bumpBy, if_neg hx]

theorem find?_product_none (gs : List CartItem) (p : String)
    (h : p ∉ gs.map (fun g => g.ProductID)) :
    gs.find? (fun g => decide (g.ProductID = p)) = none := by
  rw [List.find?_eq_none]
  intro g hg
  simp only [decide_eq_true_eq]
  intro e
  exact h (List.mem_map.mpr ⟨g, hg, e⟩)

theorem bumpAll_cons_of_eq (g : CartItem) (rest : List CartItem) (t : CartItem)
    (hmem : g.ProductID ∉ rest.map (fun x => x.ProductID)) :
    bumpAll rest (bumpBy g.ProductID g.Quantity t) = bumpAll (g :: rest) t := by
  by_cases ht : t.ProductID = g.ProductID
  · have h1 : rest.find? (fun x => decide (x.ProductID = t.ProductID)) = none := by
      rw [ht]
      exact find?_product_none rest _ hmem
    have h2 : (g :: rest).find? (fun x => decide (x.ProductID = t.ProductID)) = some g := by
      simp [List.find?_cons, ht]
    unfold bumpAll bumpBy
    rw [if_pos ht, h2]
    simp only []
    rw [h1]
  · have hg : ¬ (g.ProductID = t.ProductID) := fun e => ht e.symm
    have h2 : (g :: rest).find? (fun x => decide (x.ProductID = t.ProductID))
        = rest.find? (fun x => decide (x.ProductID = t.ProductID)) := by
      simp [List.find?_cons, hg]
    unfold bumpAll bumpBy
    rw [if_neg ht, h2]

theorem bumpAll_cons_of_ne (g : CartItem) (rest : List CartItem) (t : CartItem)
    (hne : g.ProductID ≠ t.ProductID) : bumpAll (g :: rest) t = bumpAll rest t := by
  have h2 : (g :: rest).find? (fun x => decide (x.ProductID = t.ProductID))
      = rest.find? (fun x => decide (x.ProductID = t.ProductID)) := by
    simp [List.find?_cons, hne]
  unfold bumpAll
  rw [h2]

theorem mergeLoop_nil (itemMap : List (String × Nat)) (userItems : List CartItem) :
    mergeLoop itemMap [] userItems = userItems := rfl

theorem mergeLoop_cons_some (itemMap : List (String × Nat)) (g : CartItem)
    (rest userItems : List CartItem) (idx : Nat)
    (h : itemMap.lookup g.ProductID = some idx) :
    mergeLoop itemMap (g :: rest) userItems
      = mergeLoop itemMap rest (addQuantityAt idx g.Quantity userItems) := by
  simp only [mergeLoop, h]

theorem mergeLoop_cons_none (itemMap : List (String × Nat)) (g : CartItem)
    (rest userItems : List CartItem) (h : itemMap.lookup g.ProductID = none) :
    mergeLoop itemMap (g :: rest) userItems = mergeLoop itemMap rest (userItems ++ [g]) := by
  simp only [mergeLoop, h]

theorem map_bumpAll_nil (items : List CartItem) : items.map (bumpAll []) = items := by
  induction items with
  | nil => rfl
  | cons t rest ih => rw [List.map_cons, ih]; rfl

/-- The loop invariant of the merge: with `cur` the target's lines (possibly
with raised quantities) and `extra` the lines appended so far. -/
theorem mergeLoop_spec (target : List CartItem)
    (hnd : (target.map (fun x => x.ProductID)).Nodup) :
    ∀ (gs cur extra : List CartItem),
      cur.map (fun x => x.ProductID) = target.map (fun x => x.ProductID) →
      (gs.map (fun x => x.ProductID)).Nodup →
      mergeLoop (buildItemMap target 0 []) gs (cur ++ extra)
        = cur.map (bumpAll gs) ++ extra
          ++ gs.filter (fun g => decide (g.ProductID ∉ target.map (fun t => t.ProductID))) := by
  intro gs
  induction gs with
  | nil =>
    intro cur extra _ _
    rw [mergeLoop_nil, map_bumpAll_nil]
    simp
  | cons g rest ih =>
    intro cur extra hcur hgs
    simp only [List.map_cons, List.nodup_cons] at hgs
    by_cases hmem : g.ProductID ∈ target.map (fun t => t.ProductID)
    · -- the product is in the target: its line is raised in place
      have hmem2 : g.ProductID ∈ cur.map (fun t => t.ProductID) := by rw [hcur]; exact hmem
      obtain ⟨t0, ht0, hp0⟩ := List.mem_map.mp hmem
      obtain ⟨pre, post, hsplit⟩ := List.append_of_mem ht0
      obtain ⟨t1, ht1, hp1⟩ := List.mem_map.mp hmem2
      obtain ⟨pre1, post1, hsplit1⟩ := List.append_of_mem ht1
      have hndcur : (cur.map (fun x => x.ProductID)).Nodup := by rw [hcur]; exact hnd
      -- both splits are at the same index
      have hlen : pre1.length = pre.length := by
        have e : (pre1 ++ t1 :: post1).map (fun x => x.ProductID)
            = (pre ++ t0 :: post).map (fun x => x.ProductID) := by
          rw [← hsplit1, ← hsplit]; exact hcur
        have hnd2 : ((pre ++ t0 :: post).map (fun x => x.ProductID)).Nodup := by
          rw [← hsplit]; exact hnd
        simp only [List.map_append, List.map_cons, hp0, hp1] at e hnd2
        by_contra hne
        rcases Nat.lt_or_gt_of_ne hne with hlt | hgt
        · -- g's product sits at index pre1.length of the left list, inside `pre` on the right
          have h1 : (List.map (fun x => x.ProductID) pre1
              ++ g.ProductID :: List.map (fun x => x.ProductID) post1)[pre1.length]?
              = some g.ProductID := by
            rw [List.getElem?_append_right (by simp)]
            simp
          rw [e, List.getElem?_append_left (by simpa using hlt)] at h1
          have h2 : g.ProductID ∈ List.map (fun x => x.ProductID) pre :=
            List.getElem?_mem h1
          have h3 := (List.nodup_append.mp hnd2).2.2
          exact h3 h2 (List.mem_cons_self _ _)
        · have hnd3 : (List.map (fun x => x.ProductID) pre1
              ++ g.ProductID :: List.map (fun x => x.ProductID) post1).Nodup := by
            rw [e]; exact hnd2
          have h1 : (List.map (fun x => x.ProductID) pre
              ++ g.ProductID :: List.map (fun x => x.ProductID) post)[pre.length]?
              = some g.ProductID := by
            rw [List.getElem?_append_right (by simp)]
            simp
          rw [← e, List.getElem?_append_left (by simpa using hgt)] at h1
          have h2 : g.ProductID ∈ List.map (fun x => x.ProductID) pre1 :=
            List.getElem?_mem h1
          have h3 := (List.nodup_append.mp hnd3).2.2
          exact h3 h2 (List.mem_cons_self _ _)
      have hlook : (buildItemMap target 0 []).lookup g.ProductID = some pre1.length := by
        have h := lookup_buildItemMap_of_split pre post t0 0 [] (by rw [← hsplit]; exact hnd)
        rw [hp0, ← hsplit, Nat.zero_add] at h
        rw [h, hlen]
      rw [mergeLoop_cons_some _ _ _ _ _ hlook]
      have hadd : addQuantityAt pre1.length g.Quantity (cur ++ extra)
          = cur.map (bumpBy g.ProductID g.Quantity) ++ extra := by
        have h := addQuantityAt_split pre1 post1 extra t1 g.Quantity
          (by rw [← hsplit1]; exact hndcur)
        rw [hp1, ← hsplit1] at h
        exact h
      rw [hadd, ih (cur.map (bumpBy g.ProductID g.Quantity)) extra
        (by
          rw [← hcur, List.map_map]
          exact List.map_congr_left (fun t _ => bumpBy_ProductID _ _ t))
        hgs.2]
      have hmap : (cur.map (bumpBy g.ProductID g.Quantity)).map (bumpAll rest)
          = cur.map (bumpAll (g :: rest)) := by
        rw [List.map_map]
        exact List.map_congr_left (fun t _ => bumpAll_cons_of_eq g rest t hgs.1)
      have hfilter : (g :: rest).filter
            (fun g => decide (g.ProductID ∉ target.map (fun t => t.ProductID)))
          = rest.filter (fun g => decide (g.ProductID ∉ target.map (fun t => t.ProductID))) := by
        rw [List.filter_cons]
        simp [hmem]
      rw [hmap, hfilter]
    · -- the product is new: the guest line is appended
      have hlook : (buildItemMap target 0 []).lookup g.ProductID = none := by
        rw [lookup_buildItemMap_of_not_mem _ _ _ _ hmem]
        rfl
      rw [mergeLoop_cons_none _ _ _ _ hlook, List.append_assoc, ih cur (extra ++ [g]) hcur hgs.2]
      have hmap : cur.map (bumpAll rest) = cur.map (bumpAll (g :: rest)) := by
        apply List.map_congr_left
        intro t ht
        symm
        apply bumpAll_cons_of_ne
        intro e
        apply hmem
        rw [e, ← hcur]
        exact List.mem_map.mpr ⟨t, ht, rfl⟩
      have hfilter : (g :: rest).filter
            (fun g => decide (g.ProductID ∉ target.map (fun t => t.ProductID)))
          = g :: rest.filter
              (fun g => decide (g.ProductID ∉ target.map (fun t => t.ProductID))) := by
        rw [List.filter_cons]
        simp [hmem]
      rw [hmap, hfilter]
      simp

theorem mergeLoop_eq_mergedItemsInt (target source : List CartItem)
    (ht : (target.map (fun x => x.ProductID)).Nodup)
    (hs : (source.map (fun x => x.ProductID)).Nodup) :
    mergeLoop (buildItemMap target 0 []) source target = mergedItemsInt target source := by
  have h := mergeLoop_spec target ht source target [] rfl hs
  rw [List.append_nil] at h
  rw [h, List.append_nil]
  rfl

/-! ## Go `int` sums against exact sums -/

theorem wrapInt_of_inRange (x : Int) (h : InIntRange x) : wrapInt x = x := by
  unfold InIntRange at h
  unfold wrapInt
  omega

theorem addInt_of_inRange (a b : Int) (h : InIntRange (a + b)) : addInt a b = a + b :=
  wrapInt_of_inRange (a + b) h

theorem wrapInt_inRange (x : Int) : InIntRange (wrapInt x) := by
  unfold InIntRange wrapInt
  omega

theorem wrapInt_wrapInt_add (x y : Int) : wrapInt (wrapInt x + y) = wrapInt (x + y) := by
  unfold wrapInt
  omega

theorem addInt_addInt_self (a b : Int) : addInt (addInt a b) b = wrapInt (a + 2 * b) := by
  unfold addInt
  rw [wrapInt_wrapInt_add]
  congr 1
  ring

theorem mergedItemsInt_eq_spec (target source : List CartItem)
    (h : ∀ t ∈ target, ∀ g ∈ source, g.ProductID = t.ProductID →
      InIntRange (t.Quantity + g.Quantity)) :
    mergedItemsInt target source = mergedItemsSpec target source := by
  unfold mergedItemsInt mergedItemsSpec
  congr 1
  apply List.map_congr_left
  intro t ht
  unfold bumpAll
  cases hfind : source.find? (fun g => decide (g.ProductID = t.ProductID)) with
  | none => rfl
  | some g =>
    have hg : g ∈ source := List.mem_of_find?_eq_some hfind
    have hp : g.ProductID = t.ProductID := by simpa using List.find?_some hfind
    show ({ t with Quantity := addInt t.Quantity g.Quantity } : CartItem)
      = { t with Quantity := t.Quantity + g.Quantity }
    rw [addInt_of_inRange _ _ (h t ht g hg hp)]

/-! ## MergeGuestCart: claims -/

theorem FindOne_cons (c : Cart) (cs : Store) (oid : ObjectID) :
    FindOne (c :: cs) oid = if c.ID = oid then some c else FindOne cs oid := by
  by_cases h : c.ID = oid
  · simp [FindOne, List.find?_cons, h]
  · simp [FindOne, List.find?_cons, h]

theorem FindOne_updateFirst (patch : Cart → Cart) (hid : ∀ c, (patch c).ID = c.ID)
    (store : Store) (oid1 oid : ObjectID) :
    FindOne (updateFirst oid1 patch store) oid
      = (FindOne store oid).map (fun c => if c.ID = oid1 then patch c else c) := by
  induction store with
  | nil => rfl
  | cons c cs ih =>
    by_cases h1 : c.ID = oid1
    · have e : updateFirst oid1 patch (c :: cs) = patch c :: cs := by
        simp only [updateFirst, if_pos h1]
      rw [e, FindOne_cons, FindOne_cons, hid]
      by_cases h : c.ID = oid
      · rw [if_pos h, if_pos h, Option.map_some', if_pos h1]
      · rw [if_neg h, if_neg h]
        -- the remaining documents are untouched, and the one found is not patched
        cases hf : FindOne cs oid with
        | none => rfl
        | some d =>
          have hd : d.ID = oid := (FindOne_some_mem hf).2
          have hne : ¬ d.ID = oid1 := fun e => h (h1.trans (e.symm.trans hd))
          rw [Option.map_some', if_neg hne]
    · have e : updateFirst oid1 patch (c :: cs) = c :: updateFirst oid1 patch cs := by
        simp only [updateFirst, if_neg h1]
      rw [e, FindOne_cons, FindOne_cons]
      by_cases h : c.ID = oid
      · rw [if_pos h, if_pos h, Option.map_some', if_neg h1]
      · rw [if_neg h, if_neg h, ih]

theorem MergeGuestCart_eq {s : CartService} {store : Store} {now : Time}
    {secondaryWriteOk : Bool} {userCartID guestCartID : String} {userOID guestOID : ObjectID}
    {target source : Cart}
    (hu : ObjectIDFromHex userCartID = .ok userOID)
    (hg : ObjectIDFromHex guestCartID = .ok guestOID)
    (hft : FindOne store userOID = some target)
    (hfs : FindOne store guestOID = some source) :
    MergeGuestCart s store now secondaryWriteOk userCartID guestCartID
      = (.ok (setItemsAndTotals (recomputed s now (mergedCart target source)) target),
         if secondaryWriteOk then
           updateFirst guestOID (markMerged userCartID)
             (updateFirst userOID
               (setItemsAndTotals (recomputed s now (mergedCart target source))) store)
         else
           updateFirst userOID
             (setItemsAndTotals (recomputed s now (mergedCart target source))) store) := by
  unfold MergeGuestCart
  simp only [hu, hg, hft, hfs, FindOneAndUpdate_of_some _ hft, UpdateOne]
  rfl

theorem setItemsAndTotals_ID (cart doc : Cart) : (setItemsAndTotals cart doc).ID = doc.ID := rfl

theorem markMerged_ID (userCartID : String) (doc : Cart) :
    (markMerged userCartID doc).ID = doc.ID := rfl

/-- C7 as stated fails when a sum leaves the range of a Go `int`: merging a
source holding one unit of `p1` into a target holding 2^63 − 1 units of `p1`
(each cart has one line, so product ids are distinct) leaves the target with
−2^63 units, where the sum of the two quantities is 2^63. -/
theorem MergeGuestCart_sum_wraps :
    (fullCart.Items.map (fun x => x.ProductID)).Nodup
      ∧ (oneUnitCart.Items.map (fun x => x.ProductID)).Nodup
      ∧ ∃ updated stored,
          (MergeGuestCart defaultService [fullCart, oneUnitCart] 0 true
              "000000000000000000000001" "000000000000000000000002").1 = .ok updated
            ∧ FindOne (MergeGuestCart defaultService [fullCart, oneUnitCart] 0 true
                "000000000000000000000001" "000000000000000000000002").2 1 = some stored
            ∧ updated.Items = [mkItem 7 "p1" 10 (-9223372036854775808)]
            ∧ stored.Items = [mkItem 7 "p1" 10 (-9223372036854775808)]
            ∧ mergedItemsSpec fullCart.Items oneUnitCart.Items
                = [mkItem 7 "p1" 10 9223372036854775808]
            ∧ updated.Items ≠ mergedItemsSpec fullCart.Items oneUnitCart.Items := by
  have hft : FindOne [fullCart, oneUnitCart] 1 = some fullCart := rfl
  have hfs : FindOne [fullCart, oneUnitCart] 2 = some oneUnitCart := rfl
  have hspec : mergedItemsSpec fullCart.Items oneUnitCart.Items
      = [mkItem 7 "p1" 10 9223372036854775808] := by
    simp [mergedItemsSpec, fullCart, oneUnitCart, mkCart, mkItem]
  have hitems : (setItemsAndTotals (recomputed defaultService 0
      (mergedCart fullCart oneUnitCart)) fullCart).Items
      = [mkItem 7 "p1" 10 (-9223372036854775808)] := by
    simp [setItemsAndTotals, recomputed, mergedCart, fullCart, oneUnitCart, mkCart, mkItem,
      mergeLoop, buildItemMap, addQuantityAt, addInt, wrapInt]
  refine ⟨by decide, by decide, ?_⟩
  rw [MergeGuestCart_eq ObjectIDFromHex_one ObjectIDFromHex_two hft hfs]
  refine ⟨_, _, rfl, rfl, hitems, hitems, hspec, ?_⟩
  rw [hitems, hspec]
  simp [mkItem]

/-- C7, amended: when the target's and the source's lines each have pairwise
distinct product ids, `MergeGuestCart` succeeds and leaves the target (as
returned and as stored) with its original lines in order, each quantity raised
by that of the source line with the same product id, the sum taken as a Go
`int`, followed by the source lines whose product id is not in the target, in
source order and unchanged; and when every such sum lies in the range of a Go
`int`, the quantities are the exact sums. -/
theorem MergeGuestCart_items (s : CartService) (store : Store) (now : Time)
    (secondaryWriteOk : Bool) (userCartID guestCartID : String) (userOID guestOID : ObjectID)
    (target source : Cart)
    (hu : ObjectIDFromHex userCartID = .ok userOID)
    (hg : ObjectIDFromHex guestCartID = .ok guestOID)
    (hft : FindOne store userOID = some target)
    (hfs : FindOne store guestOID = some source)
    (hnt : (target.Items.map (fun x => x.ProductID)).Nodup)
    (hns : (source.Items.map (fun x => x.ProductID)).Nodup) :
    ∃ updated stored,
      (MergeGuestCart s store now secondaryWriteOk userCartID guestCartID).1 = .ok updated
        ∧ updated.Items = mergedItemsInt target.Items source.Items
        ∧ FindOne (MergeGuestCart s store now secondaryWriteOk userCartID guestCartID).2 userOID
            = some stored
        ∧ stored.Items = mergedItemsInt target.Items source.Items
        ∧ ((∀ t ∈ target.Items, ∀ g ∈ source.Items, g.ProductID = t.ProductID →
              InIntRange (t.Quantity + g.Quantity)) →
            updated.Items = mergedItemsSpec target.Items source.Items
              ∧ stored.Items = mergedItemsSpec target.Items source.Items) := by
  have hitems : (setItemsAndTotals (recomputed s now (mergedCart target source)) target).Items
      = mergedItemsInt target.Items source.Items :=
    mergeLoop_eq_mergedItemsInt target.Items source.Items hnt hns
  have hid : target.ID = userOID := (FindOne_some_mem hft).2
  have hprimary : FindOne (updateFirst userOID
      (setItemsAndTotals (recomputed s now (mergedCart target source))) store) userOID
      = some (setItemsAndTotals (recomputed s now (mergedCart target source)) target) := by
    rw [FindOne_updateFirst _ (setItemsAndTotals_ID _), hft]
    simp [hid]
  have hexact : (∀ t ∈ target.Items, ∀ g ∈ source.Items, g.ProductID = t.ProductID →
      InIntRange (t.Quantity + g.Quantity)) →
      mergedItemsInt target.Items source.Items = mergedItemsSpec target.Items source.Items :=
    mergedItemsInt_eq_spec target.Items source.Items
  rw [MergeGuestCart_eq hu hg hft hfs]
  cases secondaryWriteOk with
  | false =>
    refine ⟨_, _, rfl, hitems, hprimary, hitems, ?_⟩
    intro hr
    rw [hitems]
    exact ⟨hexact hr, hexact hr⟩
  | true =>
    simp only [if_true]
    rw [FindOne_updateFirst _ (markMerged_ID _), hprimary]
    have hstored : ∀ (c1 : Cart), c1.Items = mergedItemsInt target.Items source.Items →
        (if c1.ID = guestOID then markMerged userCartID c1 else c1).Items
          = mergedItemsInt target.Items source.Items := by
      intro c1 h1
      by_cases hsame : c1.ID = guestOID
      · rw [if_pos hsame]
        exact h1
      · rw [if_neg hsame]
        exact h1
    refine ⟨_, _, rfl, hitems, rfl, hstored _ hitems, ?_⟩
    intro hr
    rw [hstored _ hitems, hitems]
    exact ⟨hexact hr, hexact hr⟩

theorem mergeExample_spec :
    mergedItemsSpec mergeTarget.Items mergeSource.Items
      = [mkItem 11 "p1" 10 3, mkItem 22 "p2" 5 1] := by
  simp [mergedItemsSpec, mergeTarget, mergeSource, mkCart, mkItem]

theorem mergeExample_inRange :
    ∀ t ∈ mergeTarget.Items, ∀ g ∈ mergeSource.Items, g.ProductID = t.ProductID →
      InIntRange (t.Quantity + g.Quantity) := by
  decide

/-- C7, amended, worked example: merging source `[p1 × 2, p2 × 1]` into target
`[p1 × 1]` gives `[p1 × 3, p2 × 1]`. -/
theorem MergeGuestCart_items_witness :
    ∃ updated stored,
      (MergeGuestCart defaultService [mergeTarget, mergeSource] 0 true
          "000000000000000000000001" "000000000000000000000002").1 = .ok updated
        ∧ updated.Items = [mkItem 11 "p1" 10 3, mkItem 22 "p2" 5 1]
        ∧ FindOne (MergeGuestCart defaultService [mergeTarget, mergeSource] 0 true
            "000000000000000000000001" "000000000000000000000002").2 1 = some stored
        ∧ stored.Items = [mkItem 11 "p1" 10 3, mkItem 22 "p2" 5 1] := by
  obtain ⟨updated, stored, h1, _, h3, _, h5⟩ := MergeGuestCart_items defaultService
    [mergeTarget, mergeSource] 0 true
    "000000000000000000000001" "000000000000000000000002" 1 2 mergeTarget mergeSource
    ObjectIDFromHex_one ObjectIDFromHex_two rfl rfl
    (by simp [mergeTarget, mkCart, mkItem])
    (by simp [mergeSource, mkCart, mkItem])
  have h6 := h5 mergeExample_inRange
  rw [mergeExample_spec] at h6
  exact ⟨updated, stored, h1, h6.1, h3, h6.2⟩

/-- C8 as stated fails when a cart is merged into itself: the source is then
also the target, so its items and monetary fields are rewritten by the primary
write.  Merging the scenario's cart (one line, quantity 2, total 23.6) into
itself leaves it `completed` with quantity 4 and total 47.2. -/
theorem MergeGuestCart_self_changes_source :
    Reachable 259200 (18 / 100) 0 [cartAfterAdd]
      ∧ FindOne [cartAfterAdd] 1 = some cartAfterAdd
      ∧ ∃ updated stored,
          (MergeGuestCart defaultService [cartAfterAdd] 0 true
              "000000000000000000000001" "000000000000000000000001").1 = .ok updated
            ∧ FindOne (MergeGuestCart defaultService [cartAfterAdd] 0 true
                "000000000000000000000001" "000000000000000000000001").2 1 = some stored
            ∧ stored.Status = CartStatusCompleted
            ∧ stored.Items = [mkItem 7 "p1" 10 4]
            ∧ stored.Items ≠ cartAfterAdd.Items
            ∧ stored.TotalAmount = 236 / 5
            ∧ stored.TotalAmount ≠ cartAfterAdd.TotalAmount := by
  refine ⟨scenario_reachable, rfl, ?_⟩
  have hf : FindOne [cartAfterAdd] 1 = some cartAfterAdd := rfl
  rw [MergeGuestCart_eq ObjectIDFromHex_one ObjectIDFromHex_one hf hf]
  refine ⟨_, _, rfl, rfl, rfl, ?_, ?_, ?_, ?_⟩
  · simp [setItemsAndTotals, recomputed, mergedCart, cartAfterAdd, mkCart, mkItem, mergeLoop,
      buildItemMap, addQuantityAt, markMerged, addInt, wrapInt]
  · simp [setItemsAndTotals, recomputed, mergedCart, cartAfterAdd, mkCart, mkItem, mergeLoop,
      buildItemMap, addQuantityAt, markMerged, addInt, wrapInt]
  · simp [setItemsAndTotals, recomputed, mergedCart, cartAfterAdd, mkCart, mkItem, mergeLoop,
      buildItemMap, addQuantityAt, markMerged, subtotalLoop, applyCouponStep, defaultService,
      addInt, wrapInt]
    norm_num
  · simp [setItemsAndTotals, recomputed, mergedCart, cartAfterAdd, mkCart, mkItem, mergeLoop,
      buildItemMap, addQuantityAt, markMerged, subtotalLoop, applyCouponStep, defaultService,
      addInt, wrapInt]
    norm_num

/-- C8, amended: after a successful `MergeGuestCart` of two distinct carts in
which the secondary write goes through, the stored source cart has status
`completed`, its metadata maps `mergedTo` to the target cart id, and its
items and monetary fields (indeed every other field) are unchanged. -/
theorem MergeGuestCart_source_marked (s : CartService) (store : Store) (now : Time)
    (userCartID guestCartID : String) (userOID guestOID : ObjectID) (target source : Cart)
    (hu : ObjectIDFromHex userCartID = .ok userOID)
    (hg : ObjectIDFromHex guestCartID = .ok guestOID)
    (hft : FindOne store userOID = some target)
    (hfs : FindOne store guestOID = some source)
    (hne : userOID ≠ guestOID) :
    (∃ updated, (MergeGuestCart s store now true userCartID guestCartID).1 = .ok updated)
      ∧ ∃ stored,
          FindOne (MergeGuestCart s store now true userCartID guestCartID).2 guestOID
              = some stored
            ∧ stored.Status = CartStatusCompleted
            ∧ stored.Metadata.lookup "mergedTo" = some userCartID
            ∧ stored.Items = source.Items
            ∧ stored.Subtotal = source.Subtotal
            ∧ stored.TaxAmount = source.TaxAmount
            ∧ stored.ShippingCost = source.ShippingCost
            ∧ stored.TotalAmount = source.TotalAmount
            ∧ stored = markMerged userCartID source := by
  have hid : source.ID = guestOID := (FindOne_some_mem hfs).2
  have hnotuser : ¬ source.ID = userOID := fun e => hne (e.symm.trans hid)
  rw [MergeGuestCart_eq hu hg hft hfs]
  refine ⟨⟨_, rfl⟩, ?_⟩
  simp only [if_true]
  rw [FindOne_updateFirst _ (markMerged_ID _), FindOne_updateFirst _ (setItemsAndTotals_ID _),
    hfs, Option.map_some', Option.map_some', if_neg hnotuser, if_pos hid]
  exact ⟨_, rfl, rfl, by simp [markMerged], rfl, rfl, rfl, rfl, rfl, rfl⟩

/-- C8, amended, worked example: merging the source cart (id 2) into the
target cart (id 1). -/
theorem MergeGuestCart_source_marked_witness :
    (∃ updated, (MergeGuestCart defaultService [mergeTarget, mergeSource] 0 true
        "000000000000000000000001" "000000000000000000000002").1 = .ok updated)
      ∧ ∃ stored,
          FindOne (MergeGuestCart defaultService [mergeTarget, mergeSource] 0 true
              "000000000000000000000001" "000000000000000000000002").2 2 = some stored
            ∧ stored.Status = CartStatusCompleted
            ∧ stored.Metadata.lookup "mergedTo" = some "000000000000000000000001"
            ∧ stored.Items = mergeSource.Items
            ∧ stored.Subtotal = mergeSource.Subtotal
            ∧ stored.TaxAmount = mergeSource.TaxAmount
            ∧ stored.ShippingCost = mergeSource.ShippingCost
            ∧ stored.TotalAmount = mergeSource.TotalAmount
            ∧ stored = markMerged "000000000000000000000001" mergeSource :=
  MergeGuestCart_source_marked defaultService [mergeTarget, mergeSource] 0
    "000000000000000000000001" "000000000000000000000002" 1 2 mergeTarget mergeSource
    ObjectIDFromHex_one ObjectIDFromHex_two rfl rfl (by decide)

/-! ## UpdateItem and GetCart: error paths -/

/-- C9: for every collection, cart id, item id and quantity ≤ 0, `UpdateItem`
fails with `ErrQuantityInvalid` and the collection is returned unchanged. -/
theorem UpdateItem_quantity_invalid (s : CartService) (store : Store) (now : Time)
    (cartID itemID : String) (req : UpdateItemRequest) (h : req.Quantity ≤ 0) :
    UpdateItem s store now cartID itemID req = (.error ErrQuantityInvalid, store) := by
  unfold UpdateItem
  rw [if_pos h]

/-- C9, worked example: quantity 0 on the scenario's line. -/
theorem UpdateItem_quantity_invalid_witness :
    UpdateItem defaultService [cartAfterAdd] 5 "000000000000000000000001"
        "000000000000000000000007" { Quantity := 0 }
      = (.error ErrQuantityInvalid, [cartAfterAdd]) :=
  UpdateItem_quantity_invalid defaultService [cartAfterAdd] 5 "000000000000000000000001"
    "000000000000000000000007" { Quantity := 0 } (by decide)

/-- C10: `GetCart` never changes the collection; for a cart id that decodes to
`oid`, it fails with `ErrCartNotFound` when no cart with that id is stored,
fails with `ErrCartExpired` when the stored cart's `ExpiresAt` is before the
current time, and otherwise returns the stored cart. -/
theorem GetCart_spec (s : CartService) (store : Store) (now : Time) (cartID : String) :
    (GetCart s store now cartID).2 = store
      ∧ ∀ oid, ObjectIDFromHex cartID = .ok oid →
          (FindOne store oid = none →
              (GetCart s store now cartID).1 = .error ErrCartNotFound)
            ∧ (∀ cart, FindOne store oid = some cart → cart.ExpiresAt < now →
                (GetCart s store now cartID).1 = .error ErrCartExpired)
            ∧ (∀ cart, FindOne store oid = some cart → ¬ (cart.ExpiresAt < now) →
                (GetCart s store now cartID).1 = .ok cart) := by
  constructor
  · unfold GetCart
    split
    · rfl
    · split
      · rfl
      · split <;> rfl
  · intro oid hoid
    refine ⟨?_, ?_, ?_⟩
    · intro hf
      simp only [GetCart, hoid, hf]
    · intro cart hf hlt
      have hgt : now > cart.ExpiresAt := hlt
      simp only [GetCart, hoid, hf, if_pos hgt]
    · intro cart hf hnlt
      have hgt : ¬ (now > cart.ExpiresAt) := hnlt
      simp only [GetCart, hoid, hf, if_neg hgt]

/-- C10, worked example on the scenario's collection (the cart expires at
259200): an unknown id is not found; the cart is expired one tick after its
expiry although it is still stored; at the instant of expiry it is returned. -/
theorem GetCart_spec_witness :
    (GetCart defaultService [cartAfterAdd] 259201 "000000000000000000000002").1
        = .error ErrCartNotFound
      ∧ FindOne [cartAfterAdd] 1 = some cartAfterAdd
      ∧ (GetCart defaultService [cartAfterAdd] 259201 "000000000000000000000001").1
          = .error ErrCartExpired
      ∧ (GetCart defaultService [cartAfterAdd] 259200 "000000000000000000000001").1
          = .ok cartAfterAdd
      ∧ (GetCart defaultService [cartAfterAdd] 259201 "000000000000000000000001").2
          = [cartAfterAdd] :=
  ⟨((GetCart_spec defaultService [cartAfterAdd] 259201 "000000000000000000000002").2 2
      ObjectIDFromHex_two).1 rfl,
   rfl,
   ((GetCart_spec defaultService [cartAfterAdd] 259201 "000000000000000000000001").2 1
      ObjectIDFromHex_one).2.1 cartAfterAdd rfl (by decide),
   ((GetCart_spec defaultService [cartAfterAdd] 259200 "000000000000000000000001").2 1
      ObjectIDFromHex_one).2.2 cartAfterAdd rfl (by decide),
   (GetCart_spec defaultService [cartAfterAdd] 259201 "000000000000000000000001").1⟩

/-! ## What each method returns and writes -/

theorem addItemLines_cart (newItemID : ObjectID) (addedAt : Time) (item : AddItemRequest)
    (c : Cart) :
    (if !(addToExisting item.ProductID item.Quantity c.Items).2 then
        { ({ c with Items := (addToExisting item.ProductID item.Quantity c.Items).1 } : Cart) with
          Items := (addToExisting item.ProductID item.Quantity c.Items).1
                    ++ [newLine newItemID addedAt item] }
      else { c with Items := (addToExisting item.ProductID item.Quantity c.Items).1 })
      = { c with Items := addItemLines newItemID addedAt item c.Items } := by
  unfold addItemLines
  split <;> rfl

theorem AddItem_eq {s : CartService} {store : Store} {newItemID : ObjectID}
    {addedAt now : Time} {cartID : String} {item : AddItemRequest} {oid : ObjectID} {c : Cart}
    (hsvc : oracleCheck s item.ProductID item.Quantity = none)
    (hoid : ObjectIDFromHex cartID = .ok oid) (hf : FindOne store oid = some c) :
    AddItem s store newItemID addedAt now cartID item
      = (.ok (setItemsAndTotals (recomputed s now
              { c with Items := addItemLines newItemID addedAt item c.Items }) c),
         updateFirst oid (setItemsAndTotals (recomputed s now
              { c with Items := addItemLines newItemID addedAt item c.Items })) store) := by
  have hsvc2 : (match s.productSvc with
      | some svc => svc item.ProductID item.Quantity
      | none => none) = none := hsvc
  unfold AddItem
  simp only [hsvc2, hoid, hf]
  rw [← addItemLines_cart]
  exact decodeResult_of_some _ hf

theorem AddItem_store_items (s : CartService) (store : Store) (newItemID : ObjectID)
    (addedAt now : Time) (cartID : String) (item : AddItemRequest) :
    (AddItem s store newItemID addedAt now cartID item).2 = store ∨
    ∃ oid c, FindOne store oid = some c ∧
      (AddItem s store newItemID addedAt now cartID item).2
        = updateFirst oid (setItemsAndTotals (recomputed s now
            { c with Items := addItemLines newItemID addedAt item c.Items })) store := by
  cases hsvc : oracleCheck s item.ProductID item.Quantity with
  | some err =>
    left
    have hsvc2 : (match s.productSvc with
        | some svc => svc item.ProductID item.Quantity
        | none => none) = some err := hsvc
    unfold AddItem
    simp only [hsvc2]
  | none =>
    have hsvc2 : (match s.productSvc with
        | some svc => svc item.ProductID item.Quantity
        | none => none) = none := hsvc
    cases hoid : ObjectIDFromHex cartID with
    | error err =>
      left
      unfold AddItem
      simp only [hsvc2, hoid]
    | ok oid =>
      cases hf : FindOne store oid with
      | none =>
        left
        unfold AddItem
        simp only [hsvc2, hoid, hf]
      | some c =>
        right
        exact ⟨oid, c, hf, by rw [AddItem_eq hsvc hoid hf]⟩

theorem UpdateItem_eq {s : CartService} {store : Store} {now : Time}
    {cartID itemID : String} {req : UpdateItemRequest} {cartOID itemOID : ObjectID} {c : Cart}
    {itemIndex : Nat} {productID : String}
    (hq : 0 < req.Quantity)
    (hoid : ObjectIDFromHex cartID = .ok cartOID) (hitem : ObjectIDFromHex itemID = .ok itemOID)
    (hf : FindOne store cartOID = some c)
    (hfind : findItem itemOID c.Items 0 = some (itemIndex, productID))
    (hsvc : oracleCheck s productID req.Quantity = none) :
    UpdateItem s store now cartID itemID req
      = (.ok (setItemsAndTotals (recomputed s now
              { c with Items := setQuantityAt itemIndex req.Quantity c.Items }) c),
         updateFirst cartOID (setItemsAndTotals (recomputed s now
              { c with Items := setQuantityAt itemIndex req.Quantity c.Items })) store) := by
  have hsvc2 : (match s.productSvc with
      | some svc => svc productID req.Quantity
      | none => none) = none := hsvc
  have hq2 : ¬ req.Quantity ≤ 0 := not_le.mpr hq
  unfold UpdateItem
  simp only [if_neg hq2, hoid, hitem, hf, hfind, hsvc2]
  exact decodeResult_of_some _ hf

theorem UpdateItem_item_missing {s : CartService} {store : Store} {now : Time}
    {cartID itemID : String} {req : UpdateItemRequest} {cartOID itemOID : ObjectID} {c : Cart}
    (hq : 0 < req.Quantity)
    (hoid : ObjectIDFromHex cartID = .ok cartOID) (hitem : ObjectIDFromHex itemID = .ok itemOID)
    (hf : FindOne store cartOID = some c)
    (hfind : findItem itemOID c.Items 0 = none) :
    UpdateItem s store now cartID itemID req = (.error ErrItemNotInCart, store) := by
  have hq2 : ¬ req.Quantity ≤ 0 := not_le.mpr hq
  unfold UpdateItem
  simp only [if_neg hq2, hoid, hitem, hf, hfind]

theorem UpdateItem_store_items (s : CartService) (store : Store) (now : Time)
    (cartID itemID : String) (req : UpdateItemRequest) :
    (UpdateItem s store now cartID itemID req).2 = store ∨
    ∃ oid c itemIndex, FindOne store oid = some c ∧ 0 < req.Quantity ∧
      (UpdateItem s store now cartID itemID req).2
        = updateFirst oid (setItemsAndTotals (recomputed s now
            { c with Items := setQuantityAt itemIndex req.Quantity c.Items })) store := by
  by_cases hq : req.Quantity ≤ 0
  · left
    unfold UpdateItem
    rw [if_pos hq]
  · have hq2 : 0 < req.Quantity := not_le.mp hq
    cases hoid : ObjectIDFromHex cartID with
    | error err =>
      left
      unfold UpdateItem
      simp only [if_neg hq, hoid]
    | ok cartOID =>
      cases hitem : ObjectIDFromHex itemID with
      | error err =>
        left
        unfold UpdateItem
        simp only [if_neg hq, hoid, hitem]
      | ok itemOID =>
        cases hf : FindOne store cartOID with
        | none =>
          left
          unfold UpdateItem
          simp only [if_neg hq, hoid, hitem, hf]
        | some c =>
          cases hfind : findItem itemOID c.Items 0 with
          | none =>
            left
            rw [UpdateItem_item_missing hq2 hoid hitem hf hfind]
          | some found =>
            obtain ⟨itemIndex, productID⟩ := found
            cases hsvc : oracleCheck s productID req.Quantity with
            | some err =>
              left
              have hsvc2 : (match s.productSvc with
                  | some svc => svc productID req.Quantity
                  | none => none) = some err := hsvc
              unfold UpdateItem
              simp only [if_neg hq, hoid, hitem, hf, hfind, hsvc2]
            | none =>
              right
              exact ⟨cartOID, c, itemIndex, hf, hq2,
                by rw [UpdateItem_eq hq2 hoid hitem hf hfind hsvc]⟩

theorem RemoveItem_eq {s : CartService} {store : Store} {now : Time}
    {cartID itemID : String} {cartOID itemOID : ObjectID} {c : Cart}
    {itemIndex : Nat} {productID : String}
    (hoid : ObjectIDFromHex cartID = .ok cartOID) (hitem : ObjectIDFromHex itemID = .ok itemOID)
    (hf : FindOne store cartOID = some c)
    (hfind : findItem itemOID c.Items 0 = some (itemIndex, productID)) :
    RemoveItem s store now cartID itemID
      = (.ok (setItemsAndTotals (recomputed s now
              { c with Items := c.Items.take itemIndex ++ c.Items.drop (itemIndex + 1) }) c),
         updateFirst cartOID (setItemsAndTotals (recomputed s now
              { c with Items := c.Items.take itemIndex ++ c.Items.drop (itemIndex + 1) }))
           store) := by
  unfold RemoveItem
  simp only [hoid, hitem, hf, hfind]
  exact decodeResult_of_some _ hf

theorem RemoveItem_item_missing {s : CartService} {store : Store} {now : Time}
    {cartID itemID : String} {cartOID itemOID : ObjectID} {c : Cart}
    (hoid : ObjectIDFromHex cartID = .ok cartOID) (hitem : ObjectIDFromHex itemID = .ok itemOID)
    (hf : FindOne store cartOID = some c)
    (hfind : findItem itemOID c.Items 0 = none) :
    RemoveItem s store now cartID itemID = (.error ErrItemNotInCart, store) := by
  unfold RemoveItem
  simp only [hoid, hitem, hf, hfind]

theorem RemoveItem_store_items (s : CartService) (store : Store) (now : Time)
    (cartID itemID : String) :
    (RemoveItem s store now cartID itemID).2 = store ∨
    ∃ oid c itemIndex, FindOne store oid = some c ∧
      (RemoveItem s store now cartID itemID).2
        = updateFirst oid (setItemsAndTotals (recomputed s now
            { c with Items := c.Items.take itemIndex ++ c.Items.drop (itemIndex + 1) }))
          store := by
  cases hoid : ObjectIDFromHex cartID with
  | error err =>
    left
    unfold RemoveItem
    simp only [hoid]
  | ok cartOID =>
    cases hitem : ObjectIDFromHex itemID with
    | error err =>
      left
      unfold RemoveItem
      simp only [hoid, hitem]
    | ok itemOID =>
      cases hf : FindOne store cartOID with
      | none =>
        left
        unfold RemoveItem
        simp only [hoid, hitem, hf]
      | some c =>
        cases hfind : findItem itemOID c.Items 0 with
        | none =>
          left
          rw [RemoveItem_item_missing hoid hitem hf hfind]
        | some found =>
          obtain ⟨itemIndex, productID⟩ := found
          right
          exact ⟨cartOID, c, itemIndex, hf, by rw [RemoveItem_eq hoid hitem hf hfind]⟩

theorem ClearCart_eq {s : CartService} {store : Store} {now : Time} {cartID : String}
    {oid : ObjectID} {c : Cart}
    (hoid : ObjectIDFromHex cartID = .ok oid) (hf : FindOne store oid = some c) :
    ClearCart s store now cartID
      = (.ok (clearPatch s now c), updateFirst oid (clearPatch s now) store) := by
  unfold ClearCart
  simp only [hoid]
  have h := FindOneAndUpdate_of_some (clearPatch s now) hf
  unfold clearPatch at h
  rw [h]
  rfl

theorem ClearCart_not_found {s : CartService} {store : Store} {now : Time} {cartID : String}
    {oid : ObjectID}
    (hoid : ObjectIDFromHex cartID = .ok oid) (hf : FindOne store oid = none) :
    ClearCart s store now cartID = (.error ErrCartNotFound, store) := by
  unfold ClearCart
  simp only [hoid, FindOneAndUpdate, hf]

theorem ApplyCoupon_eq {s : CartService} {store : Store} {appliedAt now : Time}
    {cartID : String} {req : ApplyCouponRequest} {oid : ObjectID} {c : Cart}
    (hoid : ObjectIDFromHex cartID = .ok oid) (hf : FindOne store oid = some c)
    (hne : c.Items ≠ []) :
    ApplyCoupon s store appliedAt now cartID req
      = (.ok (setCouponAndTotals (recomputed s now
              { c with Coupon := some (stubCoupon req.Code appliedAt) }) c),
         updateFirst oid (setCouponAndTotals (recomputed s now
              { c with Coupon := some (stubCoupon req.Code appliedAt) })) store) := by
  have hlen : ¬ c.Items.length = 0 := fun h => hne (List.length_eq_zero.mp h)
  unfold ApplyCoupon
  simp only [hoid, hf, if_neg hlen]
  exact decodeResult_of_some _ hf

theorem ApplyCoupon_empty {s : CartService} {store : Store} {appliedAt now : Time}
    {cartID : String} {req : ApplyCouponRequest} {oid : ObjectID} {c : Cart}
    (hoid : ObjectIDFromHex cartID = .ok oid) (hf : FindOne store oid = some c)
    (hempty : c.Items = []) :
    ApplyCoupon s store appliedAt now cartID req = (.error ErrCartEmpty, store) := by
  have hlen : c.Items.length = 0 := by rw [hempty]; rfl
  unfold ApplyCoupon
  simp only [hoid, hf, if_pos hlen]

theorem CheckoutCart_eq {s : CartService} {store : Store} {now : Time} {cartID : String}
    {oid : ObjectID} {c : Cart}
    (hoid : ObjectIDFromHex cartID = .ok oid) (hf : FindOne store oid = some c)
    (hne : c.Items ≠ []) :
    CheckoutCart s store now cartID
      = (.ok (checkoutPatch now c), updateFirst oid (checkoutPatch now) store) := by
  have hlen : ¬ c.Items.length = 0 := fun h => hne (List.length_eq_zero.mp h)
  unfold CheckoutCart
  simp only [hoid, hf, if_neg hlen]
  exact decodeResult_of_some _ hf

theorem CheckoutCart_empty {s : CartService} {store : Store} {now : Time} {cartID : String}
    {oid : ObjectID} {c : Cart}
    (hoid : ObjectIDFromHex cartID = .ok oid) (hf : FindOne store oid = some c)
    (hempty : c.Items = []) :
    CheckoutCart s store now cartID = (.error ErrCartEmpty, store) := by
  have hlen : c.Items.length = 0 := by rw [hempty]; rfl
  unfold CheckoutCart
  simp only [hoid, hf, if_pos hlen]

/-! ## The search loops of the item methods -/

theorem addToExisting_cons_eq (p : String) (q : Int) (t : CartItem) (rest : List CartItem)
    (h : t.ProductID = p) :
    addToExisting p q (t :: rest) = ({ t with Quantity := addInt t.Quantity q } :: rest, true) := by
  simp only [addToExisting, if_pos h]

theorem addToExisting_cons_ne (p : String) (q : Int) (t : CartItem) (rest : List CartItem)
    (h : ¬ t.ProductID = p) :
    addToExisting p q (t :: rest)
      = (t :: (addToExisting p q rest).1, (addToExisting p q rest).2) := by
  simp only [addToExisting, if_neg h]

theorem addToExisting_of_forall_ne (p : String) (q : Int) (items : List CartItem)
    (h : ∀ x ∈ items, x.ProductID ≠ p) : addToExisting p q items = (items, false) := by
  induction items with
  | nil => rfl
  | cons t rest ih =>
    rw [addToExisting_cons_ne p q t rest (h t (List.mem_cons_self _ _)),
      ih (fun x hx => h x (List.mem_cons_of_mem _ hx))]

theorem addToExisting_of_split (p : String) (q : Int) (pre post : List CartItem) (t : CartItem)
    (hpre : ∀ x ∈ pre, x.ProductID ≠ p) (ht : t.ProductID = p) :
    addToExisting p q (pre ++ t :: post)
      = (pre ++ { t with Quantity := addInt t.Quantity q } :: post, true) := by
  induction pre with
  | nil => exact addToExisting_cons_eq p q t post ht
  | cons x pre ih =>
    rw [List.cons_append, addToExisting_cons_ne p q x _ (hpre x (List.mem_cons_self _ _)),
      ih (fun y hy => hpre y (List.mem_cons_of_mem _ hy))]
    rfl

theorem addToExisting_map_ProductID (p : String) (q : Int) (items : List CartItem) :
    (addToExisting p q items).1.map (fun x => x.ProductID) = items.map (fun x => x.ProductID) := by
  induction items with
  | nil => rfl
  | cons t rest ih =>
    by_cases h : t.ProductID = p
    · rw [addToExisting_cons_eq p q t rest h]
      rfl
    · rw [addToExisting_cons_ne p q t rest h]
      simp only [List.map_cons, ih]

theorem addToExisting_not_found (p : String) (q : Int) (items : List CartItem)
    (h : (addToExisting p q items).2 = false) :
    (∀ x ∈ items, x.ProductID ≠ p) ∧ (addToExisting p q items).1 = items := by
  induction items with
  | nil => exact ⟨fun x hx => by simp at hx, rfl⟩
  | cons t rest ih =>
    by_cases ht : t.ProductID = p
    · rw [addToExisting_cons_eq p q t rest ht] at h
      simp at h
    · rw [addToExisting_cons_ne p q t rest ht] at h ⊢
      obtain ⟨h1, h2⟩ := ih h
      refine ⟨?_, by simp only [h2]⟩
      intro x hx
      rcases List.mem_cons.mp hx with rfl | hx
      · exact ht
      · exact h1 x hx

theorem addItemLines_of_split (newItemID : ObjectID) (addedAt : Time) (item : AddItemRequest)
    (pre post : List CartItem) (t : CartItem)
    (hpre : ∀ x ∈ pre, x.ProductID ≠ item.ProductID) (ht : t.ProductID = item.ProductID) :
    addItemLines newItemID addedAt item (pre ++ t :: post)
      = pre ++ { t with Quantity := addInt t.Quantity item.Quantity } :: post := by
  unfold addItemLines
  rw [addToExisting_of_split _ _ pre post t hpre ht]
  rfl

theorem addItemLines_of_forall_ne (newItemID : ObjectID) (addedAt : Time)
    (item : AddItemRequest) (items : List CartItem)
    (h : ∀ x ∈ items, x.ProductID ≠ item.ProductID) :
    addItemLines newItemID addedAt item items = items ++ [newLine newItemID addedAt item] := by
  unfold addItemLines
  rw [addToExisting_of_forall_ne _ _ items h]
  rfl

theorem findItem_of_forall_ne (itemOID : ObjectID) (items : List CartItem) (i : Nat)
    (h : ∀ x ∈ items, x.ID ≠ itemOID) : findItem itemOID items i = none := by
  induction items generalizing i with
  | nil => rfl
  | cons t rest ih =>
    have ht : ¬ t.ID = itemOID := h t (List.mem_cons_self _ _)
    simp only [findItem, if_neg ht]
    exact ih (i + 1) (fun x hx => h x (List.mem_cons_of_mem _ hx))

theorem findItem_of_split (itemOID : ObjectID) (pre post : List CartItem) (t : CartItem)
    (i : Nat) (hpre : ∀ x ∈ pre, x.ID ≠ itemOID) (ht : t.ID = itemOID) :
    findItem itemOID (pre ++ t :: post) i = some (i + pre.length, t.ProductID) := by
  induction pre generalizing i with
  | nil => simp only [List.nil_append, findItem, if_pos ht, List.length_nil, Nat.add_zero]
  | cons x pre ih =>
    have hx : ¬ x.ID = itemOID := hpre x (List.mem_cons_self _ _)
    rw [List.cons_append]
    simp only [findItem, if_neg hx]
    rw [ih (i + 1) (fun y hy => hpre y (List.mem_cons_of_mem _ hy)), List.length_cons]
    congr 2
    omega

theorem setQuantityAt_zero (q : Int) (t : CartItem) (rest : List CartItem) :
    setQuantityAt 0 q (t :: rest) = { t with Quantity := q } :: rest := rfl

theorem setQuantityAt_succ (i : Nat) (q : Int) (t : CartItem) (rest : List CartItem) :
    setQuantityAt (i + 1) q (t :: rest) = t :: setQuantityAt i q rest := rfl

theorem setQuantityAt_split (q : Int) (pre post : List CartItem) (t : CartItem) :
    setQuantityAt pre.length q (pre ++ t :: post) = pre ++ { t with Quantity := q } :: post := by
  induction pre with
  | nil => rfl
  | cons x pre ih =>
    rw [List.cons_append, List.length_cons, setQuantityAt_succ, ih]
    rfl

theorem take_drop_split (pre post : List CartItem) (t : CartItem) :
    (pre ++ t :: post).take pre.length ++ (pre ++ t :: post).drop (pre.length + 1)
      = pre ++ post := by
  induction pre with
  | nil => simp
  | cons x pre ih =>
    simp only [List.cons_append, List.length_cons, List.take_succ_cons, List.drop_succ_cons]
    rw [ih]

theorem FindOne_updateFirst_self {patch : Cart → Cart} (hid : ∀ d, (patch d).ID = d.ID)
    {store : Store} {oid : ObjectID} {c : Cart} (hf : FindOne store oid = some c) :
    FindOne (updateFirst oid patch store) oid = some (patch c) := by
  rw [FindOne_updateFirst patch hid, hf, Option.map_some', if_pos (FindOne_some_mem hf).2]

/-! ## AddItem: claims -/

/-- C11 as stated fails when the sum leaves the range of a Go `int`: the cart
holds 2^63 − 1 units of `p1`; a validated request for one more unit of `p1` is
accepted and leaves the line with −2^63 units, where the old quantity plus
the requested one is 2^63. -/
theorem AddItem_sum_wraps :
    oneMoreRequest.Validate = true
      ∧ oracleCheck defaultService oneMoreRequest.ProductID oneMoreRequest.Quantity = none
      ∧ fullCart.Items = [mkItem 7 "p1" 10 9223372036854775807]
      ∧ (mkItem 7 "p1" 10 9223372036854775807).Quantity + oneMoreRequest.Quantity
          = 9223372036854775808
      ∧ ∃ updated,
          (AddItem defaultService [fullCart] 8 0 0 "000000000000000000000001"
              oneMoreRequest).1 = .ok updated
            ∧ FindOne (AddItem defaultService [fullCart] 8 0 0 "000000000000000000000001"
                oneMoreRequest).2 1 = some updated
            ∧ updated.Items = [mkItem 7 "p1" 10 (-9223372036854775808)] := by
  have hf : FindOne [fullCart] 1 = some fullCart := rfl
  have hsvc : oracleCheck defaultService oneMoreRequest.ProductID oneMoreRequest.Quantity
      = none := rfl
  refine ⟨by simp [AddItemRequest.Validate, oneMoreRequest], rfl, rfl, by decide, ?_⟩
  rw [AddItem_eq hsvc ObjectIDFromHex_one hf]
  refine ⟨_, rfl, FindOne_updateFirst_self (setItemsAndTotals_ID _) hf, ?_⟩
  show addItemLines 8 0 oneMoreRequest fullCart.Items = _
  have h := addItemLines_of_split 8 0 oneMoreRequest [] [] (mkItem 7 "p1" 10 9223372036854775807)
    (by simp) rfl
  rw [show fullCart.Items = [] ++ mkItem 7 "p1" 10 9223372036854775807 :: [] from rfl, h]
  simp [mkItem, oneMoreRequest, addInt, wrapInt]

/-- C11, amended: when the availability check accepts the request and the
cart is stored, `AddItem` succeeds and the cart it returns is the cart it
stores; if a line of the cart has the request's product id, the first such
line gets the old quantity plus the requested one, the sum taken as a Go `int`
(the exact sum when that lies in the range of a Go `int`), and nothing else
changes; if no line has it, the list is the old one followed by one new line
carrying the request's product id, title, price and quantity. -/
theorem AddItem_lines (s : CartService) (store : Store) (newItemID : ObjectID)
    (addedAt now : Time) (cartID : String) (item : AddItemRequest) (oid : ObjectID) (c : Cart)
    (hsvc : oracleCheck s item.ProductID item.Quantity = none)
    (hoid : ObjectIDFromHex cartID = .ok oid) (hf : FindOne store oid = some c) :
    ∃ updated,
      (AddItem s store newItemID addedAt now cartID item).1 = .ok updated
        ∧ FindOne (AddItem s store newItemID addedAt now cartID item).2 oid = some updated
        ∧ (∀ pre t post, c.Items = pre ++ t :: post →
            (∀ x ∈ pre, x.ProductID ≠ item.ProductID) → t.ProductID = item.ProductID →
            updated.Items
                = pre ++ { t with Quantity := addInt t.Quantity item.Quantity } :: post
              ∧ (InIntRange (t.Quantity + item.Quantity) →
                  updated.Items
                    = pre ++ { t with Quantity := t.Quantity + item.Quantity } :: post))
        ∧ ((∀ x ∈ c.Items, x.ProductID ≠ item.ProductID) →
            updated.Items = c.Items ++ [newLine newItemID addedAt item])
        ∧ (newLine newItemID addedAt item).ProductID = item.ProductID
        ∧ (newLine newItemID addedAt item).Title = item.Title
        ∧ (newLine newItemID addedAt item).Price = item.Price
        ∧ (newLine newItemID addedAt item).Quantity = item.Quantity := by
  rw [AddItem_eq hsvc hoid hf]
  refine ⟨_, rfl, FindOne_updateFirst_self (setItemsAndTotals_ID _) hf, ?_, ?_, rfl, rfl, rfl, rfl⟩
  · intro pre t post hsplit hpre ht
    have hlines : addItemLines newItemID addedAt item c.Items
        = pre ++ { t with Quantity := addInt t.Quantity item.Quantity } :: post := by
      rw [hsplit]
      exact addItemLines_of_split newItemID addedAt item pre post t hpre ht
    refine ⟨hlines, ?_⟩
    intro hr
    rw [← addInt_of_inRange _ _ hr]
    exact hlines
  · intro hnone
    exact addItemLines_of_forall_ne newItemID addedAt item c.Items hnone

/-- No line of the scenario's cart is of product `p2`. -/
theorem p2Request_fresh : ∀ x ∈ cartAfterAdd.Items, x.ProductID ≠ "p2" := by
  intro x hx
  simp only [cartAfterAdd, mkCart, List.mem_singleton] at hx
  subst hx
  decide

/-- C11, amended, worked example on the scenario's cart (one line, `p1` × 2): adding
`p1` × 2 again raises the line to 4; adding `p2` × 1 appends a second line. -/
theorem AddItem_lines_witness :
    (∃ updated,
      (AddItem defaultService [cartAfterAdd] 8 0 0 "000000000000000000000001" p1Request).1
          = .ok updated
        ∧ FindOne (AddItem defaultService [cartAfterAdd] 8 0 0 "000000000000000000000001"
            p1Request).2 1 = some updated
        ∧ updated.Items = [mkItem 7 "p1" 10 4])
      ∧ (∃ updated,
          (AddItem defaultService [cartAfterAdd] 8 0 0 "000000000000000000000001"
              { p1Request with ProductID := "p2", Title := "p2", Price := 5, Quantity := 1 }).1
            = .ok updated
          ∧ updated.Items = [mkItem 7 "p1" 10 2, mkItem 8 "p2" 5 1]) := by
  constructor
  · obtain ⟨updated, h1, h2, h3, _⟩ := AddItem_lines defaultService [cartAfterAdd] 8 0 0
      "000000000000000000000001" p1Request 1 cartAfterAdd rfl ObjectIDFromHex_one rfl
    exact ⟨updated, h1, h2,
      (h3 [] (mkItem 7 "p1" 10 2) [] rfl (by simp) rfl).2 (by decide)⟩
  · obtain ⟨updated, h1, _, _, h4, _⟩ := AddItem_lines defaultService [cartAfterAdd] 8 0 0
      "000000000000000000000001"
      { p1Request with ProductID := "p2", Title := "p2", Price := 5, Quantity := 1 }
      1 cartAfterAdd rfl ObjectIDFromHex_one rfl
    exact ⟨updated, h1, h4 p2Request_fresh⟩

/-! ## Invariants of the item lists -/

theorem MergeGuestCart_store_items (s : CartService) (store : Store) (now : Time)
    (secondaryWriteOk : Bool) (userCartID guestCartID : String) :
    (MergeGuestCart s store now secondaryWriteOk userCartID guestCartID).2 = store ∨
    ∃ userOID guestOID target source,
      FindOne store userOID = some target ∧ FindOne store guestOID = some source ∧
      (MergeGuestCart s store now secondaryWriteOk userCartID guestCartID).2
        = if secondaryWriteOk then
            updateFirst guestOID (markMerged userCartID)
              (updateFirst userOID
                (setItemsAndTotals (recomputed s now (mergedCart target source))) store)
          else
            updateFirst userOID
              (setItemsAndTotals (recomputed s now (mergedCart target source))) store := by
  cases hu : ObjectIDFromHex userCartID with
  | error err =>
    left
    unfold MergeGuestCart
    simp only [hu]
  | ok userOID =>
    cases hg : ObjectIDFromHex guestCartID with
    | error err =>
      left
      unfold MergeGuestCart
      simp only [hu, hg]
    | ok guestOID =>
      cases hfs : FindOne store guestOID with
      | none =>
        left
        unfold MergeGuestCart
        simp only [hu, hg, hfs]
      | some source =>
        cases hft : FindOne store userOID with
        | none =>
          left
          unfold MergeGuestCart
          simp only [hu, hg, hfs, hft]
        | some target =>
          right
          exact ⟨userOID, guestOID, target, source, hft, hfs,
            by rw [MergeGuestCart_eq hu hg hft hfs]⟩

/-- A property of item lists that holds of the empty list and is kept by what
`AddItem` (for requests satisfying `Q`), `UpdateItem`, `RemoveItem` and
`MergeGuestCart` write is kept by every call. -/
theorem items_invariant_step (P : List CartItem → Prop) (Q : AddItemRequest → Prop)
    (hnil : P [])
    (hadd : ∀ newItemID addedAt item items, Q item → P items →
      P (addItemLines newItemID addedAt item items))
    (hupd : ∀ i q items, 0 < q → P items → P (setQuantityAt i q items))
    (hrem : ∀ i items, P items → P (items.take i ++ items.drop (i + 1)))
    (hmerge : ∀ target source, P target → P source →
      P (mergeLoop (buildItemMap target 0 []) source target))
    (s : CartService) (store : Store) (op : Op)
    (hop : ∀ newItemID addedAt now cartID item,
      op = Op.addItem newItemID addedAt now cartID item → Q item)
    (hstore : ∀ c ∈ store, P c.Items) :
    ∀ c ∈ op.run s store, P c.Items := by
  cases op with
  | createCart insertedID now req =>
    intro cart hc
    simp only [Op.run] at hc
    rcases CreateCart_store s store insertedID now req with h | h
    · rw [h] at hc; exact hstore cart hc
    · rw [h, List.mem_append, List.mem_singleton] at hc
      rcases hc with hc | hc
      · exact hstore cart hc
      · subst hc; exact hnil
  | addItem newItemID addedAt now cartID item =>
    simp only [Op.run]
    rcases AddItem_store_items s store newItemID addedAt now cartID item with h | ⟨oid, c, hf, h⟩
    · rw [h]; exact hstore
    · rw [h]
      exact forall_mem_updateFirst (P := fun c => P c.Items) hstore (fun c1 hc1 => by
        have hcc : c1 = c := by rw [hf] at hc1; exact (Option.some.inj hc1).symm
        subst hcc
        exact hadd _ _ _ _ (hop _ _ _ _ _ rfl) (hstore c1 (FindOne_some_mem hf).1))
  | updateItem now cartID itemID req =>
    simp only [Op.run]
    rcases UpdateItem_store_items s store now cartID itemID req with h | ⟨oid, c, i, hf, hq, h⟩
    · rw [h]; exact hstore
    · rw [h]
      exact forall_mem_updateFirst (P := fun c => P c.Items) hstore (fun c1 hc1 => by
        have hcc : c1 = c := by rw [hf] at hc1; exact (Option.some.inj hc1).symm
        subst hcc
        exact hupd _ _ _ hq (hstore c1 (FindOne_some_mem hf).1))
  | removeItem now cartID itemID =>
    simp only [Op.run]
    rcases RemoveItem_store_items s store now cartID itemID with h | ⟨oid, c, i, hf, h⟩
    · rw [h]; exact hstore
    · rw [h]
      exact forall_mem_updateFirst (P := fun c => P c.Items) hstore (fun c1 hc1 => by
        have hcc : c1 = c := by rw [hf] at hc1; exact (Option.some.inj hc1).symm
        subst hcc
        exact hrem _ _ (hstore c1 (FindOne_some_mem hf).1))
  | clearCart now cartID =>
    simp only [Op.run]
    rcases ClearCart_store s store now cartID with h | ⟨oid, h⟩
    · rw [h]; exact hstore
    · rw [h]
      exact forall_mem_updateFirst (P := fun c => P c.Items) hstore (fun _ _ => hnil)
  | applyCoupon appliedAt now cartID req =>
    simp only [Op.run]
    rcases ApplyCoupon_store s store appliedAt now cartID req with h | ⟨oid, c, hf, _, h⟩
    · rw [h]; exact hstore
    · rw [h]
      exact forall_mem_updateFirst (P := fun c => P c.Items) hstore
        (fun c1 hc1 => hstore c1 (FindOne_some_mem hc1).1)
  | removeCoupon now cartID =>
    simp only [Op.run]
    rcases RemoveCoupon_store s store now cartID with h | ⟨oid, c, hf, h⟩
    · rw [h]; exact hstore
    · rw [h]
      exact forall_mem_updateFirst (P := fun c => P c.Items) hstore
        (fun c1 hc1 => hstore c1 (FindOne_some_mem hc1).1)
  | checkoutCart now cartID =>
    simp only [Op.run]
    rcases CheckoutCart_store s store now cartID with h | ⟨oid, h⟩
    · rw [h]; exact hstore
    · rw [h]
      exact forall_mem_updateFirst (P := fun c => P c.Items) hstore
        (fun c1 hc1 => hstore c1 (FindOne_some_mem hc1).1)
  | mergeGuestCart now ok userCartID guestCartID =>
    simp only [Op.run]
    rcases MergeGuestCart_store_items s store now ok userCartID guestCartID with
      h | ⟨userOID, guestOID, target, source, hft, hfs, h⟩
    · rw [h]; exact hstore
    · rw [h]
      have hprimary : ∀ x ∈ updateFirst userOID
          (setItemsAndTotals (recomputed s now (mergedCart target source))) store,
          P x.Items :=
        forall_mem_updateFirst (P := fun c => P c.Items) hstore (fun c1 hc1 => by
          have hcc : c1 = target := by rw [hft] at hc1; exact (Option.some.inj hc1).symm
          subst hcc
          exact hmerge _ _ (hstore c1 (FindOne_some_mem hft).1)
            (hstore source (FindOne_some_mem hfs).1))
      cases ok with
      | false => simpa using hprimary
      | true =>
        simp only [if_true]
        exact forall_mem_updateFirst (P := fun c => P c.Items) hprimary
          (fun c1 hc1 => hprimary c1 (FindOne_some_mem hc1).1)
  | cleanupAbandonedCarts now olderThan =>
    simp only [Op.run, CleanupAbandonedCarts_store]
    intro cart hc
    rw [List.mem_map] at hc
    obtain ⟨c, hcs, rfl⟩ := hc
    split
    · exact hstore c hcs
    · exact hstore c hcs

theorem removeAt_sublist (items : List CartItem) (i : Nat) :
    (items.take i ++ items.drop (i + 1)).Sublist items := by
  induction items generalizing i with
  | nil => simp
  | cons t rest ih =>
    cases i with
    | zero => simp
    | succ i =>
      simp only [List.take_succ_cons, List.drop_succ_cons, List.cons_append]
      exact (ih i).cons₂ t

theorem setQuantityAt_map_ProductID (i : Nat) (q : Int) (items : List CartItem) :
    (setQuantityAt i q items).map (fun x => x.ProductID) = items.map (fun x => x.ProductID) := by
  induction items generalizing i with
  | nil => cases i <;> rfl
  | cons t rest ih =>
    cases i with
    | zero => rfl
    | succ i =>
      rw [setQuantityAt_succ, List.map_cons, List.map_cons, ih]

theorem nodup_setQuantityAt (i : Nat) (q : Int) (items : List CartItem)
    (h : (items.map (fun x => x.ProductID)).Nodup) :
    ((setQuantityAt i q items).map (fun x => x.ProductID)).Nodup := by
  rw [setQuantityAt_map_ProductID]
  exact h

theorem nodup_removeAt (i : Nat) (items : List CartItem)
    (h : (items.map (fun x => x.ProductID)).Nodup) :
    ((items.take i ++ items.drop (i + 1)).map (fun x => x.ProductID)).Nodup :=
  h.sublist ((removeAt_sublist items i).map _)

theorem nodup_addItemLines (newItemID : ObjectID) (addedAt : Time) (item : AddItemRequest)
    (items : List CartItem) (h : (items.map (fun x => x.ProductID)).Nodup) :
    ((addItemLines newItemID addedAt item items).map (fun x => x.ProductID)).Nodup := by
  unfold addItemLines
  cases hfound : (addToExisting item.ProductID item.Quantity items).2 with
  | false =>
    obtain ⟨hne, heq⟩ := addToExisting_not_found _ _ _ hfound
    simp only [Bool.not_false, if_true, heq, List.map_append, List.map_cons, List.map_nil]
    rw [List.nodup_append]
    refine ⟨h, List.nodup_singleton _, ?_⟩
    intro p hp hp2
    rw [List.mem_singleton] at hp2
    obtain ⟨x, hx, hxp⟩ := List.mem_map.mp hp
    exact hne x hx (hxp.trans hp2)
  | true =>
    simp only [Bool.not_true]
    rw [if_neg (by decide), addToExisting_map_ProductID]
    exact h

theorem mergedItemsSpec_map_ProductID (target source : List CartItem) :
    (mergedItemsSpec target source).map (fun x => x.ProductID)
      = target.map (fun x => x.ProductID)
        ++ (source.filter
            (fun g => decide (g.ProductID ∉ target.map (fun t => t.ProductID)))).map
              (fun x => x.ProductID) := by
  unfold mergedItemsSpec
  rw [List.map_append, List.map_map]
  congr 1
  apply List.map_congr_left
  intro t _
  simp only [Function.comp]
  split <;> rfl

theorem mergedItemsInt_map_ProductID (target source : List CartItem) :
    (mergedItemsInt target source).map (fun x => x.ProductID)
      = target.map (fun x => x.ProductID)
        ++ (source.filter
            (fun g => decide (g.ProductID ∉ target.map (fun t => t.ProductID)))).map
              (fun x => x.ProductID) := by
  unfold mergedItemsInt
  rw [List.map_append, List.map_map]
  congr 1
  apply List.map_congr_left
  intro t _
  simp only [Function.comp, bumpAll]
  split <;> rfl

theorem nodup_mergeLoop (target source : List CartItem)
    (ht : (target.map (fun x => x.ProductID)).Nodup)
    (hs : (source.map (fun x => x.ProductID)).Nodup) :
    ((mergeLoop (buildItemMap target 0 []) source target).map (fun x => x.ProductID)).Nodup := by
  rw [mergeLoop_eq_mergedItemsInt target source ht hs, mergedItemsInt_map_ProductID,
    List.nodup_append]
  refine ⟨ht, ?_, ?_⟩
  · exact hs.sublist ((List.filter_sublist _).map _)
  · intro p hp hp2
    obtain ⟨g, hg, hgp⟩ := List.mem_map.mp hp2
    have hg2 := (List.mem_filter.mp hg).2
    simp only [decide_eq_true_eq] at hg2
    exact hg2 (by rw [hgp]; exact hp)

/-- C12: in every collection reachable from the empty one by service calls
(a merge of a cart into itself included), no cart has two lines with the same
product id. -/
theorem reachable_products_distinct (cartTTL : Duration) (taxRate shippingCost : ℚ)
    (store : Store) (h : Reachable cartTTL taxRate shippingCost store) :
    ∀ cart ∈ store, (cart.Items.map (fun x => x.ProductID)).Nodup := by
  induction h with
  | empty => intro cart hc; simp at hc
  | step productSvc op store _ ih =>
    exact items_invariant_step (fun items => (items.map (fun x => x.ProductID)).Nodup)
      (fun _ => True) List.nodup_nil
      (fun newItemID addedAt item items _ hp => nodup_addItemLines newItemID addedAt item items hp)
      (fun i q items _ hp => nodup_setQuantityAt i q items hp)
      (fun i items hp => nodup_removeAt i items hp)
      (fun target source ht hs => nodup_mergeLoop target source ht hs)
      _ store op (fun _ _ _ _ _ _ => trivial) ih

/-- C12, worked example: the scenario's cart after the line was added. -/
theorem reachable_products_distinct_witness :
    Reachable 259200 (18 / 100) 0 [cartAfterAdd]
      ∧ cartAfterAdd ∈ [cartAfterAdd]
      ∧ (cartAfterAdd.Items.map (fun x => x.ProductID)).Nodup :=
  ⟨scenario_reachable, List.mem_singleton.mpr rfl,
   reachable_products_distinct 259200 (18 / 100) 0 [cartAfterAdd] scenario_reachable
     cartAfterAdd (List.mem_singleton.mpr rfl)⟩

theorem AddItem_store_items_hex (s : CartService) (store : Store) (newItemID : ObjectID)
    (addedAt now : Time) (cartID : String) (item : AddItemRequest) :
    (AddItem s store newItemID addedAt now cartID item).2 = store ∨
    ∃ oid c, ObjectIDFromHex cartID = .ok oid ∧ FindOne store oid = some c ∧
      (AddItem s store newItemID addedAt now cartID item).2
        = updateFirst oid (setItemsAndTotals (recomputed s now
            { c with Items := addItemLines newItemID addedAt item c.Items })) store := by
  cases hsvc : oracleCheck s item.ProductID item.Quantity with
  | some err =>
    left
    have hsvc2 : (match s.productSvc with
        | some svc => svc item.ProductID item.Quantity
        | none => none) = some err := hsvc
    unfold AddItem
    simp only [hsvc2]
  | none =>
    have hsvc2 : (match s.productSvc with
        | some svc => svc item.ProductID item.Quantity
        | none => none) = none := hsvc
    cases hoid : ObjectIDFromHex cartID with
    | error err =>
      left
      unfold AddItem
      simp only [hsvc2, hoid]
    | ok oid =>
      cases hf : FindOne store oid with
      | none =>
        left
        unfold AddItem
        simp only [hsvc2, hoid, hf]
      | some c =>
        right
        exact ⟨oid, c, rfl, hf, by rw [AddItem_eq hsvc hoid hf]⟩

theorem MergeGuestCart_store_items_hex (s : CartService) (store : Store) (now : Time)
    (secondaryWriteOk : Bool) (userCartID guestCartID : String) :
    (MergeGuestCart s store now secondaryWriteOk userCartID guestCartID).2 = store ∨
    ∃ userOID guestOID target source,
      ObjectIDFromHex userCartID = .ok userOID ∧ ObjectIDFromHex guestCartID = .ok guestOID ∧
      FindOne store userOID = some target ∧ FindOne store guestOID = some source ∧
      (MergeGuestCart s store now secondaryWriteOk userCartID guestCartID).2
        = if secondaryWriteOk then
            updateFirst guestOID (markMerged userCartID)
              (updateFirst userOID
                (setItemsAndTotals (recomputed s now (mergedCart target source))) store)
          else
            updateFirst userOID
              (setItemsAndTotals (recomputed s now (mergedCart target source))) store := by
  cases hu : ObjectIDFromHex userCartID with
  | error err =>
    left
    unfold MergeGuestCart
    simp only [hu]
  | ok userOID =>
    cases hg : ObjectIDFromHex guestCartID with
    | error err =>
      left
      unfold MergeGuestCart
      simp only [hu, hg]
    | ok guestOID =>
      cases hfs : FindOne store guestOID with
      | none =>
        left
        unfold MergeGuestCart
        simp only [hu, hg, hfs]
      | some source =>
        cases hft : FindOne store userOID with
        | none =>
          left
          unfold MergeGuestCart
          simp only [hu, hg, hfs, hft]
        | some target =>
          right
          exact ⟨userOID, guestOID, target, source, rfl, rfl, hft, hfs,
            by rw [MergeGuestCart_eq hu hg hft hfs]⟩

/-- A property of item lists that holds of the empty list and is kept by what
`UpdateItem` and `RemoveItem` write, and by what `AddItem` and
`MergeGuestCart` write on the carts this call addresses, is kept by the
call. -/
theorem items_invariant_step_at (P : List CartItem → Prop)
    (hnil : P [])
    (hupd : ∀ i q items, 0 < q → P items → P (setQuantityAt i q items))
    (hrem : ∀ i items, P items → P (items.take i ++ items.drop (i + 1)))
    (s : CartService) (store : Store) (op : Op)
    (hadd : ∀ newItemID addedAt now cartID item oid c,
      op = Op.addItem newItemID addedAt now cartID item →
      ObjectIDFromHex cartID = .ok oid → FindOne store oid = some c → P c.Items →
      P (addItemLines newItemID addedAt item c.Items))
    (hmerge : ∀ now ok userCartID guestCartID userOID guestOID target source,
      op = Op.mergeGuestCart now ok userCartID guestCartID →
      ObjectIDFromHex userCartID = .ok userOID → ObjectIDFromHex guestCartID = .ok guestOID →
      FindOne store userOID = some target → FindOne store guestOID = some source →
      P target.Items → P source.Items →
      P (mergeLoop (buildItemMap target.Items 0 []) source.Items target.Items))
    (hstore : ∀ c ∈ store, P c.Items) :
    ∀ c ∈ op.run s store, P c.Items := by
  cases op with
  | createCart insertedID now req =>
    intro cart hc
    simp only [Op.run] at hc
    rcases CreateCart_store s store insertedID now req with h | h
    · rw [h] at hc; exact hstore cart hc
    · rw [h, List.mem_append, List.mem_singleton] at hc
      rcases hc with hc | hc
      · exact hstore cart hc
      · subst hc; exact hnil
  | addItem newItemID addedAt now cartID item =>
    simp only [Op.run]
    rcases AddItem_store_items_hex s store newItemID addedAt now cartID item with
      h | ⟨oid, c, hoid, hf, h⟩
    · rw [h]; exact hstore
    · rw [h]
      exact forall_mem_updateFirst (P := fun c => P c.Items) hstore (fun c1 hc1 => by
        have hcc : c1 = c := by rw [hf] at hc1; exact (Option.some.inj hc1).symm
        subst hcc
        exact hadd _ _ _ _ _ oid c1 rfl hoid hf (hstore c1 (FindOne_some_mem hf).1))
  | updateItem now cartID itemID req =>
    simp only [Op.run]
    rcases UpdateItem_store_items s store now cartID itemID req with h | ⟨oid, c, i, hf, hq, h⟩
    · rw [h]; exact hstore
    · rw [h]
      exact forall_mem_updateFirst (P := fun c => P c.Items) hstore (fun c1 hc1 => by
        have hcc : c1 = c := by rw [hf] at hc1; exact (Option.some.inj hc1).symm
        subst hcc
        exact hupd _ _ _ hq (hstore c1 (FindOne_some_mem hf).1))
  | removeItem now cartID itemID =>
    simp only [Op.run]
    rcases RemoveItem_store_items s store now cartID itemID with h | ⟨oid, c, i, hf, h⟩
    · rw [h]; exact hstore
    · rw [h]
      exact forall_mem_updateFirst (P := fun c => P c.Items) hstore (fun c1 hc1 => by
        have hcc : c1 = c := by rw [hf] at hc1; exact (Option.some.inj hc1).symm
        subst hcc
        exact hrem _ _ (hstore c1 (FindOne_some_mem hf).1))
  | clearCart now cartID =>
    simp only [Op.run]
    rcases ClearCart_store s store now cartID with h | ⟨oid, h⟩
    · rw [h]; exact hstore
    · rw [h]
      exact forall_mem_updateFirst (P := fun c => P c.Items) hstore (fun _ _ => hnil)
  | applyCoupon appliedAt now cartID req =>
    simp only [Op.run]
    rcases ApplyCoupon_store s store appliedAt now cartID req with h | ⟨oid, c, hf, _, h⟩
    · rw [h]; exact hstore
    · rw [h]
      exact forall_mem_updateFirst (P := fun c => P c.Items) hstore
        (fun c1 hc1 => hstore c1 (FindOne_some_mem hc1).1)
  | removeCoupon now cartID =>
    simp only [Op.run]
    rcases RemoveCoupon_store s store now cartID with h | ⟨oid, c, hf, h⟩
    · rw [h]; exact hstore
    · rw [h]
      exact forall_mem_updateFirst (P := fun c => P c.Items) hstore
        (fun c1 hc1 => hstore c1 (FindOne_some_mem hc1).1)
  | checkoutCart now cartID =>
    simp only [Op.run]
    rcases CheckoutCart_store s store now cartID with h | ⟨oid, h⟩
    · rw [h]; exact hstore
    · rw [h]
      exact forall_mem_updateFirst (P := fun c => P c.Items) hstore
        (fun c1 hc1 => hstore c1 (FindOne_some_mem hc1).1)
  | mergeGuestCart now ok userCartID guestCartID =>
    simp only [Op.run]
    rcases MergeGuestCart_store_items_hex s store now ok userCartID guestCartID with
      h | ⟨userOID, guestOID, target, source, hu, hg, hft, hfs, h⟩
    · rw [h]; exact hstore
    · rw [h]
      have hprimary : ∀ x ∈ updateFirst userOID
          (setItemsAndTotals (recomputed s now (mergedCart target source))) store,
          P x.Items :=
        forall_mem_updateFirst (P := fun c => P c.Items) hstore (fun c1 hc1 => by
          have hcc : c1 = target := by rw [hft] at hc1; exact (Option.some.inj hc1).symm
          subst hcc
          exact hmerge _ _ _ _ userOID guestOID c1 source rfl hu hg hft hfs
            (hstore c1 (FindOne_some_mem hft).1) (hstore source (FindOne_some_mem hfs).1))
      cases ok with
      | false => simpa using hprimary
      | true =>
        simp only [if_true]
        exact forall_mem_updateFirst (P := fun c => P c.Items) hprimary
          (fun c1 hc1 => hprimary c1 (FindOne_some_mem hc1).1)
  | cleanupAbandonedCarts now olderThan =>
    simp only [Op.run, CleanupAbandonedCarts_store]
    intro cart hc
    rw [List.mem_map] at hc
    obtain ⟨c, hcs, rfl⟩ := hc
    split
    · exact hstore c hcs
    · exact hstore c hcs

/-- In every reachable collection the lines of a cart have pairwise distinct
product ids. -/
theorem reachable_nodup (cartTTL : Duration) (taxRate shippingCost : ℚ)
    (store : Store) (h : Reachable cartTTL taxRate shippingCost store) :
    ∀ cart ∈ store, (cart.Items.map (fun x => x.ProductID)).Nodup := by
  induction h with
  | empty => intro cart hc; simp at hc
  | step productSvc op store _ ih =>
    exact items_invariant_step (fun items => (items.map (fun x => x.ProductID)).Nodup)
      (fun _ => True) List.nodup_nil
      (fun newItemID addedAt item items _ hp => nodup_addItemLines newItemID addedAt item items hp)
      (fun i q items _ hp => nodup_setQuantityAt i q items hp)
      (fun i items hp => nodup_removeAt i items hp)
      (fun target source ht hs => nodup_mergeLoop target source ht hs)
      _ store op (fun _ _ _ _ _ _ => trivial) ih

theorem reachableInRange_reachable {cartTTL : Duration} {taxRate shippingCost : ℚ}
    {store : Store} (h : ReachableInRange cartTTL taxRate shippingCost store) :
    Reachable cartTTL taxRate shippingCost store := by
  induction h with
  | empty => exact Reachable.empty
  | step productSvc op store _ _ _ ih => exact Reachable.step productSvc op store ih

theorem positive_addItemLines (newItemID : ObjectID) (addedAt : Time) (item : AddItemRequest)
    (items : List CartItem) (hq : 0 < item.Quantity)
    (hr : ∀ t ∈ items, t.ProductID = item.ProductID → InIntRange (t.Quantity + item.Quantity))
    (h : ∀ x ∈ items, 0 < x.Quantity) :
    ∀ x ∈ addItemLines newItemID addedAt item items, 0 < x.Quantity := by
  have hloop : ∀ (l : List CartItem), (∀ x ∈ l, 0 < x.Quantity) →
      (∀ t ∈ l, t.ProductID = item.ProductID → InIntRange (t.Quantity + item.Quantity)) →
      ∀ x ∈ (addToExisting item.ProductID item.Quantity l).1, 0 < x.Quantity := by
    intro l
    induction l with
    | nil => intro _ _ x hx; simp [addToExisting] at hx
    | cons t rest ih =>
      intro hl hrl x hx
      by_cases ht : t.ProductID = item.ProductID
      · rw [addToExisting_cons_eq _ _ t rest ht] at hx
        rcases List.mem_cons.mp hx with rfl | hx
        · have hpos := hl t (List.mem_cons_self _ _)
          show 0 < addInt t.Quantity item.Quantity
          rw [addInt_of_inRange _ _ (hrl t (List.mem_cons_self _ _) ht)]
          omega
        · exact hl x (List.mem_cons_of_mem _ hx)
      · rw [addToExisting_cons_ne _ _ t rest ht] at hx
        rcases List.mem_cons.mp hx with rfl | hx
        · exact hl x (List.mem_cons_self _ _)
        · exact ih (fun y hy => hl y (List.mem_cons_of_mem _ hy))
            (fun y hy => hrl y (List.mem_cons_of_mem _ hy)) x hx
  intro x hx
  unfold addItemLines at hx
  split at hx
  · rcases List.mem_append.mp hx with hx | hx
    · exact hloop items h hr x hx
    · rw [List.mem_singleton] at hx
      subst hx
      exact hq
  · exact hloop items h hr x hx

theorem positive_setQuantityAt (i : Nat) (q : Int) (items : List CartItem) (hq : 0 < q)
    (h : ∀ x ∈ items, 0 < x.Quantity) : ∀ x ∈ setQuantityAt i q items, 0 < x.Quantity := by
  induction items generalizing i with
  | nil => cases i <;> exact fun x hx => by simp [setQuantityAt] at hx
  | cons t rest ih =>
    cases i with
    | zero =>
      intro x hx
      rw [setQuantityAt_zero] at hx
      rcases List.mem_cons.mp hx with rfl | hx
      · exact hq
      · exact h x (List.mem_cons_of_mem _ hx)
    | succ i =>
      intro x hx
      rw [setQuantityAt_succ] at hx
      rcases List.mem_cons.mp hx with rfl | hx
      · exact h x (List.mem_cons_self _ _)
      · exact ih i (fun y hy => h y (List.mem_cons_of_mem _ hy)) x hx

theorem positive_mergedItemsInt (target source : List CartItem)
    (ht : ∀ x ∈ target, 0 < x.Quantity) (hs : ∀ g ∈ source, 0 < g.Quantity)
    (hr : ∀ t ∈ target, ∀ g ∈ source, g.ProductID = t.ProductID →
      InIntRange (t.Quantity + g.Quantity)) :
    ∀ x ∈ mergedItemsInt target source, 0 < x.Quantity := by
  rw [mergedItemsInt_eq_spec target source hr]
  intro x hx
  unfold mergedItemsSpec at hx
  rcases List.mem_append.mp hx with hx | hx
  · obtain ⟨t, htm, hxt⟩ := List.mem_map.mp hx
    have h0 := ht t htm
    cases hfind : source.find? (fun g => decide (g.ProductID = t.ProductID)) with
    | none =>
      simp only [hfind] at hxt
      rw [← hxt]
      exact h0
    | some g =>
      have hg := hs g (List.mem_of_find?_eq_some hfind)
      simp only [hfind] at hxt
      rw [← hxt]
      show 0 < t.Quantity + g.Quantity
      omega
  · exact hs x (List.mem_filter.mp hx).1

theorem Validate_quantity (item : AddItemRequest) (h : item.Validate = true) :
    0 < item.Quantity := by
  unfold AddItemRequest.Validate at h
  simp only [Bool.and_eq_true, decide_eq_true_eq] at h
  exact h.2

theorem overflowStore_find :
    FindOne overflowStore 1
      = some (setItemsAndTotals (recomputed defaultService 0
          { setItemsAndTotals (recomputed defaultService 0
              { mkCart 1 [] none with
                Items := addItemLines 7 0 halfRequest (mkCart 1 [] none).Items })
              (mkCart 1 [] none) with
            Items := addItemLines 8 0 halfRequest
              (setItemsAndTotals (recomputed defaultService 0
                { mkCart 1 [] none with
                  Items := addItemLines 7 0 halfRequest (mkCart 1 [] none).Items })
                (mkCart 1 [] none)).Items })
          (setItemsAndTotals (recomputed defaultService 0
              { mkCart 1 [] none with
                Items := addItemLines 7 0 halfRequest (mkCart 1 [] none).Items })
              (mkCart 1 [] none))) := by
  have hsvc : oracleCheck defaultService halfRequest.ProductID halfRequest.Quantity = none := rfl
  have hf0 : FindOne [mkCart 1 [] none] 1 = some (mkCart 1 [] none) := rfl
  unfold overflowStore
  rw [AddItem_eq hsvc ObjectIDFromHex_one hf0]
  have hf1 := FindOne_updateFirst_self (setItemsAndTotals_ID (recomputed defaultService 0
    { mkCart 1 [] none with
      Items := addItemLines 7 0 halfRequest (mkCart 1 [] none).Items })) hf0
  rw [AddItem_eq hsvc ObjectIDFromHex_one hf1]
  exact FindOne_updateFirst_self (setItemsAndTotals_ID _) hf1

theorem overflowStore_reachable : ReachableValidated 259200 (18 / 100) 0 overflowStore := by
  have h0 : ReachableValidated 259200 (18 / 100) 0 [] := ReachableValidated.empty
  have h1 := ReachableValidated.step none
    (Op.createCart 1 0 { UserID := "", Metadata := [] }) [] trivial h0
  have e1 : (Op.createCart 1 0 { UserID := "", Metadata := [] }).run
      { productSvc := none, cartTTL := 259200, taxRate := 18 / 100, shippingCost := 0 } []
      = [mkCart 1 [] none] := congrArg Prod.snd scenario_create
  rw [e1] at h1
  have hv : (Op.addItem 7 0 0 "000000000000000000000001" halfRequest).validated := by
    show halfRequest.Validate = true
    simp [AddItemRequest.Validate, halfRequest]
  have hv2 : (Op.addItem 8 0 0 "000000000000000000000001" halfRequest).validated := hv
  have h2 := ReachableValidated.step none
    (Op.addItem 7 0 0 "000000000000000000000001" halfRequest) _ hv h1
  exact ReachableValidated.step none
    (Op.addItem 8 0 0 "000000000000000000000001" halfRequest) _ hv2 h2

/-- C13 as stated fails, in two ways.  `AddItem` does not check the quantity:
after `CreateCart`, an `AddItem` for product `p1` with quantity 0 is accepted
by the mock product service (stock 5) and stores a line with quantity 0.  And
quantities are added as Go `int`s: after `CreateCart`, two validated `AddItem`
calls of 2^62 units of `p1` each leave the line with −2^63 units. -/
theorem AddItem_stores_zero_quantity :
    (Reachable 259200 (18 / 100) 0
        (AddItem mockService [mkCart 1 [] none] 7 0 0 "000000000000000000000001"
          zeroQuantityRequest).2
      ∧ ∃ cart ∈ (AddItem mockService [mkCart 1 [] none] 7 0 0 "000000000000000000000001"
          zeroQuantityRequest).2,
          ∃ line ∈ cart.Items, line.Quantity = 0 ∧ ¬ (0 < line.Quantity))
      ∧ (ReachableValidated 259200 (18 / 100) 0 overflowStore
        ∧ ∃ cart ∈ overflowStore,
            ∃ line ∈ cart.Items, line.Quantity = -9223372036854775808
              ∧ ¬ (0 < line.Quantity)) := by
  constructor
  · have h0 : Reachable 259200 (18 / 100) 0 [] := Reachable.empty
    have h1 := Reachable.step none (Op.createCart 1 0 { UserID := "", Metadata := [] }) [] h0
    have e1 : (Op.createCart 1 0 { UserID := "", Metadata := [] }).run
        { productSvc := none, cartTTL := 259200, taxRate := 18 / 100, shippingCost := 0 } []
        = [mkCart 1 [] none] := congrArg Prod.snd scenario_create
    rw [e1] at h1
    have h2 := Reachable.step mockService.productSvc
      (Op.addItem 7 0 0 "000000000000000000000001" zeroQuantityRequest) _ h1
    refine ⟨h2, ?_⟩
    have hf : FindOne [mkCart 1 [] none] 1 = some (mkCart 1 [] none) := rfl
    have hsvc : oracleCheck mockService zeroQuantityRequest.ProductID
        zeroQuantityRequest.Quantity = none := rfl
    rw [AddItem_eq hsvc ObjectIDFromHex_one hf]
    exact ⟨_, List.mem_singleton.mpr rfl, newLine 7 0 zeroQuantityRequest,
      List.mem_singleton.mpr rfl, rfl, by decide⟩
  · refine ⟨overflowStore_reachable, _, (FindOne_some_mem overflowStore_find).1,
      { newLine 7 0 halfRequest with Quantity := -9223372036854775808 }, ?_, rfl, by decide⟩
    show _ ∈ addItemLines 8 0 halfRequest (addItemLines 7 0 halfRequest [])
    have e1 : addItemLines 7 0 halfRequest [] = [] ++ newLine 7 0 halfRequest :: [] := rfl
    rw [e1, addItemLines_of_split 8 0 halfRequest [] [] (newLine 7 0 halfRequest) (by simp) rfl]
    simp [newLine, halfRequest, addInt, wrapInt]

/-- C13, amended: in every collection reachable by service calls whose
`AddItem` requests passed validation (quantity greater than zero, as the
handler checks before calling `AddItem`) and whose quantity additions stay in
the range of a Go `int`, every line of every cart has a quantity greater than
zero. -/
theorem reachable_validated_quantities_positive (cartTTL : Duration)
    (taxRate shippingCost : ℚ) (store : Store)
    (h : ReachableInRange cartTTL taxRate shippingCost store) :
    ∀ cart ∈ store, ∀ line ∈ cart.Items, 0 < line.Quantity := by
  induction h with
  | empty => intro cart hc; simp at hc
  | step productSvc op store hvalid hrange hreach ih =>
    have hnd := reachable_nodup cartTTL taxRate shippingCost store
      (reachableInRange_reachable hreach)
    exact items_invariant_step_at (fun items => ∀ line ∈ items, 0 < line.Quantity)
      (fun line hl => by simp at hl)
      (fun i q items hq hp => positive_setQuantityAt i q items hq hp)
      (fun i items hp x hx => hp x ((removeAt_sublist items i).subset hx))
      _ store op
      (fun newItemID addedAt now cartID item oid c hop hoid hf hp => by
        subst hop
        exact positive_addItemLines newItemID addedAt item c.Items
          (Validate_quantity item hvalid) (hrange oid c hoid hf) hp)
      (fun now ok userCartID guestCartID userOID guestOID target source hop hu hg hft hfs
          hpt hps => by
        subst hop
        rw [mergeLoop_eq_mergedItemsInt _ _ (hnd target (FindOne_some_mem hft).1)
          (hnd source (FindOne_some_mem hfs).1)]
        exact positive_mergedItemsInt _ _ hpt hps
          (hrange userOID guestOID target source hu hg hft hfs))
      ih

/-- The scenario's collection is reachable by validated calls whose additions
stay in range. -/
theorem scenario_reachable_inRange : ReachableInRange 259200 (18 / 100) 0 [cartAfterAdd] := by
  have h0 : ReachableInRange 259200 (18 / 100) 0 [] := ReachableInRange.empty
  have h1 := ReachableInRange.step none
    (Op.createCart 1 0 { UserID := "", Metadata := [] }) [] trivial trivial h0
  have e1 : (Op.createCart 1 0 { UserID := "", Metadata := [] }).run
      { productSvc := none, cartTTL := 259200, taxRate := 18 / 100, shippingCost := 0 } []
      = [mkCart 1 [] none] := congrArg Prod.snd scenario_create
  rw [e1] at h1
  have hv : (Op.addItem 7 0 0 "000000000000000000000001" p1Request).validated := by
    show p1Request.Validate = true
    simp [AddItemRequest.Validate, p1Request]
  have hr : (Op.addItem 7 0 0 "000000000000000000000001" p1Request).inRange
      [mkCart 1 [] none] := by
    intro oid c hoid hf t ht
    rw [ObjectIDFromHex_one] at hoid
    have hoid2 : 1 = oid := Except.ok.inj hoid
    rw [← hoid2] at hf
    have hc : mkCart 1 [] none = c := Option.some.inj hf
    rw [← hc] at ht
    simp [mkCart] at ht
  have h2 := ReachableInRange.step none
    (Op.addItem 7 0 0 "000000000000000000000001" p1Request) _ hv hr h1
  have e2 : (Op.addItem 7 0 0 "000000000000000000000001" p1Request).run
      { productSvc := none, cartTTL := 259200, taxRate := 18 / 100, shippingCost := 0 }
      [mkCart 1 [] none] = [cartAfterAdd] := congrArg Prod.snd scenario_add
  rw [e2] at h2
  exact h2

/-- C13, amended, worked example: the scenario's line has quantity 2. -/
theorem reachable_validated_quantities_positive_witness :
    ReachableInRange 259200 (18 / 100) 0 [cartAfterAdd]
      ∧ cartAfterAdd ∈ [cartAfterAdd]
      ∧ mkItem 7 "p1" 10 2 ∈ cartAfterAdd.Items
      ∧ 0 < (mkItem 7 "p1" 10 2).Quantity :=
  ⟨scenario_reachable_inRange, List.mem_singleton.mpr rfl, List.mem_singleton.mpr rfl,
   reachable_validated_quantities_positive 259200 (18 / 100) 0 [cartAfterAdd]
     scenario_reachable_inRange cartAfterAdd (List.mem_singleton.mpr rfl)
     (mkItem 7 "p1" 10 2) (List.mem_singleton.mpr rfl)⟩

/-! ## RemoveItem, UpdateItem, ApplyCoupon: claims -/

theorem setItemsAndTotals_recomputed_totals (s : CartService) (now : Time) (cart c : Cart)
    (hcoupon : cart.Coupon = c.Coupon) :
    (setItemsAndTotals (recomputed s now cart) c).Items = cart.Items
      ∧ (setItemsAndTotals (recomputed s now cart) c).Subtotal
          = (calculateCartTotals s (setItemsAndTotals (recomputed s now cart) c)).Subtotal
      ∧ (setItemsAndTotals (recomputed s now cart) c).TaxAmount
          = (calculateCartTotals s (setItemsAndTotals (recomputed s now cart) c)).TaxAmount
      ∧ (setItemsAndTotals (recomputed s now cart) c).ShippingCost
          = (calculateCartTotals s (setItemsAndTotals (recomputed s now cart) c)).ShippingCost
      ∧ (setItemsAndTotals (recomputed s now cart) c).TotalAmount
          = (calculateCartTotals s (setItemsAndTotals (recomputed s now cart) c)).TotalAmount := by
  simp [setItemsAndTotals, recomputed, hcoupon]

/-- C14: for a stored cart, `RemoveItem` fails with `ErrItemNotInCart` and
returns the collection unchanged when no line has the item id; otherwise it
succeeds, the cart it returns is the cart it stores, its lines are the
original ones without the (first) line of that id, in the original order, and
its four monetary fields are those recomputed from the remaining lines. -/
theorem RemoveItem_spec (s : CartService) (store : Store) (now : Time)
    (cartID itemID : String) (cartOID itemOID : ObjectID) (c : Cart)
    (hoid : ObjectIDFromHex cartID = .ok cartOID) (hitem : ObjectIDFromHex itemID = .ok itemOID)
    (hf : FindOne store cartOID = some c) :
    ((∀ x ∈ c.Items, x.ID ≠ itemOID) →
        RemoveItem s store now cartID itemID = (.error ErrItemNotInCart, store))
      ∧ (∀ pre t post, c.Items = pre ++ t :: post → (∀ x ∈ pre, x.ID ≠ itemOID) →
          t.ID = itemOID →
          ∃ updated,
            (RemoveItem s store now cartID itemID).1 = .ok updated
              ∧ FindOne (RemoveItem s store now cartID itemID).2 cartOID = some updated
              ∧ updated.Items = pre ++ post
              ∧ updated.Subtotal = rawSubtotal (pre ++ post)
              ∧ updated.Subtotal = (calculateCartTotals s updated).Subtotal
              ∧ updated.TaxAmount = (calculateCartTotals s updated).TaxAmount
              ∧ updated.ShippingCost = (calculateCartTotals s updated).ShippingCost
              ∧ updated.TotalAmount = (calculateCartTotals s updated).TotalAmount) := by
  constructor
  · intro hnone
    exact RemoveItem_item_missing hoid hitem hf (findItem_of_forall_ne itemOID c.Items 0 hnone)
  · intro pre t post hsplit hpre ht
    have hfind : findItem itemOID c.Items 0 = some (pre.length, t.ProductID) := by
      rw [hsplit, findItem_of_split itemOID pre post t 0 hpre ht, Nat.zero_add]
    have hitems : c.Items.take pre.length ++ c.Items.drop (pre.length + 1) = pre ++ post := by
      rw [hsplit]
      exact take_drop_split pre post t
    rw [RemoveItem_eq hoid hitem hf hfind]
    obtain ⟨h1, h2, h3, h4, h5⟩ := setItemsAndTotals_recomputed_totals s now
      { c with Items := c.Items.take pre.length ++ c.Items.drop (pre.length + 1) } c rfl
    refine ⟨_, rfl, FindOne_updateFirst_self (setItemsAndTotals_ID _) hf, ?_, ?_, h2, h3, h4, h5⟩
    · exact h1.trans hitems
    · rw [h2, calculateCartTotals_Subtotal, subtotalLoop_eq_rawSubtotal, h1]
      exact congrArg rawSubtotal hitems

/-- C14, worked example: removing the only line (id 7) of the scenario's cart
leaves no line and a subtotal of 0; removing an unknown line (id 8) fails. -/
theorem RemoveItem_spec_witness :
    RemoveItem defaultService [cartAfterAdd] 5 "000000000000000000000001"
        "000000000000000000000008" = (.error ErrItemNotInCart, [cartAfterAdd])
      ∧ ∃ updated,
          (RemoveItem defaultService [cartAfterAdd] 5 "000000000000000000000001"
              "000000000000000000000007").1 = .ok updated
            ∧ updated.Items = []
            ∧ updated.Subtotal = rawSubtotal [] := by
  have h := RemoveItem_spec defaultService [cartAfterAdd] 5 "000000000000000000000001"
    "000000000000000000000008" 1 8 cartAfterAdd ObjectIDFromHex_one rfl rfl
  have h2 := RemoveItem_spec defaultService [cartAfterAdd] 5 "000000000000000000000001"
    "000000000000000000000007" 1 7 cartAfterAdd ObjectIDFromHex_one rfl rfl
  refine ⟨h.1 ?_, ?_⟩
  · intro x hx
    simp only [cartAfterAdd, mkCart, List.mem_singleton] at hx
    subst hx
    decide
  · obtain ⟨updated, h3, _, h5, h6, _⟩ := h2.2 [] (mkItem 7 "p1" 10 2) [] rfl (by simp) rfl
    exact ⟨updated, h3, h5, h6⟩

/-- C15: for a stored cart and a quantity greater than zero, `UpdateItem`
fails with `ErrItemNotInCart` and returns the collection unchanged when no
line has the item id, whatever product service is attached; when a line has
the id and the availability check accepts its product with the new quantity,
`UpdateItem` succeeds, the (first) line of that id gets exactly the new
quantity, every other line is unchanged, and the four monetary fields are
those recomputed from the new lines. -/
theorem UpdateItem_spec (s : CartService) (store : Store) (now : Time)
    (cartID itemID : String) (req : UpdateItemRequest) (cartOID itemOID : ObjectID) (c : Cart)
    (hq : 0 < req.Quantity)
    (hoid : ObjectIDFromHex cartID = .ok cartOID) (hitem : ObjectIDFromHex itemID = .ok itemOID)
    (hf : FindOne store cartOID = some c) :
    ((∀ x ∈ c.Items, x.ID ≠ itemOID) →
        ∀ productSvc, UpdateItem { s with productSvc := productSvc } store now cartID itemID req
          = (.error ErrItemNotInCart, store))
      ∧ (∀ pre t post, c.Items = pre ++ t :: post → (∀ x ∈ pre, x.ID ≠ itemOID) →
          t.ID = itemOID → oracleCheck s t.ProductID req.Quantity = none →
          ∃ updated,
            (UpdateItem s store now cartID itemID req).1 = .ok updated
              ∧ FindOne (UpdateItem s store now cartID itemID req).2 cartOID = some updated
              ∧ updated.Items = pre ++ { t with Quantity := req.Quantity } :: post
              ∧ updated.Subtotal = (calculateCartTotals s updated).Subtotal
              ∧ updated.TaxAmount = (calculateCartTotals s updated).TaxAmount
              ∧ updated.ShippingCost = (calculateCartTotals s updated).ShippingCost
              ∧ updated.TotalAmount = (calculateCartTotals s updated).TotalAmount) := by
  constructor
  · intro hnone productSvc
    exact UpdateItem_item_missing hq hoid hitem hf
      (findItem_of_forall_ne itemOID c.Items 0 hnone)
  · intro pre t post hsplit hpre ht hsvc
    have hfind : findItem itemOID c.Items 0 = some (pre.length, t.ProductID) := by
      rw [hsplit, findItem_of_split itemOID pre post t 0 hpre ht, Nat.zero_add]
    have hitems : setQuantityAt pre.length req.Quantity c.Items
        = pre ++ { t with Quantity := req.Quantity } :: post := by
      rw [hsplit]
      exact setQuantityAt_split req.Quantity pre post t
    rw [UpdateItem_eq hq hoid hitem hf hfind hsvc]
    obtain ⟨h1, h2, h3, h4, h5⟩ := setItemsAndTotals_recomputed_totals s now
      { c with Items := setQuantityAt pre.length req.Quantity c.Items } c rfl
    exact ⟨_, rfl, FindOne_updateFirst_self (setItemsAndTotals_ID _) hf, h1.trans hitems,
      h2, h3, h4, h5⟩

/-- C15, worked example: setting the scenario's line (id 7, quantity 2) to 5
gives quantity 5, not 7; an unknown line (id 8) is reported missing even by a
service whose availability check rejects everything. -/
theorem UpdateItem_spec_witness :
    UpdateItem { defaultService with productSvc := some (fun _ _ => some ErrProductNotAvailable) }
        [cartAfterAdd] 5 "000000000000000000000001" "000000000000000000000008" { Quantity := 5 }
        = (.error ErrItemNotInCart, [cartAfterAdd])
      ∧ ∃ updated,
          (UpdateItem defaultService [cartAfterAdd] 5 "000000000000000000000001"
              "000000000000000000000007" { Quantity := 5 }).1 = .ok updated
            ∧ updated.Items = [mkItem 7 "p1" 10 5] := by
  have h := UpdateItem_spec defaultService [cartAfterAdd] 5 "000000000000000000000001"
    "000000000000000000000008" { Quantity := 5 } 1 8 cartAfterAdd (by decide)
    ObjectIDFromHex_one rfl rfl
  have h2 := UpdateItem_spec defaultService [cartAfterAdd] 5 "000000000000000000000001"
    "000000000000000000000007" { Quantity := 5 } 1 7 cartAfterAdd (by decide)
    ObjectIDFromHex_one rfl rfl
  refine ⟨h.1 ?_ _, ?_⟩
  · intro x hx
    simp only [cartAfterAdd, mkCart, List.mem_singleton] at hx
    subst hx
    decide
  · obtain ⟨updated, h3, _, h5, _⟩ := h2.2 [] (mkItem 7 "p1" 10 2) [] rfl (by simp) rfl rfl
    exact ⟨updated, h3, h5⟩

theorem setCouponAndTotals_ID (cart doc : Cart) : (setCouponAndTotals cart doc).ID = doc.ID := rfl

/-- C16: for a stored cart, `ApplyCoupon` fails with `ErrCartEmpty` and returns
the collection unchanged when the cart has no items; otherwise it succeeds and
the cart's coupon, whatever it was, becomes the coupon with the submitted code,
discount type `percentage` and discount value 10, the items stay, and the four
monetary fields are those recomputed with the new coupon. -/
theorem ApplyCoupon_spec (s : CartService) (store : Store) (appliedAt now : Time)
    (cartID : String) (req : ApplyCouponRequest) (oid : ObjectID) (c : Cart)
    (hoid : ObjectIDFromHex cartID = .ok oid) (hf : FindOne store oid = some c) :
    (c.Items = [] →
        ApplyCoupon s store appliedAt now cartID req = (.error ErrCartEmpty, store))
      ∧ (c.Items ≠ [] →
          ∃ updated coupon,
            (ApplyCoupon s store appliedAt now cartID req).1 = .ok updated
              ∧ FindOne (ApplyCoupon s store appliedAt now cartID req).2 oid = some updated
              ∧ updated.Coupon = some coupon
              ∧ coupon.Code = req.Code
              ∧ coupon.DiscountType = "percentage"
              ∧ coupon.DiscountValue = 10
              ∧ coupon.AppliedAt = appliedAt
              ∧ updated.Items = c.Items
              ∧ updated.Subtotal = (calculateCartTotals s updated).Subtotal
              ∧ updated.TaxAmount = (calculateCartTotals s updated).TaxAmount
              ∧ updated.ShippingCost = (calculateCartTotals s updated).ShippingCost
              ∧ updated.TotalAmount = (calculateCartTotals s updated).TotalAmount) := by
  constructor
  · intro hempty
    exact ApplyCoupon_empty hoid hf hempty
  · intro hne
    rw [ApplyCoupon_eq hoid hf hne]
    refine ⟨_, stubCoupon req.Code appliedAt, rfl,
      FindOne_updateFirst_self (setCouponAndTotals_ID _) hf, rfl, rfl, rfl, rfl, rfl, rfl,
      ?_, ?_, ?_, ?_⟩ <;> simp [setCouponAndTotals, recomputed]

/-- C16, worked example: on the scenario's cart the code `SAVE` gives the 10
percent coupon; on an empty cart the call fails. -/
theorem ApplyCoupon_spec_witness :
    ApplyCoupon defaultService [mkCart 1 [] none] 0 0 "000000000000000000000001"
        { Code := "SAVE" } = (.error ErrCartEmpty, [mkCart 1 [] none])
      ∧ ∃ updated coupon,
          (ApplyCoupon defaultService [cartAfterAdd] 0 0 "000000000000000000000001"
              { Code := "SAVE" }).1 = .ok updated
            ∧ updated.Coupon = some coupon
            ∧ coupon.Code = "SAVE"
            ∧ coupon.DiscountType = "percentage"
            ∧ coupon.DiscountValue = 10 := by
  have h := ApplyCoupon_spec defaultService [mkCart 1 [] none] 0 0 "000000000000000000000001"
    { Code := "SAVE" } 1 (mkCart 1 [] none) ObjectIDFromHex_one rfl
  have h2 := ApplyCoupon_spec defaultService [cartAfterAdd] 0 0 "000000000000000000000001"
    { Code := "SAVE" } 1 cartAfterAdd ObjectIDFromHex_one rfl
  refine ⟨h.1 rfl, ?_⟩
  obtain ⟨updated, coupon, h3, _, h5, h6, h7, h8, _⟩ :=
    h2.2 (by simp [cartAfterAdd, mkCart])
  exact ⟨updated, coupon, h3, h5, h6, h7, h8⟩

/-! ## ClearCart and CheckoutCart: claims -/

theorem clearPatch_ID (s : CartService) (now : Time) (doc : Cart) :
    (clearPatch s now doc).ID = doc.ID := rfl

theorem checkoutPatch_ID (now : Time) (doc : Cart) : (checkoutPatch now doc).ID = doc.ID := rfl

theorem updateFirst_idem (patch : Cart → Cart) (hid : ∀ d, (patch d).ID = d.ID)
    (hidem : ∀ d, patch (patch d) = patch d) (oid : ObjectID) (store : Store) :
    updateFirst oid patch (updateFirst oid patch store) = updateFirst oid patch store := by
  induction store with
  | nil => rfl
  | cons c cs ih =>
    by_cases h : c.ID = oid
    · have e : updateFirst oid patch (c :: cs) = patch c :: cs := by
        simp only [updateFirst, if_pos h]
      have h2 : (patch c).ID = oid := (hid c).trans h
      rw [e]
      simp only [updateFirst, if_pos h2, hidem]
    · have e : updateFirst oid patch (c :: cs) = c :: updateFirst oid patch cs := by
        simp only [updateFirst, if_neg h]
      rw [e]
      simp only [updateFirst, if_neg h]
      exact congrArg _ ih

/-- The scenario's collection after the coupon was applied is reachable. -/
theorem scenario_coupon_reachable : Reachable 259200 (18 / 100) 0 [cartAfterCoupon] := by
  have h := Reachable.step none
    (Op.applyCoupon 0 0 "000000000000000000000001" { Code := "SAVE" }) _ scenario_reachable
  have e : (Op.applyCoupon 0 0 "000000000000000000000001" { Code := "SAVE" }).run
      { productSvc := none, cartTTL := 259200, taxRate := 18 / 100, shippingCost := 0 }
      [cartAfterAdd] = [cartAfterCoupon] := congrArg Prod.snd scenario_coupon
  rw [e] at h
  exact h

/-- C18 as stated fails: `ClearCart` does not touch the coupon.  Clearing the
scenario's cart after the coupon was applied returns a cart with no items,
zero monetary fields and the 10 percent coupon still attached. -/
theorem ClearCart_keeps_coupon :
    Reachable 259200 (18 / 100) 0 [cartAfterCoupon]
      ∧ ∃ updated,
          (ClearCart defaultService [cartAfterCoupon] 5 "000000000000000000000001").1
              = .ok updated
            ∧ FindOne (ClearCart defaultService [cartAfterCoupon] 5
                "000000000000000000000001").2 1 = some updated
            ∧ updated.Items = []
            ∧ updated.Coupon = some (mkCoupon "percentage" 10)
            ∧ updated.Coupon ≠ none := by
  have hf : FindOne [cartAfterCoupon] 1 = some cartAfterCoupon := rfl
  rw [ClearCart_eq ObjectIDFromHex_one hf]
  exact ⟨scenario_coupon_reachable, _, rfl, rfl, rfl, rfl, by simp [clearPatch, cartAfterCoupon, mkCart]⟩

/-- C18, amended: for a stored cart, `ClearCart` succeeds and leaves it (as
returned and as stored) with an empty item list, the coupon it had, and
subtotal, tax amount, shipping cost and total amount all 0; for a cart id that
is not stored it fails with `ErrCartNotFound` and changes nothing. -/
theorem ClearCart_spec (s : CartService) (store : Store) (now : Time) (cartID : String)
    (oid : ObjectID) (hoid : ObjectIDFromHex cartID = .ok oid) :
    (FindOne store oid = none →
        ClearCart s store now cartID = (.error ErrCartNotFound, store))
      ∧ (∀ c, FindOne store oid = some c →
          ∃ updated,
            (ClearCart s store now cartID).1 = .ok updated
              ∧ FindOne (ClearCart s store now cartID).2 oid = some updated
              ∧ updated.Items = []
              ∧ updated.Coupon = c.Coupon
              ∧ updated.Subtotal = 0
              ∧ updated.TaxAmount = 0
              ∧ updated.ShippingCost = 0
              ∧ updated.TotalAmount = 0) := by
  constructor
  · intro hnone
    exact ClearCart_not_found hoid hnone
  · intro c hf
    rw [ClearCart_eq hoid hf]
    exact ⟨_, rfl, FindOne_updateFirst_self (clearPatch_ID s now) hf, rfl, rfl, rfl, rfl, rfl, rfl⟩

/-- C18, amended, worked example: clearing the scenario's cart, and clearing
an id that is not stored. -/
theorem ClearCart_spec_witness :
    ClearCart defaultService [cartAfterAdd] 5 "000000000000000000000002"
        = (.error ErrCartNotFound, [cartAfterAdd])
      ∧ ∃ updated,
          (ClearCart defaultService [cartAfterAdd] 5 "000000000000000000000001").1 = .ok updated
            ∧ updated.Items = []
            ∧ updated.Coupon = cartAfterAdd.Coupon
            ∧ updated.TotalAmount = 0 := by
  have h := ClearCart_spec defaultService [cartAfterAdd] 5 "000000000000000000000002" 2
    ObjectIDFromHex_two
  have h2 := ClearCart_spec defaultService [cartAfterAdd] 5 "000000000000000000000001" 1
    ObjectIDFromHex_one
  refine ⟨h.1 rfl, ?_⟩
  obtain ⟨updated, h3, _, h5, h6, _, _, _, h10⟩ := h2.2 cartAfterAdd rfl
  exact ⟨updated, h3, h5, h6, h10⟩

/-- C19: for a stored cart, a second `ClearCart` at the same clock reading
returns the same cart as the first and leaves the collection as the first
left it; the cart returned by both has no items and zero monetary fields. -/
theorem ClearCart_idempotent (s : CartService) (store : Store) (now : Time) (cartID : String)
    (oid : ObjectID) (c : Cart)
    (hoid : ObjectIDFromHex cartID = .ok oid) (hf : FindOne store oid = some c) :
    ∃ zeroed,
      (ClearCart s store now cartID).1 = .ok zeroed
        ∧ (ClearCart s (ClearCart s store now cartID).2 now cartID).1 = .ok zeroed
        ∧ (ClearCart s (ClearCart s store now cartID).2 now cartID).2
            = (ClearCart s store now cartID).2
        ∧ FindOne (ClearCart s store now cartID).2 oid = some zeroed
        ∧ zeroed.Items = []
        ∧ zeroed.Subtotal = 0
        ∧ zeroed.TaxAmount = 0
        ∧ zeroed.ShippingCost = 0
        ∧ zeroed.TotalAmount = 0 := by
  have hf2 : FindOne (updateFirst oid (clearPatch s now) store) oid
      = some (clearPatch s now c) := FindOne_updateFirst_self (clearPatch_ID s now) hf
  rw [ClearCart_eq hoid hf]
  simp only []
  rw [ClearCart_eq hoid hf2,
    updateFirst_idem (clearPatch s now) (clearPatch_ID s now) (fun _ => rfl)]
  exact ⟨_, rfl, rfl, rfl, hf2, rfl, rfl, rfl, rfl, rfl⟩

/-- C19, worked example: clearing the scenario's cart twice. -/
theorem ClearCart_idempotent_witness :
    ∃ zeroed,
      (ClearCart defaultService [cartAfterAdd] 5 "000000000000000000000001").1 = .ok zeroed
        ∧ (ClearCart defaultService
            (ClearCart defaultService [cartAfterAdd] 5 "000000000000000000000001").2 5
            "000000000000000000000001").1 = .ok zeroed
        ∧ (ClearCart defaultService
            (ClearCart defaultService [cartAfterAdd] 5 "000000000000000000000001").2 5
            "000000000000000000000001").2
            = (ClearCart defaultService [cartAfterAdd] 5 "000000000000000000000001").2
        ∧ zeroed.Items = []
        ∧ zeroed.TotalAmount = 0 := by
  obtain ⟨zeroed, h1, h2, h3, _, h5, _, _, _, h9⟩ := ClearCart_idempotent defaultService
    [cartAfterAdd] 5 "000000000000000000000001" 1 cartAfterAdd ObjectIDFromHex_one rfl
  exact ⟨zeroed, h1, h2, h3, h5, h9⟩

/-- C20: for a stored cart, `CheckoutCart` fails with `ErrCartEmpty` and
returns the collection unchanged when the cart has no items; otherwise it
succeeds, sets the status to `processing` and `UpdatedAt` to the clock
reading, and leaves every other field (expiry, items, coupon, the monetary
fields, owner, creation time) as it was. -/
theorem CheckoutCart_spec (s : CartService) (store : Store) (now : Time) (cartID : String)
    (oid : ObjectID) (c : Cart)
    (hoid : ObjectIDFromHex cartID = .ok oid) (hf : FindOne store oid = some c) :
    (c.Items = [] → CheckoutCart s store now cartID = (.error ErrCartEmpty, store))
      ∧ (c.Items ≠ [] →
          ∃ updated,
            (CheckoutCart s store now cartID).1 = .ok updated
              ∧ FindOne (CheckoutCart s store now cartID).2 oid = some updated
              ∧ updated.Status = CartStatusProcessing
              ∧ updated.UpdatedAt = now
              ∧ updated.ExpiresAt = c.ExpiresAt
              ∧ updated.Items = c.Items
              ∧ updated.Coupon = c.Coupon
              ∧ updated.Subtotal = c.Subtotal
              ∧ updated.TaxAmount = c.TaxAmount
              ∧ updated.ShippingCost = c.ShippingCost
              ∧ updated.TotalAmount = c.TotalAmount
              ∧ updated.UserID = c.UserID
              ∧ updated.CreatedAt = c.CreatedAt
              ∧ updated = checkoutPatch now c) := by
  constructor
  · intro hempty
    exact CheckoutCart_empty hoid hf hempty
  · intro hne
    rw [CheckoutCart_eq hoid hf hne]
    exact ⟨_, rfl, FindOne_updateFirst_self (checkoutPatch_ID now) hf, rfl, rfl, rfl, rfl, rfl,
      rfl, rfl, rfl, rfl, rfl, rfl, rfl⟩

/-- C20, worked example: checking out the scenario's cart at time 5 (expiry
259200 stays), and checking out an empty cart. -/
theorem CheckoutCart_spec_witness :
    CheckoutCart defaultService [mkCart 1 [] none] 5 "000000000000000000000001"
        = (.error ErrCartEmpty, [mkCart 1 [] none])
      ∧ ∃ updated,
          (CheckoutCart defaultService [cartAfterAdd] 5 "000000000000000000000001").1
              = .ok updated
            ∧ updated.Status = CartStatusProcessing
            ∧ updated.UpdatedAt = 5
            ∧ updated.ExpiresAt = 259200
            ∧ updated.Items = cartAfterAdd.Items
            ∧ updated.TotalAmount = cartAfterAdd.TotalAmount := by
  have h := CheckoutCart_spec defaultService [mkCart 1 [] none] 5 "000000000000000000000001"
    1 (mkCart 1 [] none) ObjectIDFromHex_one rfl
  have h2 := CheckoutCart_spec defaultService [cartAfterAdd] 5 "000000000000000000000001"
    1 cartAfterAdd ObjectIDFromHex_one rfl
  refine ⟨h.1 rfl, ?_⟩
  obtain ⟨updated, h3, _, h5, h6, h7, h8, _, _, _, _, h13, _⟩ :=
    h2.2 (by simp [cartAfterAdd, mkCart])
  exact ⟨updated, h3, h5, h6, h7, h8, h13⟩

/-! ## One call seen from one cart -/

theorem FindOne_append (store extra : Store) (oid : ObjectID) :
    FindOne (store ++ extra) oid
      = match FindOne store oid with
        | some c => some c
        | none => FindOne extra oid := by
  induction store with
  | nil => rfl
  | cons c cs ih =>
    rw [List.cons_append, FindOne_cons, FindOne_cons]
    by_cases h : c.ID = oid
    · rw [if_pos h, if_pos h]
    · rw [if_neg h, if_neg h, ih]

theorem FindOne_map (f : Cart → Cart) (hid : ∀ c, (f c).ID = c.ID) (store : Store)
    (oid : ObjectID) : FindOne (store.map f) oid = (FindOne store oid).map f := by
  induction store with
  | nil => rfl
  | cons c cs ih =>
    rw [List.map_cons, FindOne_cons, FindOne_cons, hid]
    by_cases h : c.ID = oid
    · rw [if_pos h, if_pos h, Option.map_some']
    · rw [if_neg h, if_neg h, ih]

/-- After patching the first document of id `oid1`, the document found under
any id is the one found before, patched when it is the one of id `oid1`. -/
theorem FindOne_updateFirst_step {R : Cart → Cart → Prop} (hrefl : ∀ c, R c c)
    {patch : Cart → Cart} (hid : ∀ c, (patch c).ID = c.ID) {store : Store} {oid1 : ObjectID}
    (hpatch : ∀ c, FindOne store oid1 = some c → R c (patch c))
    {oid : ObjectID} {c1 : Cart} (h : FindOne (updateFirst oid1 patch store) oid = some c1) :
    ∃ c, FindOne store oid = some c ∧ R c c1 := by
  rw [FindOne_updateFirst patch hid] at h
  cases hf : FindOne store oid with
  | none => rw [hf] at h; simp at h
  | some c =>
    rw [hf, Option.map_some'] at h
    have hc1 := Option.some.inj h
    refine ⟨c, rfl, ?_⟩
    by_cases hc : c.ID = oid1
    · rw [if_pos hc] at hc1
      have hoid : oid = oid1 := (FindOne_some_mem hf).2.symm.trans hc
      rw [← hc1]
      exact hpatch c (by rw [← hoid]; exact hf)
    · rw [if_neg hc] at hc1
      rw [← hc1]
      exact hrefl c

/-- Every cart stored after a call either was stored before the call and is
related to its earlier state by `CartStep`, or is the cart the call created. -/
theorem Op.run_cartStep (s : CartService) (store : Store) (op : Op) (oid : ObjectID)
    (c1 : Cart) (h : FindOne (op.run s store) oid = some c1) :
    (∃ c, FindOne store oid = some c ∧ CartStep s c c1)
      ∨ (FindOne store oid = none
          ∧ ∃ insertedID now req, c1 = createdCart s insertedID now req) := by
  have hsame : ∀ {st : Store}, st = store → FindOne st oid = some c1 →
      ∃ c, FindOne store oid = some c ∧ CartStep s c c1 := by
    intro st e hst
    rw [e] at hst
    exact ⟨c1, hst, CartStep.unchanged c1⟩
  cases op with
  | createCart insertedID now req =>
    simp only [Op.run] at h
    rcases CreateCart_store s store insertedID now req with e | e
    · exact Or.inl (hsame e h)
    · rw [e, FindOne_append] at h
      cases hf : FindOne store oid with
      | some c =>
        rw [hf] at h
        exact Or.inl ⟨c, rfl, by rw [← Option.some.inj h]; exact CartStep.unchanged c⟩
      | none =>
        rw [hf] at h
        right
        refine ⟨rfl, insertedID, now, req, ?_⟩
        have hmem := (FindOne_some_mem h).1
        rw [List.mem_singleton] at hmem
        exact hmem
  | addItem newItemID addedAt now cartID item =>
    simp only [Op.run] at h
    rcases AddItem_store s store newItemID addedAt now cartID item with
      e | ⟨oid1, c, cart, hf, hcp, e⟩
    · exact Or.inl (hsame e h)
    · rw [e] at h
      exact Or.inl (FindOne_updateFirst_step CartStep.unchanged (setItemsAndTotals_ID _)
        (fun c2 hc2 => by
          have hcc : c2 = c := by rw [hf] at hc2; exact (Option.some.inj hc2).symm
          subst hcc
          exact CartStep.items now cart c2 hcp) h)
  | updateItem now cartID itemID req =>
    simp only [Op.run] at h
    rcases UpdateItem_store s store now cartID itemID req with e | ⟨oid1, c, cart, hf, hcp, e⟩
    · exact Or.inl (hsame e h)
    · rw [e] at h
      exact Or.inl (FindOne_updateFirst_step CartStep.unchanged (setItemsAndTotals_ID _)
        (fun c2 hc2 => by
          have hcc : c2 = c := by rw [hf] at hc2; exact (Option.some.inj hc2).symm
          subst hcc
          exact CartStep.items now cart c2 hcp) h)
  | removeItem now cartID itemID =>
    simp only [Op.run] at h
    rcases RemoveItem_store s store now cartID itemID with e | ⟨oid1, c, cart, hf, hcp, e⟩
    · exact Or.inl (hsame e h)
    · rw [e] at h
      exact Or.inl (FindOne_updateFirst_step CartStep.unchanged (setItemsAndTotals_ID _)
        (fun c2 hc2 => by
          have hcc : c2 = c := by rw [hf] at hc2; exact (Option.some.inj hc2).symm
          subst hcc
          exact CartStep.items now cart c2 hcp) h)
  | clearCart now cartID =>
    simp only [Op.run] at h
    rcases ClearCart_store s store now cartID with e | ⟨oid1, e⟩
    · exact Or.inl (hsame e h)
    · rw [e] at h
      exact Or.inl (FindOne_updateFirst_step CartStep.unchanged (clearPatch_ID s now)
        (fun c2 _ => CartStep.cleared now c2) h)
  | applyCoupon appliedAt now cartID req =>
    simp only [Op.run] at h
    rcases ApplyCoupon_store s store appliedAt now cartID req with e | ⟨oid1, c, hf, hne, e⟩
    · exact Or.inl (hsame e h)
    · rw [e] at h
      exact Or.inl (FindOne_updateFirst_step CartStep.unchanged (setCouponAndTotals_ID _)
        (fun c2 hc2 => by
          have hcc : c2 = c := by rw [hf] at hc2; exact (Option.some.inj hc2).symm
          subst hcc
          exact CartStep.couponApplied appliedAt now req.Code c2 hne) h)
  | removeCoupon now cartID =>
    simp only [Op.run] at h
    rcases RemoveCoupon_store s store now cartID with e | ⟨oid1, c, hf, e⟩
    · exact Or.inl (hsame e h)
    · rw [e] at h
      exact Or.inl (FindOne_updateFirst_step CartStep.unchanged (setCouponAndTotals_ID _)
        (fun c2 hc2 => by
          have hcc : c2 = c := by rw [hf] at hc2; exact (Option.some.inj hc2).symm
          subst hcc
          exact CartStep.couponRemoved now c2) h)
  | checkoutCart now cartID =>
    simp only [Op.run] at h
    rcases CheckoutCart_store s store now cartID with e | ⟨oid1, e⟩
    · exact Or.inl (hsame e h)
    · rw [e] at h
      exact Or.inl (FindOne_updateFirst_step CartStep.unchanged (checkoutPatch_ID now)
        (fun c2 _ => CartStep.checkedOut now c2) h)
  | mergeGuestCart now ok userCartID guestCartID =>
    simp only [Op.run] at h
    rcases MergeGuestCart_store s store now ok userCartID guestCartID with
      e | ⟨userOID, guestOID, c, cart, hf, hcp, e⟩
    · exact Or.inl (hsame e h)
    · rw [e] at h
      left
      have hprimary : ∀ c2, FindOne store userOID = some c2 →
          CartStep s c2 (setItemsAndTotals (recomputed s now cart) c2) := by
        intro c2 hc2
        have hcc : c2 = c := by rw [hf] at hc2; exact (Option.some.inj hc2).symm
        subst hcc
        exact CartStep.items now cart c2 hcp
      cases ok with
      | false =>
        simp only [Bool.false_eq_true, if_false] at h
        exact FindOne_updateFirst_step CartStep.unchanged (setItemsAndTotals_ID _) hprimary h
      | true =>
        simp only [if_true] at h
        have h : FindOne (updateFirst guestOID (markMerged userCartID)
            (updateFirst userOID (setItemsAndTotals (recomputed s now cart)) store)) oid
            = some c1 := h
        rw [FindOne_updateFirst _ (markMerged_ID userCartID),
          FindOne_updateFirst _ (setItemsAndTotals_ID _)] at h
        cases hfo : FindOne store oid with
        | none => rw [hfo] at h; simp at h
        | some c0 =>
          rw [hfo, Option.map_some', Option.map_some'] at h
          have hc1 := Option.some.inj h
          refine ⟨c0, rfl, ?_⟩
          have hid0 : c0.ID = oid := (FindOne_some_mem hfo).2
          by_cases hu : c0.ID = userOID
          · have hfu : FindOne store userOID = some c0 := by
              rw [← hu, hid0]; exact hfo
            have hcc : c0 = c := by rw [hf] at hfu; exact (Option.some.inj hfu).symm
            subst hcc
            rw [if_pos hu] at hc1
            by_cases hg : (setItemsAndTotals (recomputed s now cart) c0).ID = guestOID
            · rw [if_pos hg] at hc1
              rw [← hc1]
              exact CartStep.mergedIntoItself now userCartID cart c0 hcp
            · rw [if_neg hg] at hc1
              rw [← hc1]
              exact CartStep.items now cart c0 hcp
          · rw [if_neg hu] at hc1
            by_cases hg : c0.ID = guestOID
            · rw [if_pos hg] at hc1
              rw [← hc1]
              exact CartStep.merged userCartID c0
            · rw [if_neg hg] at hc1
              rw [← hc1]
              exact CartStep.unchanged c0
  | cleanupAbandonedCarts now olderThan =>
    simp only [Op.run, CleanupAbandonedCarts_store] at h
    rw [FindOne_map _ (fun c => by split <;> rfl)] at h
    cases hfo : FindOne store oid with
    | none => rw [hfo] at h; simp at h
    | some c0 =>
      rw [hfo, Option.map_some'] at h
      have hc1 := Option.some.inj h
      refine Or.inl ⟨c0, rfl, ?_⟩
      by_cases hcond : c0.Status = CartStatusActive ∧ c0.UpdatedAt < now + (-olderThan)
      · rw [if_pos (decide_eq_true hcond)] at hc1
        rw [← hc1]
        exact CartStep.abandoned c0 hcond.1
      · rw [if_neg (by simpa using hcond)] at hc1
        rw [← hc1]
        exact CartStep.unchanged c0

/-! ## Coupons and empty carts: claims -/

/-- C17 as stated fails: neither `RemoveItem` nor `ClearCart` touches the
coupon.  From the scenario's cart with the coupon applied (a reachable
collection), removing the only line, or clearing the cart, leaves a cart with
zero items that still carries the coupon. -/
theorem empty_cart_keeps_coupon :
    Reachable 259200 (18 / 100) 0
        ((Op.removeItem 5 "000000000000000000000001" "000000000000000000000007").run
          defaultService [cartAfterCoupon])
      ∧ (∃ cart ∈ (Op.removeItem 5 "000000000000000000000001" "000000000000000000000007").run
            defaultService [cartAfterCoupon],
          cart.Items = [] ∧ cart.Coupon = some (mkCoupon "percentage" 10) ∧ cart.Coupon ≠ none)
      ∧ Reachable 259200 (18 / 100) 0
          ((Op.clearCart 5 "000000000000000000000001").run defaultService [cartAfterCoupon])
      ∧ (∃ cart ∈ (Op.clearCart 5 "000000000000000000000001").run
            defaultService [cartAfterCoupon],
          cart.Items = [] ∧ cart.Coupon = some (mkCoupon "percentage" 10)
            ∧ cart.Coupon ≠ none) := by
  have hf : FindOne [cartAfterCoupon] 1 = some cartAfterCoupon := rfl
  have hfind : findItem 7 cartAfterCoupon.Items 0 = some (0, "p1") := rfl
  have hitem : ObjectIDFromHex "000000000000000000000007" = .ok 7 := rfl
  have hne : (some (mkCoupon "percentage" 10) : Option Coupon) ≠ none := by simp
  refine ⟨Reachable.step none _ _ scenario_coupon_reachable, ?_,
    Reachable.step none _ _ scenario_coupon_reachable, ?_⟩
  · simp only [Op.run]
    rw [RemoveItem_eq ObjectIDFromHex_one hitem hf hfind]
    exact ⟨_, List.mem_singleton.mpr rfl, rfl, rfl, hne⟩
  · simp only [Op.run]
    rw [ClearCart_eq ObjectIDFromHex_one hf]
    exact ⟨_, List.mem_singleton.mpr rfl, rfl, rfl, hne⟩

/-- C17, amended: no call attaches a coupon to a cart without items.  A cart
stored after a call either was stored before and then carries the coupon it
carried before, or no coupon, or has at least one item; or it was created by
the call and carries no coupon.  In particular `ApplyCoupon` on a stored cart
with zero items fails with `ErrCartEmpty` and returns the collection
unchanged. -/
theorem coupon_attached_only_with_items (s : CartService) (store : Store) (oid : ObjectID) :
    (∀ (op : Op) (c1 : Cart), FindOne (op.run s store) oid = some c1 →
        (∃ c, FindOne store oid = some c
            ∧ (c1.Coupon = c.Coupon ∨ c1.Coupon = none ∨ c1.Items ≠ []))
          ∨ (FindOne store oid = none ∧ c1.Coupon = none))
      ∧ (∀ appliedAt now cartID req c, ObjectIDFromHex cartID = .ok oid →
          FindOne store oid = some c → c.Items = [] →
          ApplyCoupon s store appliedAt now cartID req = (.error ErrCartEmpty, store)) := by
  constructor
  · intro op c1 h
    rcases Op.run_cartStep s store op oid c1 h with ⟨c, hf, hstep⟩ | ⟨hf, _, _, _, hc1⟩
    · left
      refine ⟨c, hf, ?_⟩
      cases hstep with
      | unchanged => exact Or.inl rfl
      | items now cart _ hcp => exact Or.inl rfl
      | cleared now => exact Or.inl rfl
      | couponApplied appliedAt now code _ hne => exact Or.inr (Or.inr hne)
      | couponRemoved now => exact Or.inr (Or.inl rfl)
      | checkedOut now => exact Or.inl rfl
      | merged userCartID => exact Or.inl rfl
      | mergedIntoItself now userCartID cart _ hcp => exact Or.inl rfl
      | abandoned _ hst => exact Or.inl rfl
    · right
      exact ⟨hf, by rw [hc1]; rfl⟩
  · intro appliedAt now cartID req c hoid hf hempty
    exact ApplyCoupon_empty hoid hf hempty

/-- C17, amended, worked example: `ApplyCoupon` attaches the coupon to the
scenario's cart, which has a line; on an empty cart it fails. -/
theorem coupon_attached_only_with_items_witness :
    FindOne ((Op.applyCoupon 0 0 "000000000000000000000001" { Code := "SAVE" }).run
        defaultService [cartAfterAdd]) 1 = some cartAfterCoupon
      ∧ ((∃ c, FindOne [cartAfterAdd] 1 = some c
            ∧ (cartAfterCoupon.Coupon = c.Coupon ∨ cartAfterCoupon.Coupon = none
                ∨ cartAfterCoupon.Items ≠ []))
          ∨ (FindOne [cartAfterAdd] 1 = none ∧ cartAfterCoupon.Coupon = none))
      ∧ ApplyCoupon defaultService [mkCart 1 [] none] 0 0 "000000000000000000000001"
          { Code := "SAVE" } = (.error ErrCartEmpty, [mkCart 1 [] none]) := by
  have hrun : FindOne ((Op.applyCoupon 0 0 "000000000000000000000001" { Code := "SAVE" }).run
      defaultService [cartAfterAdd]) 1 = some cartAfterCoupon := by
    have e : (Op.applyCoupon 0 0 "000000000000000000000001" { Code := "SAVE" }).run
        defaultService [cartAfterAdd] = [cartAfterCoupon] := congrArg Prod.snd scenario_coupon
    rw [e]
    rfl
  exact ⟨hrun,
    (coupon_attached_only_with_items defaultService [cartAfterAdd] 1).1
      (Op.applyCoupon 0 0 "000000000000000000000001" { Code := "SAVE" }) cartAfterCoupon hrun,
    (coupon_attached_only_with_items defaultService [mkCart 1 [] none] 1).2 0 0
      "000000000000000000000001" { Code := "SAVE" } (mkCart 1 [] none)
      ObjectIDFromHex_one rfl rfl⟩

/-! ## The first line with a property -/

/-- A list with a line satisfying `p` splits at the first such line; this is
the split the statements about `AddItem`, `UpdateItem` and `RemoveItem` are
made for, so they cover every cart that has a matching line. -/
theorem exists_first_line (p : CartItem → Prop) (items : List CartItem)
    (h : ∃ x ∈ items, p x) :
    ∃ pre t post, items = pre ++ t :: post ∧ (∀ x ∈ pre, ¬ p x) ∧ p t := by
  induction items with
  | nil =>
    obtain ⟨x, hx, _⟩ := h
    simp at hx
  | cons a rest ih =>
    by_cases ha : p a
    · exact ⟨[], a, rest, rfl, fun x hx => by simp at hx, ha⟩
    · obtain ⟨x, hx, hpx⟩ := h
      have hrest : ∃ y ∈ rest, p y := by
        rcases List.mem_cons.mp hx with rfl | hx
        · exact absurd hpx ha
        · exact ⟨x, hx, hpx⟩
      obtain ⟨pre, t, post, hsplit, hpre, ht⟩ := ih hrest
      refine ⟨a :: pre, t, post, by rw [hsplit]; rfl, ?_, ht⟩
      intro y hy
      rcases List.mem_cons.mp hy with rfl | hy
      · exact ha
      · exact hpre y hy

/-! ## calculateCartTotals as a recomputation: claims -/

/-- C30: the four outputs of `calculateCartTotals` are determined by the
cart's items and coupon and the service's tax rate and shipping cost alone
(two carts and two services agreeing on these give the same outputs, whatever
the carts' previous monetary fields); applying it twice gives the same cart as
applying it once; and it leaves the id, owner, status, items, coupon, metadata
and the three timestamps as they were. -/
theorem calculateCartTotals_recomputation (s : CartService) (cart : Cart) :
    (∀ (s1 : CartService) (cart1 : Cart), cart1.Items = cart.Items →
        cart1.Coupon = cart.Coupon → s1.taxRate = s.taxRate →
        s1.shippingCost = s.shippingCost →
        (calculateCartTotals s1 cart1).Subtotal = (calculateCartTotals s cart).Subtotal
          ∧ (calculateCartTotals s1 cart1).TaxAmount = (calculateCartTotals s cart).TaxAmount
          ∧ (calculateCartTotals s1 cart1).ShippingCost
              = (calculateCartTotals s cart).ShippingCost
          ∧ (calculateCartTotals s1 cart1).TotalAmount
              = (calculateCartTotals s cart).TotalAmount)
      ∧ calculateCartTotals s (calculateCartTotals s cart) = calculateCartTotals s cart
      ∧ (calculateCartTotals s cart).ID = cart.ID
      ∧ (calculateCartTotals s cart).UserID = cart.UserID
      ∧ (calculateCartTotals s cart).Status = cart.Status
      ∧ (calculateCartTotals s cart).Items = cart.Items
      ∧ (calculateCartTotals s cart).Coupon = cart.Coupon
      ∧ (calculateCartTotals s cart).Metadata = cart.Metadata
      ∧ (calculateCartTotals s cart).CreatedAt = cart.CreatedAt
      ∧ (calculateCartTotals s cart).UpdatedAt = cart.UpdatedAt
      ∧ (calculateCartTotals s cart).ExpiresAt = cart.ExpiresAt := by
  refine ⟨?_, rfl, rfl, rfl, rfl, rfl, rfl, rfl, rfl, rfl, rfl⟩
  intro s1 cart1 hi hc ht hs
  rw [calculateCartTotals_Subtotal, calculateCartTotals_TaxAmount,
    calculateCartTotals_ShippingCost, calculateCartTotals_TotalAmount,
    calculateCartTotals_Subtotal, calculateCartTotals_TaxAmount,
    calculateCartTotals_ShippingCost, calculateCartTotals_TotalAmount, hi, hc, ht, hs]
  exact ⟨rfl, rfl, rfl, rfl⟩

/-- C30, worked example: the scenario's cart with stale monetary fields (all
zero) and the same cart with its stored fields recompute to the same totals. -/
theorem calculateCartTotals_recomputation_witness :
    (calculateCartTotals defaultService (mkCart 1 [mkItem 7 "p1" 10 2] none)).Subtotal
        = (calculateCartTotals defaultService cartAfterAdd).Subtotal
      ∧ (calculateCartTotals defaultService (mkCart 1 [mkItem 7 "p1" 10 2] none)).TaxAmount
        = (calculateCartTotals defaultService cartAfterAdd).TaxAmount
      ∧ (calculateCartTotals defaultService (mkCart 1 [mkItem 7 "p1" 10 2] none)).ShippingCost
        = (calculateCartTotals defaultService cartAfterAdd).ShippingCost
      ∧ (calculateCartTotals defaultService (mkCart 1 [mkItem 7 "p1" 10 2] none)).TotalAmount
        = (calculateCartTotals defaultService cartAfterAdd).TotalAmount :=
  (calculateCartTotals_recomputation defaultService cartAfterAdd).1 defaultService
    (mkCart 1 [mkItem 7 "p1" 10 2] none) rfl rfl rfl rfl

/-! ## Availability errors and merge errors: claims -/

theorem AddItem_oracle_error {s : CartService} {store : Store} {newItemID : ObjectID}
    {addedAt now : Time} {cartID : String} {item : AddItemRequest} {err : CartError}
    (hsvc : oracleCheck s item.ProductID item.Quantity = some err) :
    AddItem s store newItemID addedAt now cartID item = (.error err, store) := by
  have hsvc2 : (match s.productSvc with
      | some svc => svc item.ProductID item.Quantity
      | none => none) = some err := hsvc
  unfold AddItem
  simp only [hsvc2]

theorem UpdateItem_oracle_error {s : CartService} {store : Store} {now : Time}
    {cartID itemID : String} {req : UpdateItemRequest} {cartOID itemOID : ObjectID} {c : Cart}
    {itemIndex : Nat} {productID : String} {err : CartError}
    (hq : 0 < req.Quantity)
    (hoid : ObjectIDFromHex cartID = .ok cartOID) (hitem : ObjectIDFromHex itemID = .ok itemOID)
    (hf : FindOne store cartOID = some c)
    (hfind : findItem itemOID c.Items 0 = some (itemIndex, productID))
    (hsvc : oracleCheck s productID req.Quantity = some err) :
    UpdateItem s store now cartID itemID req = (.error err, store) := by
  have hsvc2 : (match s.productSvc with
      | some svc => svc productID req.Quantity
      | none => none) = some err := hsvc
  have hq2 : ¬ req.Quantity ≤ 0 := not_le.mpr hq
  unfold UpdateItem
  simp only [if_neg hq2, hoid, hitem, hf, hfind, hsvc2]

theorem oracleCheck_of_some {s : CartService} {svc : ProductServiceClient}
    (h : s.productSvc = some svc) (productID : String) (quantity : Int) :
    oracleCheck s productID quantity = svc productID quantity := by
  unfold oracleCheck
  rw [h]

/-- C25: when the attached product service returns an error for the request's
product and quantity, `AddItem` fails with that error and returns the
collection unchanged; when it returns an error for the found line's product
and the new quantity, `UpdateItem` fails with that error and returns the
collection unchanged.  The mock's check succeeds exactly when the product is
registered with a stock of at least the quantity, and fails with
`ErrProductNotAvailable` otherwise. -/
theorem oracle_error_propagates (s : CartService) (store : Store)
    (svc : ProductServiceClient) (hsvc : s.productSvc = some svc) :
    (∀ newItemID addedAt now cartID (item : AddItemRequest) err,
        svc item.ProductID item.Quantity = some err →
        AddItem s store newItemID addedAt now cartID item = (.error err, store))
      ∧ (∀ now cartID itemID (req : UpdateItemRequest) cartOID itemOID (c : Cart)
          pre (t : CartItem) post err,
          0 < req.Quantity → ObjectIDFromHex cartID = .ok cartOID →
          ObjectIDFromHex itemID = .ok itemOID → FindOne store cartOID = some c →
          c.Items = pre ++ t :: post → (∀ x ∈ pre, x.ID ≠ itemOID) → t.ID = itemOID →
          svc t.ProductID req.Quantity = some err →
          UpdateItem s store now cartID itemID req = (.error err, store))
      ∧ (∀ (mock : MockProductServiceClient) productID quantity,
          (mock.CheckProductAvailability productID quantity = none
            ↔ ∃ stock, mock.AvailableProducts.lookup productID = some stock ∧ quantity ≤ stock)
          ∧ (mock.CheckProductAvailability productID quantity = none
              ∨ mock.CheckProductAvailability productID quantity
                  = some ErrProductNotAvailable)) := by
  refine ⟨?_, ?_, ?_⟩
  · intro newItemID addedAt now cartID item err herr
    exact AddItem_oracle_error (by rw [oracleCheck_of_some hsvc]; exact herr)
  · intro now cartID itemID req cartOID itemOID c pre t post err hq hoid hitem hf hsplit hpre
      ht herr
    have hfind : findItem itemOID c.Items 0 = some (pre.length, t.ProductID) := by
      rw [hsplit, findItem_of_split itemOID pre post t 0 hpre ht, Nat.zero_add]
    exact UpdateItem_oracle_error hq hoid hitem hf hfind
      (by rw [oracleCheck_of_some hsvc]; exact herr)
  · intro mock productID quantity
    unfold MockProductServiceClient.CheckProductAvailability
    cases hl : mock.AvailableProducts.lookup productID with
    | none => simp
    | some stock =>
      by_cases hlt : stock < quantity
      · simp [hlt]
      · simp [hlt, not_lt.mp hlt]

/-- C25, worked example: the mock knows `p1` with stock 5; a request for 6
units fails with `ErrProductNotAvailable` and leaves the collection as it
was. -/
theorem oracle_error_propagates_witness :
    AddItem mockService [cartAfterAdd] 8 0 0 "000000000000000000000001"
        { p1Request with Quantity := 6 } = (.error ErrProductNotAvailable, [cartAfterAdd])
      ∧ UpdateItem mockService [cartAfterAdd] 5 "000000000000000000000001"
          "000000000000000000000007" { Quantity := 6 }
          = (.error ErrProductNotAvailable, [cartAfterAdd]) :=
  ⟨(oracle_error_propagates mockService [cartAfterAdd] _ rfl).1 8 0 0
      "000000000000000000000001" { p1Request with Quantity := 6 } ErrProductNotAvailable rfl,
   (oracle_error_propagates mockService [cartAfterAdd] _ rfl).2.1 5
      "000000000000000000000001" "000000000000000000000007" { Quantity := 6 } 1 7 cartAfterAdd
      [] (mkItem 7 "p1" 10 2) [] ErrProductNotAvailable (by decide) ObjectIDFromHex_one rfl rfl
      rfl (by simp) rfl rfl⟩

/-- C26: when both ids decode and the target id or the source id is not
stored, `MergeGuestCart` fails with `ErrCartNotFound` and returns the
collection unchanged, so no stored cart is modified. -/
theorem MergeGuestCart_missing_cart (s : CartService) (store : Store) (now : Time)
    (secondaryWriteOk : Bool) (userCartID guestCartID : String) (userOID guestOID : ObjectID)
    (hu : ObjectIDFromHex userCartID = .ok userOID)
    (hg : ObjectIDFromHex guestCartID = .ok guestOID)
    (h : FindOne store userOID = none ∨ FindOne store guestOID = none) :
    MergeGuestCart s store now secondaryWriteOk userCartID guestCartID
      = (.error ErrCartNotFound, store) := by
  unfold MergeGuestCart
  cases hfs : FindOne store guestOID with
  | none => simp only [hu, hg, hfs]
  | some source =>
    rcases h with h | h
    · simp only [hu, hg, hfs, h]
    · rw [hfs] at h
      simp at h

/-- C26, worked example: the scenario's collection holds cart 1 only; merging
with cart 2 on either side fails. -/
theorem MergeGuestCart_missing_cart_witness :
    MergeGuestCart defaultService [cartAfterAdd] 5 true "000000000000000000000001"
        "000000000000000000000002" = (.error ErrCartNotFound, [cartAfterAdd])
      ∧ MergeGuestCart defaultService [cartAfterAdd] 5 true "000000000000000000000002"
          "000000000000000000000001" = (.error ErrCartNotFound, [cartAfterAdd]) :=
  ⟨MergeGuestCart_missing_cart defaultService [cartAfterAdd] 5 true
      "000000000000000000000001" "000000000000000000000002" 1 2
      ObjectIDFromHex_one ObjectIDFromHex_two (Or.inr rfl),
   MergeGuestCart_missing_cart defaultService [cartAfterAdd] 5 true
      "000000000000000000000002" "000000000000000000000001" 2 1
      ObjectIDFromHex_two ObjectIDFromHex_one (Or.inl rfl)⟩

/-- C27: when the write that marks the source fails, `MergeGuestCart` still
returns the merged target without error, the same cart it returns when that
write goes through; the stored target is that cart, with the merged lines and
the monetary fields recomputed from them; and a source distinct from the
target is left as it was. -/
theorem MergeGuestCart_secondary_failure (s : CartService) (store : Store) (now : Time)
    (userCartID guestCartID : String) (userOID guestOID : ObjectID) (target source : Cart)
    (hu : ObjectIDFromHex userCartID = .ok userOID)
    (hg : ObjectIDFromHex guestCartID = .ok guestOID)
    (hft : FindOne store userOID = some target)
    (hfs : FindOne store guestOID = some source) :
    ∃ merged,
      (MergeGuestCart s store now false userCartID guestCartID).1 = .ok merged
        ∧ (MergeGuestCart s store now true userCartID guestCartID).1 = .ok merged
        ∧ FindOne (MergeGuestCart s store now false userCartID guestCartID).2 userOID
            = some merged
        ∧ merged.Items
            = mergeLoop (buildItemMap target.Items 0 []) source.Items target.Items
        ∧ merged.Subtotal = (calculateCartTotals s merged).Subtotal
        ∧ merged.TaxAmount = (calculateCartTotals s merged).TaxAmount
        ∧ merged.ShippingCost = (calculateCartTotals s merged).ShippingCost
        ∧ merged.TotalAmount = (calculateCartTotals s merged).TotalAmount
        ∧ (userOID ≠ guestOID →
            FindOne (MergeGuestCart s store now false userCartID guestCartID).2 guestOID
              = some source) := by
  obtain ⟨h1, h2, h3, h4, h5⟩ := setItemsAndTotals_recomputed_totals s now
    (mergedCart target source) target rfl
  rw [MergeGuestCart_eq hu hg hft hfs, MergeGuestCart_eq hu hg hft hfs]
  refine ⟨_, rfl, rfl, FindOne_updateFirst_self (setItemsAndTotals_ID _) hft, h1, h2, h3, h4,
    h5, ?_⟩
  intro hne
  have hid : source.ID = guestOID := (FindOne_some_mem hfs).2
  have hnotuser : ¬ source.ID = userOID := fun e => hne (e.symm.trans hid)
  simp only [Bool.false_eq_true, if_false]
  rw [FindOne_updateFirst _ (setItemsAndTotals_ID _), hfs, Option.map_some', if_neg hnotuser]

/-- C27, worked example: merging the source cart (id 2) into the target cart
(id 1) with a failing secondary write. -/
theorem MergeGuestCart_secondary_failure_witness :
    ∃ merged,
      (MergeGuestCart defaultService [mergeTarget, mergeSource] 0 false
          "000000000000000000000001" "000000000000000000000002").1 = .ok merged
        ∧ FindOne (MergeGuestCart defaultService [mergeTarget, mergeSource] 0 false
            "000000000000000000000001" "000000000000000000000002").2 1 = some merged
        ∧ merged.TotalAmount = (calculateCartTotals defaultService merged).TotalAmount
        ∧ FindOne (MergeGuestCart defaultService [mergeTarget, mergeSource] 0 false
            "000000000000000000000001" "000000000000000000000002").2 2 = some mergeSource := by
  obtain ⟨merged, h1, _, h3, _, _, _, _, h8, h9⟩ := MergeGuestCart_secondary_failure
    defaultService [mergeTarget, mergeSource] 0 "000000000000000000000001"
    "000000000000000000000002" 1 2 mergeTarget mergeSource
    ObjectIDFromHex_one ObjectIDFromHex_two rfl rfl
  exact ⟨merged, h1, h3, h8, h9 (by decide)⟩

/-! ## The sweep and the statistics: claims -/

theorem abandoned_patch_ne (c : Cart) (h : c.Status = CartStatusActive) :
    ({ c with Status := CartStatusAbandoned } : Cart) ≠ c := by
  intro e
  have h2 := congrArg Cart.Status e
  simp only [h] at h2
  exact absurd h2 (by decide)

theorem sweepCart_fields (cutoff : Time) (c : Cart) :
    (sweepCart cutoff c).ID = c.ID
      ∧ (sweepCart cutoff c).UserID = c.UserID
      ∧ (sweepCart cutoff c).Items = c.Items
      ∧ (sweepCart cutoff c).Subtotal = c.Subtotal
      ∧ (sweepCart cutoff c).TaxAmount = c.TaxAmount
      ∧ (sweepCart cutoff c).ShippingCost = c.ShippingCost
      ∧ (sweepCart cutoff c).TotalAmount = c.TotalAmount
      ∧ (sweepCart cutoff c).Coupon = c.Coupon
      ∧ (sweepCart cutoff c).Metadata = c.Metadata
      ∧ (sweepCart cutoff c).CreatedAt = c.CreatedAt
      ∧ (sweepCart cutoff c).UpdatedAt = c.UpdatedAt
      ∧ (sweepCart cutoff c).ExpiresAt = c.ExpiresAt := by
  unfold sweepCart
  split <;> exact ⟨rfl, rfl, rfl, rfl, rfl, rfl, rfl, rfl, rfl, rfl, rfl, rfl⟩

/-- C23: `CleanupAbandonedCarts` returns the number of carts that are active
and were last updated strictly before `now − threshold`, and leaves the
collection with exactly those carts set to `abandoned`: every cart becomes its
swept form, which is `abandoned` for such a cart and the cart itself for any
other (a cart in `processing`, `completed` or `abandoned`, or an active cart
updated at or after the cutoff), and which keeps the expiry, the update time,
the items, the totals and every other field. -/
theorem CleanupAbandonedCarts_spec (s : CartService) (store : Store) (now : Time)
    (olderThan : Duration) :
    (CleanupAbandonedCarts s store now olderThan).1
        = .ok ((staleCarts store now olderThan).length : Int)
      ∧ (CleanupAbandonedCarts s store now olderThan).2
          = store.map (sweepCart (now - olderThan))
      ∧ (∀ c : Cart, c.Status = CartStatusActive → c.UpdatedAt < now - olderThan →
          (sweepCart (now - olderThan) c).Status = CartStatusAbandoned)
      ∧ (∀ c : Cart, c.Status ≠ CartStatusActive → sweepCart (now - olderThan) c = c)
      ∧ (∀ c : Cart, ¬ (c.UpdatedAt < now - olderThan) → sweepCart (now - olderThan) c = c)
      ∧ (∀ c : Cart, (sweepCart (now - olderThan) c).ExpiresAt = c.ExpiresAt
          ∧ (sweepCart (now - olderThan) c).UpdatedAt = c.UpdatedAt
          ∧ (sweepCart (now - olderThan) c).Items = c.Items
          ∧ (sweepCart (now - olderThan) c).Subtotal = c.Subtotal
          ∧ (sweepCart (now - olderThan) c).TaxAmount = c.TaxAmount
          ∧ (sweepCart (now - olderThan) c).ShippingCost = c.ShippingCost
          ∧ (sweepCart (now - olderThan) c).TotalAmount = c.TotalAmount) := by
  have hcut : now + (-olderThan) = now - olderThan := (Int.sub_eq_add_neg).symm
  refine ⟨?_, ?_, ?_, ?_, ?_, ?_⟩
  · unfold CleanupAbandonedCarts UpdateMany staleCarts
    simp only [hcut]
    congr 3
    apply List.filter_congr
    intro c _
    by_cases hc : c.Status = CartStatusActive ∧ c.UpdatedAt < now - olderThan
    · simp only [hc, and_self, decide_True, Bool.true_and, decide_eq_true_eq]
      exact abandoned_patch_ne c hc.1
    · simp [hc]
  · unfold CleanupAbandonedCarts UpdateMany
    simp only [hcut]
    apply List.map_congr_left
    intro c _
    unfold sweepCart
    by_cases hc : c.Status = CartStatusActive ∧ c.UpdatedAt < now - olderThan
    · simp [hc]
    · simp [hc]
  · intro c h1 h2
    unfold sweepCart
    rw [if_pos ⟨h1, h2⟩]
  · intro c h1
    unfold sweepCart
    rw [if_neg (fun h => h1 h.1)]
  · intro c h1
    unfold sweepCart
    rw [if_neg (fun h => h1 h.2)]
  · intro c
    obtain ⟨_, _, h3, h4, h5, h6, h7, _, _, _, h11, h12⟩ := sweepCart_fields (now - olderThan) c
    exact ⟨h12, h11, h3, h4, h5, h6, h7⟩

/-- C23, worked example (time in seconds, threshold 24 hours = 86400, clock
at 360000): the cart updated 25 hours ago becomes abandoned, the one updated
23 hours ago stays active, and the call reports one cart. -/
theorem CleanupAbandonedCarts_spec_witness :
    (CleanupAbandonedCarts defaultService
        [cartUpdatedAt 1 (360000 - 90000), cartUpdatedAt 2 (360000 - 82800)] 360000 86400).1
        = .ok 1
      ∧ (CleanupAbandonedCarts defaultService
          [cartUpdatedAt 1 (360000 - 90000), cartUpdatedAt 2 (360000 - 82800)] 360000 86400).2
          = [{ cartUpdatedAt 1 (360000 - 90000) with Status := CartStatusAbandoned },
             cartUpdatedAt 2 (360000 - 82800)]
      ∧ (sweepCart (360000 - 86400) (cartUpdatedAt 1 (360000 - 90000))).Status
          = CartStatusAbandoned
      ∧ sweepCart (360000 - 86400) (cartUpdatedAt 2 (360000 - 82800))
          = cartUpdatedAt 2 (360000 - 82800) := by
  have h := CleanupAbandonedCarts_spec defaultService
    [cartUpdatedAt 1 (360000 - 90000), cartUpdatedAt 2 (360000 - 82800)] 360000 86400
  refine ⟨h.1.trans ?_, h.2.1.trans ?_,
    h.2.2.1 (cartUpdatedAt 1 (360000 - 90000)) rfl (by decide),
    h.2.2.2.2.1 (cartUpdatedAt 2 (360000 - 82800)) (by decide)⟩
  · rfl
  · rfl

theorem foldl_count (docs : List Cart) (n : Int) :
    docs.foldl (fun n _ => n + 1) n = n + (docs.length : Int) := by
  induction docs generalizing n with
  | nil => simp
  | cons d ds ih =>
    rw [List.foldl_cons, ih, List.length_cons]
    push_cast
    ring

theorem foldl_sumStatus (wanted : CartStatus) (docs : List Cart) (n : Int) :
    docs.foldl (fun n c => n + (if c.Status = wanted then 1 else 0)) n
      = n + ((docs.filter (fun c => decide (c.Status = wanted))).length : Int) := by
  induction docs generalizing n with
  | nil => simp
  | cons d ds ih =>
    rw [List.foldl_cons, ih]
    by_cases h : d.Status = wanted
    · simp only [h, if_true, List.filter_cons, decide_True, List.length_cons]
      push_cast
      ring
    · simp [h, List.filter_cons]

theorem foldl_totalValue (docs : List Cart) (v : ℚ) :
    docs.foldl (fun v c => v + c.TotalAmount) v
      = v + (docs.map (fun c => c.TotalAmount)).sum := by
  induction docs generalizing v with
  | nil => simp
  | cons d ds ih =>
    rw [List.foldl_cons, ih, List.map_cons, List.sum_cons]
    ring

/-- C24: `GetCartStatistics` succeeds and returns the collection unchanged;
its total is the number of carts created in the window, its three status
counts are the numbers of those carts that are active, abandoned and
completed, and its average is the sum of their total amounts divided by their
number when there is at least one, and 0 when there is none. -/
theorem GetCartStatistics_spec (s : CartService) (store : Store) (now : Time)
    (timeRange : Duration) :
    ∃ stats,
      GetCartStatistics s store now timeRange = (.ok stats, store)
        ∧ stats.TotalCarts = ((inWindow store now timeRange).length : Int)
        ∧ stats.ActiveCarts
            = (((inWindow store now timeRange).filter
                (fun c => decide (c.Status = CartStatusActive))).length : Int)
        ∧ stats.AbandonedCarts
            = (((inWindow store now timeRange).filter
                (fun c => decide (c.Status = CartStatusAbandoned))).length : Int)
        ∧ stats.CompletedCarts
            = (((inWindow store now timeRange).filter
                (fun c => decide (c.Status = CartStatusCompleted))).length : Int)
        ∧ (inWindow store now timeRange ≠ [] →
            stats.AverageCartValue
              = ((inWindow store now timeRange).map (fun c => c.TotalAmount)).sum
                  / ((inWindow store now timeRange).length : ℚ))
        ∧ (inWindow store now timeRange = [] → stats.AverageCartValue = 0) := by
  have hcut : now + (-timeRange) = now - timeRange := (Int.sub_eq_add_neg).symm
  unfold GetCartStatistics Aggregate
  simp only [hcut]
  have hw : inWindow store now timeRange
      = store.filter (fun c => decide (c.CreatedAt ≥ now - timeRange)) := rfl
  rw [← hw]
  cases hdocs : inWindow store now timeRange with
  | nil =>
    exact ⟨_, rfl, rfl, rfl, rfl, rfl, fun h => absurd rfl h, fun _ => rfl⟩
  | cons d ds =>
    have hpos : (0 : Int) < (List.foldl (fun n _ => n + 1) 0 (d :: ds) : Int) := by
      rw [foldl_count, List.length_cons]
      push_cast
      omega
    simp only [gt_iff_lt, hpos, if_true]
    refine ⟨_, rfl, ?_, ?_, ?_, ?_, ?_, ?_⟩
    · simp only [foldl_count, zero_add]
    · simp only [sumStatus, foldl_sumStatus, zero_add]
    · simp only [sumStatus, foldl_sumStatus, zero_add]
    · simp only [sumStatus, foldl_sumStatus, zero_add]
    · intro _
      simp only [foldl_count, foldl_totalValue, zero_add]
      push_cast
      rfl
    · intro h
      exact absurd h (List.cons_ne_nil d ds)

/-- C24, worked example on the scenario's collection (one active cart created
at time 0 with total 23.6): a window reaching back to its creation counts it
and averages 23.6; a window that does not reach it reports zeros. -/
theorem GetCartStatistics_spec_witness :
    (∃ stats, GetCartStatistics defaultService [cartAfterAdd] 100 200
          = (.ok stats, [cartAfterAdd])
        ∧ stats.TotalCarts = 1 ∧ stats.ActiveCarts = 1 ∧ stats.AverageCartValue = 118 / 5)
      ∧ (∃ stats, GetCartStatistics defaultService [cartAfterAdd] 100 50
          = (.ok stats, [cartAfterAdd])
        ∧ stats.TotalCarts = 0 ∧ stats.AverageCartValue = 0) := by
  have hin : inWindow [cartAfterAdd] 100 200 = [cartAfterAdd] := rfl
  have hout : inWindow [cartAfterAdd] 100 50 = [] := rfl
  constructor
  · obtain ⟨stats, h1, h2, h3, _, _, h6, _⟩ :=
      GetCartStatistics_spec defaultService [cartAfterAdd] 100 200
    rw [hin] at h2 h3 h6
    refine ⟨stats, h1, h2, h3, ?_⟩
    rw [h6 (List.cons_ne_nil _ _)]
    norm_num [cartAfterAdd]
  · obtain ⟨stats, h1, h2, _, _, _, _, h7⟩ :=
      GetCartStatistics_spec defaultService [cartAfterAdd] 100 50
    rw [hout] at h2
    exact ⟨stats, h1, h2, h7 hout⟩

/-! ## Expiry renewal: claims -/

theorem expiryRenewed_of_patch {s : CartService} {store : Store} {oid : ObjectID} {c : Cart}
    {patch : Cart → Cart} {now : Time} (hf : FindOne store oid = some c)
    (hid : ∀ d, (patch d).ID = d.ID)
    (hu : (patch c).UpdatedAt = now) (he : (patch c).ExpiresAt = now + s.cartTTL) :
    ExpiryRenewed s (patch c) (updateFirst oid patch store) := by
  refine ⟨by rw [hu, he], patch c, ?_, by rw [hu, he]⟩
  rw [hid, (FindOne_some_mem hf).2]
  exact FindOne_updateFirst_self hid hf

theorem decodeResult_renews (now : Time) {s : CartService} {store : Store} {oid : ObjectID}
    {c : Cart} {patch : Cart → Cart} (hf : FindOne store oid = some c)
    (hid : ∀ d, (patch d).ID = d.ID)
    (hu : (patch c).UpdatedAt = now) (he : (patch c).ExpiresAt = now + s.cartTTL)
    (updated : Cart) :
    (decodeResult (FindOneAndUpdate store oid patch)).1 = .ok updated →
      ExpiryRenewed s updated (decodeResult (FindOneAndUpdate store oid patch)).2 := by
  rw [decodeResult_of_some patch hf]
  intro h
  have e : patch c = updated := Except.ok.inj h
  rw [← e]
  exact expiryRenewed_of_patch hf hid hu he

theorem CreateCart_renews (s : CartService) (store : Store) (insertedID : ObjectID)
    (now : Time) (req : CreateCartRequest) (updated : Cart) :
    (CreateCart s store insertedID now req).1 = .ok updated →
      ExpiryRenewed s updated (CreateCart s store insertedID now req).2 := by
  unfold CreateCart InsertOne
  cases hf : FindOne store insertedID with
  | some c =>
    intro h
    simp at h
  | none =>
    intro h
    have e : createdCart s insertedID now req = updated := Except.ok.inj h
    rw [← e]
    refine ⟨rfl, createdCart s insertedID now req, ?_, rfl⟩
    show FindOne (store ++ [createdCart s insertedID now req]) insertedID = _
    rw [FindOne_append, hf]
    simp [FindOne, createdCart]

theorem AddItem_renews (s : CartService) (store : Store) (newItemID : ObjectID)
    (addedAt now : Time) (cartID : String) (item : AddItemRequest) (updated : Cart) :
    (AddItem s store newItemID addedAt now cartID item).1 = .ok updated →
      ExpiryRenewed s updated (AddItem s store newItemID addedAt now cartID item).2 := by
  unfold AddItem
  split
  · intro h; simp at h
  · split
    · intro h; simp at h
    · split
      · intro h; simp at h
      · refine decodeResult_renews now (by assumption) ?_ ?_ ?_ updated
        · intro _; rfl
        · rfl
        · rfl

theorem UpdateItem_renews (s : CartService) (store : Store) (now : Time)
    (cartID itemID : String) (req : UpdateItemRequest) (updated : Cart) :
    (UpdateItem s store now cartID itemID req).1 = .ok updated →
      ExpiryRenewed s updated (UpdateItem s store now cartID itemID req).2 := by
  unfold UpdateItem
  split
  · intro h; simp at h
  · split
    · intro h; simp at h
    · split
      · intro h; simp at h
      · split
        · intro h; simp at h
        · split
          · intro h; simp at h
          · split
            · intro h; simp at h
            · refine decodeResult_renews now (by assumption) ?_ ?_ ?_ updated
              · intro _; rfl
              · rfl
              · rfl

theorem RemoveItem_renews (s : CartService) (store : Store) (now : Time)
    (cartID itemID : String) (updated : Cart) :
    (RemoveItem s store now cartID itemID).1 = .ok updated →
      ExpiryRenewed s updated (RemoveItem s store now cartID itemID).2 := by
  unfold RemoveItem
  split
  · intro h; simp at h
  · split
    · intro h; simp at h
    · split
      · intro h; simp at h
      · split
        · intro h; simp at h
        · refine decodeResult_renews now (by assumption) ?_ ?_ ?_ updated
          · intro _; rfl
          · rfl
          · rfl

theorem ClearCart_renews (s : CartService) (store : Store) (now : Time) (cartID : String)
    (updated : Cart) :
    (ClearCart s store now cartID).1 = .ok updated →
      ExpiryRenewed s updated (ClearCart s store now cartID).2 := by
  cases hoid : ObjectIDFromHex cartID with
  | error err =>
    unfold ClearCart
    simp only [hoid]
    intro h; simp at h
  | ok oid =>
    cases hf : FindOne store oid with
    | none =>
      rw [ClearCart_not_found hoid hf]
      intro h; simp at h
    | some c =>
      rw [ClearCart_eq hoid hf]
      intro h
      have e : clearPatch s now c = updated := Except.ok.inj h
      rw [← e]
      exact expiryRenewed_of_patch hf (fun _ => rfl) rfl rfl

theorem ApplyCoupon_renews (s : CartService) (store : Store) (appliedAt now : Time)
    (cartID : String) (req : ApplyCouponRequest) (updated : Cart) :
    (ApplyCoupon s store appliedAt now cartID req).1 = .ok updated →
      ExpiryRenewed s updated (ApplyCoupon s store appliedAt now cartID req).2 := by
  unfold ApplyCoupon
  split
  · intro h; simp at h
  · split
    · intro h; simp at h
    · split
      · intro h; simp at h
      · refine decodeResult_renews now (by assumption) ?_ ?_ ?_ updated
        · intro _; rfl
        · rfl
        · rfl

theorem RemoveCoupon_renews (s : CartService) (store : Store) (now : Time) (cartID : String)
    (updated : Cart) :
    (RemoveCoupon s store now cartID).1 = .ok updated →
      ExpiryRenewed s updated (RemoveCoupon s store now cartID).2 := by
  unfold RemoveCoupon
  split
  · intro h; simp at h
  · split
    · intro h; simp at h
    · refine decodeResult_renews now (by assumption) ?_ ?_ ?_ updated
      · intro _; rfl
      · rfl
      · rfl

theorem MergeGuestCart_renews (s : CartService) (store : Store) (now : Time)
    (secondaryWriteOk : Bool) (userCartID guestCartID : String) (updated : Cart) :
    (MergeGuestCart s store now secondaryWriteOk userCartID guestCartID).1 = .ok updated →
      ExpiryRenewed s updated
        (MergeGuestCart s store now secondaryWriteOk userCartID guestCartID).2 := by
  cases hu : ObjectIDFromHex userCartID with
  | error err =>
    unfold MergeGuestCart
    simp only [hu]
    intro h; simp at h
  | ok userOID =>
    cases hg : ObjectIDFromHex guestCartID with
    | error err =>
      unfold MergeGuestCart
      simp only [hu, hg]
      intro h; simp at h
    | ok guestOID =>
      cases hfs : FindOne store guestOID with
      | none =>
        unfold MergeGuestCart
        simp only [hu, hg, hfs]
        intro h; simp at h
      | some source =>
        cases hft : FindOne store userOID with
        | none =>
          unfold MergeGuestCart
          simp only [hu, hg, hfs, hft]
          intro h; simp at h
        | some target =>
          rw [MergeGuestCart_eq hu hg hft hfs]
          intro h
          have e : setItemsAndTotals (recomputed s now (mergedCart target source)) target
              = updated := Except.ok.inj h
          rw [← e]
          cases secondaryWriteOk with
          | false => exact expiryRenewed_of_patch hft (fun _ => rfl) rfl rfl
          | true =>
            refine ⟨rfl, ?_⟩
            simp only [if_true]
            rw [FindOne_updateFirst _ (markMerged_ID userCartID), setItemsAndTotals_ID,
              (FindOne_some_mem hft).2, FindOne_updateFirst_self (setItemsAndTotals_ID _) hft,
              Option.map_some']
            by_cases hsame : (setItemsAndTotals (recomputed s now (mergedCart target source))
                target).ID = guestOID
            · rw [if_pos hsame]
              exact ⟨_, rfl, rfl⟩
            · rw [if_neg hsame]
              exact ⟨_, rfl, rfl⟩

theorem CheckoutCart_keeps_expiry (s : CartService) (store : Store) (now : Time)
    (cartID : String) (updated : Cart) :
    (CheckoutCart s store now cartID).1 = .ok updated →
      ∃ c, FindOne store updated.ID = some c
        ∧ updated.UpdatedAt = now ∧ updated.ExpiresAt = c.ExpiresAt
        ∧ FindOne (CheckoutCart s store now cartID).2 updated.ID = some updated := by
  cases hoid : ObjectIDFromHex cartID with
  | error err =>
    unfold CheckoutCart
    simp only [hoid]
    intro h; simp at h
  | ok oid =>
    cases hf : FindOne store oid with
    | none =>
      unfold CheckoutCart
      simp only [hoid, hf]
      intro h; simp at h
    | some c =>
      by_cases hne : c.Items = []
      · rw [CheckoutCart_empty hoid hf hne]
        intro h; simp at h
      · rw [CheckoutCart_eq hoid hf hne]
        intro h
        have e : checkoutPatch now c = updated := Except.ok.inj h
        rw [← e]
        have hid : (checkoutPatch now c).ID = oid := (FindOne_some_mem hf).2
        rw [hid]
        exact ⟨c, hf, rfl, rfl, FindOne_updateFirst_self (checkoutPatch_ID now) hf⟩

/-- C22, counterexample: checking out the scenario's cart at time 5 succeeds
and sets its update time to 5 but leaves its expiry at 259200, which is not
the update time plus the TTL of 259200. -/
theorem CheckoutCart_expiry_not_renewed :
    ∃ updated,
      (CheckoutCart defaultService [cartAfterAdd] 5 "000000000000000000000001").1
          = .ok updated
        ∧ FindOne (CheckoutCart defaultService [cartAfterAdd] 5
            "000000000000000000000001").2 1 = some updated
        ∧ updated.UpdatedAt = 5
        ∧ updated.ExpiresAt = 259200
        ∧ updated.ExpiresAt ≠ updated.UpdatedAt + defaultService.cartTTL :=
  ⟨checkoutPatch 5 cartAfterAdd, rfl, rfl, rfl, rfl, by decide⟩

/-- C22, amended: after every successful `CreateCart`, `AddItem`,
`UpdateItem`, `RemoveItem`, `ClearCart`, `ApplyCoupon`, `RemoveCoupon` and
`MergeGuestCart`, the returned cart and the document stored under its id have
`expiresAt = updatedAt + cartTTL`; a successful `CheckoutCart` sets the update
time to the clock reading and leaves the expiry as it was. -/
theorem mutators_renew_expiry (s : CartService) (store : Store) (updated : Cart) :
    (∀ insertedID now req,
        (CreateCart s store insertedID now req).1 = .ok updated →
          ExpiryRenewed s updated (CreateCart s store insertedID now req).2)
      ∧ (∀ newItemID addedAt now cartID item,
        (AddItem s store newItemID addedAt now cartID item).1 = .ok updated →
          ExpiryRenewed s updated (AddItem s store newItemID addedAt now cartID item).2)
      ∧ (∀ now cartID itemID req,
        (UpdateItem s store now cartID itemID req).1 = .ok updated →
          ExpiryRenewed s updated (UpdateItem s store now cartID itemID req).2)
      ∧ (∀ now cartID itemID,
        (RemoveItem s store now cartID itemID).1 = .ok updated →
          ExpiryRenewed s updated (RemoveItem s store now cartID itemID).2)
      ∧ (∀ now cartID,
        (ClearCart s store now cartID).1 = .ok updated →
          ExpiryRenewed s updated (ClearCart s store now cartID).2)
      ∧ (∀ appliedAt now cartID req,
        (ApplyCoupon s store appliedAt now cartID req).1 = .ok updated →
          ExpiryRenewed s updated (ApplyCoupon s store appliedAt now cartID req).2)
      ∧ (∀ now cartID,
        (RemoveCoupon s store now cartID).1 = .ok updated →
          ExpiryRenewed s updated (RemoveCoupon s store now cartID).2)
      ∧ (∀ now secondaryWriteOk userCartID guestCartID,
        (MergeGuestCart s store now secondaryWriteOk userCartID guestCartID).1 = .ok updated →
          ExpiryRenewed s updated
            (MergeGuestCart s store now secondaryWriteOk userCartID guestCartID).2)
      ∧ (∀ now cartID,
        (CheckoutCart s store now cartID).1 = .ok updated →
          ∃ c, FindOne store updated.ID = some c
            ∧ updated.UpdatedAt = now ∧ updated.ExpiresAt = c.ExpiresAt
            ∧ FindOne (CheckoutCart s store now cartID).2 updated.ID = some updated) :=
  ⟨fun insertedID now req => CreateCart_renews s store insertedID now req updated,
   fun newItemID addedAt now cartID item =>
     AddItem_renews s store newItemID addedAt now cartID item updated,
   fun now cartID itemID req => UpdateItem_renews s store now cartID itemID req updated,
   fun now cartID itemID => RemoveItem_renews s store now cartID itemID updated,
   fun now cartID => ClearCart_renews s store now cartID updated,
   fun appliedAt now cartID req => ApplyCoupon_renews s store appliedAt now cartID req updated,
   fun now cartID => RemoveCoupon_renews s store now cartID updated,
   fun now ok userCartID guestCartID =>
     MergeGuestCart_renews s store now ok userCartID guestCartID updated,
   fun now cartID => CheckoutCart_keeps_expiry s store now cartID updated⟩

/-- C22, worked example: adding the scenario's line at time 0 succeeds, and
the cart returned and stored expires at 0 + 259200. -/
theorem mutators_renew_expiry_witness :
    (AddItem defaultService [mkCart 1 [] none] 7 0 0 "000000000000000000000001"
        p1Request).1 = .ok cartAfterAdd
      ∧ ExpiryRenewed defaultService cartAfterAdd
          (AddItem defaultService [mkCart 1 [] none] 7 0 0 "000000000000000000000001"
            p1Request).2 :=
  ⟨congrArg Prod.fst scenario_add,
   (mutators_renew_expiry defaultService [mkCart 1 [] none] cartAfterAdd).2.1 7 0 0
     "000000000000000000000001" p1Request (congrArg Prod.fst scenario_add)⟩

/-! ## Status after checkout or completion: claims -/

theorem FindOne_updateFirst_cases {patch : Cart → Cart} (hid : ∀ d, (patch d).ID = d.ID)
    {store : Store} {oid1 oid : ObjectID} {c c1 : Cart} (hc : FindOne store oid = some c)
    (h1 : FindOne (updateFirst oid1 patch store) oid = some c1) :
    c1 = c ∨ (oid = oid1 ∧ c1 = patch c) := by
  rw [FindOne_updateFirst patch hid, hc, Option.map_some'] at h1
  have e := Option.some.inj h1
  by_cases h : c.ID = oid1
  · rw [if_pos h] at e
    exact Or.inr ⟨(FindOne_some_mem hc).2.symm.trans h, e.symm⟩
  · rw [if_neg h] at e
    exact Or.inl e.symm

theorem status_of_updateFirst {patch : Cart → Cart} (hid : ∀ d, (patch d).ID = d.ID)
    (hs : ∀ d, (patch d).Status = d.Status)
    {store : Store} {oid1 oid : ObjectID} {c c1 : Cart} (hc : FindOne store oid = some c)
    (h1 : FindOne (updateFirst oid1 patch store) oid = some c1) :
    c1.Status = c.Status := by
  rcases FindOne_updateFirst_cases hid hc h1 with e | ⟨_, e⟩
  · rw [e]
  · rw [e, hs]

theorem CheckoutCart_store_hex (s : CartService) (store : Store) (now : Time)
    (cartID : String) :
    (CheckoutCart s store now cartID).2 = store ∨
    ∃ oid, ObjectIDFromHex cartID = .ok oid
      ∧ (CheckoutCart s store now cartID).2 = updateFirst oid (checkoutPatch now) store := by
  cases hoid : ObjectIDFromHex cartID with
  | error err =>
    left
    unfold CheckoutCart
    simp only [hoid]
  | ok oid =>
    cases hf : FindOne store oid with
    | none =>
      left
      unfold CheckoutCart
      simp only [hoid, hf]
    | some c =>
      by_cases hne : c.Items = []
      · left
        rw [CheckoutCart_empty hoid hf hne]
      · right
        refine ⟨oid, rfl, ?_⟩
        rw [CheckoutCart_eq hoid hf hne]

theorem MergeGuestCart_store_hex (s : CartService) (store : Store) (now : Time)
    (secondaryWriteOk : Bool) (userCartID guestCartID : String) :
    (MergeGuestCart s store now secondaryWriteOk userCartID guestCartID).2 = store ∨
    ∃ userOID guestOID target source, ObjectIDFromHex guestCartID = .ok guestOID
      ∧ (MergeGuestCart s store now secondaryWriteOk userCartID guestCartID).2
        = if secondaryWriteOk then
            updateFirst guestOID (markMerged userCartID)
              (updateFirst userOID
                (setItemsAndTotals (recomputed s now (mergedCart target source))) store)
          else
            updateFirst userOID
              (setItemsAndTotals (recomputed s now (mergedCart target source))) store := by
  cases hu : ObjectIDFromHex userCartID with
  | error err =>
    left
    unfold MergeGuestCart
    simp only [hu]
  | ok userOID =>
    cases hg : ObjectIDFromHex guestCartID with
    | error err =>
      left
      unfold MergeGuestCart
      simp only [hu, hg]
    | ok guestOID =>
      cases hfs : FindOne store guestOID with
      | none =>
        left
        unfold MergeGuestCart
        simp only [hu, hg, hfs]
      | some source =>
        cases hft : FindOne store userOID with
        | none =>
          left
          unfold MergeGuestCart
          simp only [hu, hg, hfs, hft]
        | some target =>
          right
          refine ⟨userOID, guestOID, target, source, rfl, ?_⟩
          rw [MergeGuestCart_eq hu hg hft hfs]

/-- C21, counterexample: a `completed` cart that holds a line is moved to
`processing` by `CheckoutCart`, and a `processing` cart named as the source of
a `MergeGuestCart` is moved to `completed`. -/
theorem settled_status_changes :
    (FindOne [completedCart] 1 = some completedCart
        ∧ completedCart.Status = CartStatusCompleted
        ∧ ∃ c1, FindOne (Op.run defaultService [completedCart]
              (.checkoutCart 9 "000000000000000000000001")) 1 = some c1
            ∧ c1.Status = CartStatusProcessing)
      ∧ (FindOne [mergeTarget, processingGuest] 2 = some processingGuest
        ∧ processingGuest.Status = CartStatusProcessing
        ∧ ∃ c1, FindOne (Op.run defaultService [mergeTarget, processingGuest]
              (.mergeGuestCart 9 true "000000000000000000000001"
                "000000000000000000000002")) 2 = some c1
            ∧ c1.Status = CartStatusCompleted) :=
  ⟨⟨rfl, rfl, checkoutPatch 9 completedCart, rfl, rfl⟩,
   ⟨rfl, rfl, markMerged "000000000000000000000001" processingGuest, rfl, rfl⟩⟩

/-- C21, amended: one call leaves the status of a stored cart that is in
`processing` or `completed` as it was, except that a `CheckoutCart` naming the
cart sets it to `processing` and a `MergeGuestCart` naming it as the source
(with the secondary write going through) sets it to `completed`; so such a
cart never becomes `active` or `abandoned` again. -/
theorem settled_status_step (s : CartService) (store : Store) (op : Op) (oid : ObjectID)
    (c c1 : Cart) (hc : FindOne store oid = some c)
    (hst : c.Status = CartStatusProcessing ∨ c.Status = CartStatusCompleted)
    (h1 : FindOne (op.run s store) oid = some c1) :
    c1.Status = c.Status
      ∨ (∃ now cartID, op = .checkoutCart now cartID
          ∧ ObjectIDFromHex cartID = .ok oid ∧ c1.Status = CartStatusProcessing)
      ∨ (∃ now userCartID guestCartID, op = .mergeGuestCart now true userCartID guestCartID
          ∧ ObjectIDFromHex guestCartID = .ok oid ∧ c1.Status = CartStatusCompleted) := by
  have hsame : ∀ {st : Store}, st = store → FindOne st oid = some c1 →
      c1.Status = c.Status := by
    intro st e hst1
    rw [e, hc] at hst1
    rw [← Option.some.inj hst1]
  cases op with
  | createCart insertedID now req =>
    left
    simp only [Op.run] at h1
    rcases CreateCart_store s store insertedID now req with e | e
    · exact hsame e h1
    · rw [e, FindOne_append, hc] at h1
      rw [← Option.some.inj h1]
  | addItem newItemID addedAt now cartID item =>
    left
    simp only [Op.run] at h1
    rcases AddItem_store s store newItemID addedAt now cartID item with e | ⟨_, _, _, _, _, e⟩
    · exact hsame e h1
    · rw [e] at h1
      exact status_of_updateFirst (setItemsAndTotals_ID _) (fun _ => rfl) hc h1
  | updateItem now cartID itemID req =>
    left
    simp only [Op.run] at h1
    rcases UpdateItem_store s store now cartID itemID req with e | ⟨_, _, _, _, _, e⟩
    · exact hsame e h1
    · rw [e] at h1
      exact status_of_updateFirst (setItemsAndTotals_ID _) (fun _ => rfl) hc h1
  | removeItem now cartID itemID =>
    left
    simp only [Op.run] at h1
    rcases RemoveItem_store s store now cartID itemID with e | ⟨_, _, _, _, _, e⟩
    · exact hsame e h1
    · rw [e] at h1
      exact status_of_updateFirst (setItemsAndTotals_ID _) (fun _ => rfl) hc h1
  | clearCart now cartID =>
    left
    simp only [Op.run] at h1
    rcases ClearCart_store s store now cartID with e | ⟨_, e⟩
    · exact hsame e h1
    · rw [e] at h1
      have h2 : FindOne (updateFirst _ (clearPatch s now) store) oid = some c1 := h1
      exact status_of_updateFirst (clearPatch_ID s now) (fun _ => rfl) hc h2
  | applyCoupon appliedAt now cartID req =>
    left
    simp only [Op.run] at h1
    rcases ApplyCoupon_store s store appliedAt now cartID req with e | ⟨_, _, _, _, e⟩
    · exact hsame e h1
    · rw [e] at h1
      exact status_of_updateFirst (setCouponAndTotals_ID _) (fun _ => rfl) hc h1
  | removeCoupon now cartID =>
    left
    simp only [Op.run] at h1
    rcases RemoveCoupon_store s store now cartID with e | ⟨_, _, _, e⟩
    · exact hsame e h1
    · rw [e] at h1
      exact status_of_updateFirst (setCouponAndTotals_ID _) (fun _ => rfl) hc h1
  | checkoutCart now cartID =>
    simp only [Op.run] at h1
    rcases CheckoutCart_store_hex s store now cartID with e | ⟨oid1, hoid, e⟩
    · exact Or.inl (hsame e h1)
    · rw [e] at h1
      rcases FindOne_updateFirst_cases (checkoutPatch_ID now) hc h1 with e1 | ⟨e1, e2⟩
      · left
        rw [e1]
      · right
        left
        refine ⟨now, cartID, rfl, ?_, ?_⟩
        · rw [e1]
          exact hoid
        · rw [e2]
          rfl
  | mergeGuestCart now ok userCartID guestCartID =>
    simp only [Op.run] at h1
    rcases MergeGuestCart_store_hex s store now ok userCartID guestCartID with
      e | ⟨userOID, guestOID, target, source, hg, e⟩
    · exact Or.inl (hsame e h1)
    · rw [e] at h1
      cases ok with
      | false =>
        left
        simp only [Bool.false_eq_true, if_false] at h1
        exact status_of_updateFirst (setItemsAndTotals_ID _) (fun _ => rfl) hc h1
      | true =>
        simp only [if_true] at h1
        cases hmid : FindOne (updateFirst userOID
            (setItemsAndTotals (recomputed s now (mergedCart target source))) store) oid with
        | none =>
          rw [FindOne_updateFirst _ (setItemsAndTotals_ID _), hc] at hmid
          simp at hmid
        | some c2 =>
          have h2 : c2.Status = c.Status :=
            status_of_updateFirst (setItemsAndTotals_ID _) (fun _ => rfl) hc hmid
          rcases FindOne_updateFirst_cases (markMerged_ID userCartID) hmid h1 with
            e1 | ⟨e1, e2⟩
          · left
            rw [e1, h2]
          · right
            right
            refine ⟨now, userCartID, guestCartID, rfl, ?_, ?_⟩
            · rw [e1]
              exact hg
            · rw [e2]
              rfl
  | cleanupAbandonedCarts now olderThan =>
    left
    simp only [Op.run] at h1
    have hne : c.Status ≠ CartStatusActive := by
      rcases hst with h | h
      · rw [h]; decide
      · rw [h]; decide
    rw [CleanupAbandonedCarts_store, FindOne_map _ (by intro d; split <;> rfl), hc,
      Option.map_some'] at h1
    have e := Option.some.inj h1
    rw [← e]
    have hcond : ¬ (decide (c.Status = CartStatusActive ∧ c.UpdatedAt < now + (-olderThan))
        = true) := by
      simp only [decide_eq_true_eq]
      exact fun h => hne h.1
    rw [if_neg hcond]

/-- C21, worked example: clearing the checked-out scenario cart empties it
and leaves its status `processing`. -/
theorem settled_status_step_witness :
    FindOne [processingCart] 1 = some processingCart
      ∧ processingCart.Status = CartStatusProcessing
      ∧ FindOne (Op.run defaultService [processingCart]
          (.clearCart 9 "000000000000000000000001")) 1
          = some (clearPatch defaultService 9 processingCart)
      ∧ (clearPatch defaultService 9 processingCart).Status = CartStatusProcessing :=
  ⟨rfl, rfl, rfl,
   (settled_status_step defaultService [processingCart]
      (.clearCart 9 "000000000000000000000001") 1 processingCart
      (clearPatch defaultService 9 processingCart) rfl (Or.inl rfl) rfl).elim id
     (fun h => h.elim (fun ⟨_, _, e, _⟩ => Op.noConfusion e)
       (fun ⟨_, _, _, e, _⟩ => Op.noConfusion e))⟩

/-! ## Merging the same source twice: claims -/

theorem quantityOf_cons (p : String) (t : CartItem) (rest : List CartItem) :
    quantityOf p (t :: rest)
      = (if t.ProductID = p then t.Quantity else 0) + quantityOf p rest := by
  unfold quantityOf
  by_cases h : t.ProductID = p
  · simp [List.filter_cons, h]
  · simp [List.filter_cons, h]

theorem quantityOf_append (p : String) (a b : List CartItem) :
    quantityOf p (a ++ b) = quantityOf p a + quantityOf p b := by
  unfold quantityOf
  simp [List.filter_append]

theorem addQuantityAt_map_ProductID (i : Nat) (q : Int) (items : List CartItem) :
    (addQuantityAt i q items).map (fun x => x.ProductID) = items.map (fun x => x.ProductID) := by
  induction items generalizing i with
  | nil => cases i <;> rfl
  | cons t rest ih =>
    cases i with
    | zero => rfl
    | succ i =>
      rw [addQuantityAt_succ, List.map_cons, List.map_cons, ih]

/-- Raising one line changes the quantity of that line's product by the
difference, and no other product's. -/
theorem quantityOf_addQuantityAt (p : String) (q : Int) (idx : Nat) (cur : List CartItem)
    (t : CartItem) (h : cur[idx]? = some t) :
    quantityOf p (addQuantityAt idx q cur)
      = quantityOf p cur
        + (if t.ProductID = p then addInt t.Quantity q - t.Quantity else 0) := by
  induction cur generalizing idx with
  | nil => simp at h
  | cons x rest ih =>
    cases idx with
    | zero =>
      rw [List.getElem?_cons_zero] at h
      have hx : x = t := Option.some.inj h
      subst hx
      rw [addQuantityAt_zero, quantityOf_cons, quantityOf_cons]
      show (if x.ProductID = p then addInt x.Quantity q else 0) + quantityOf p rest = _
      split <;> ring
    | succ idx =>
      rw [List.getElem?_cons_succ] at h
      rw [addQuantityAt_succ, quantityOf_cons, quantityOf_cons, ih idx h]
      ring

theorem addInt_sub_emod (a b : Int) :
    (addInt a b - (a + b)) % 18446744073709551616 = 0 := by
  unfold addInt wrapInt
  omega

/-- The index the item map gives for a product is the index of a line of that
product. -/
theorem lookup_buildItemMap_index (items : List CartItem) (i : Nat)
    (itemMap : List (String × Nat)) (p : String) (idx : Nat)
    (h : (buildItemMap items i itemMap).lookup p = some idx) :
    itemMap.lookup p = some idx
      ∨ (i ≤ idx ∧ (items.map (fun x => x.ProductID))[idx - i]? = some p) := by
  induction items generalizing i itemMap with
  | nil => exact Or.inl h
  | cons t rest ih =>
    rw [buildItemMap_cons] at h
    rcases ih (i + 1) _ h with h1 | ⟨h1, h2⟩
    · rw [List.lookup_cons] at h1
      by_cases hp : p = t.ProductID
      · have hb : (p == t.ProductID) = true := by simpa using hp
        rw [hb] at h1
        have hi : i = idx := Option.some.inj h1
        right
        rw [← hi, Nat.sub_self, List.map_cons, List.getElem?_cons_zero, hp]
        exact ⟨Nat.le_refl _, rfl⟩
      · have hb : (p == t.ProductID) = false := by simpa using hp
        rw [hb] at h1
        exact Or.inl h1
    · right
      refine ⟨by omega, ?_⟩
      have e : idx - i = (idx - (i + 1)) + 1 := by omega
      rw [e, List.map_cons, List.getElem?_cons_succ]
      exact h2

theorem buildItemMap_index (items : List CartItem) (p : String) (idx : Nat)
    (h : (buildItemMap items 0 []).lookup p = some idx) :
    (items.map (fun x => x.ProductID))[idx]? = some p := by
  rcases lookup_buildItemMap_index items 0 [] p idx h with h1 | ⟨_, h2⟩
  · simp at h1
  · rw [Nat.sub_zero] at h2
    exact h2

/-- The merge loop adds to each product's quantity the quantity the guest
items hold of it, up to Go `int` wrap-around (a multiple of 2^64), whenever
the item map points at lines of the right product. -/
theorem quantityOf_mergeLoop (p : String) (itemMap : List (String × Nat))
    (gs cur : List CartItem)
    (hmap : ∀ q idx, itemMap.lookup q = some idx →
      (cur.map (fun x => x.ProductID))[idx]? = some q) :
    (quantityOf p (mergeLoop itemMap gs cur) - (quantityOf p cur + quantityOf p gs))
      % 18446744073709551616 = 0 := by
  induction gs generalizing cur with
  | nil =>
    rw [mergeLoop_nil]
    have e : quantityOf p [] = 0 := rfl
    rw [e]
    simp
  | cons g rest ih =>
    cases hlook : itemMap.lookup g.ProductID with
    | some idx =>
      rw [mergeLoop_cons_some _ _ _ _ _ hlook]
      have hidx := hmap g.ProductID idx hlook
      rw [List.getElem?_map] at hidx
      cases hcur : cur[idx]? with
      | none => rw [hcur] at hidx; simp at hidx
      | some t =>
        rw [hcur, Option.map_some'] at hidx
        have htp : t.ProductID = g.ProductID := Option.some.inj hidx
        have hih := ih (addQuantityAt idx g.Quantity cur) (by
          intro q j hq
          rw [addQuantityAt_map_ProductID]
          exact hmap q j hq)
        rw [quantityOf_addQuantityAt p g.Quantity idx cur t hcur] at hih
        rw [quantityOf_cons]
        have hadd := addInt_sub_emod t.Quantity g.Quantity
        rw [htp] at hih
        by_cases hgp : g.ProductID = p
        · rw [if_pos hgp] at hih ⊢
          omega
        · rw [if_neg hgp] at hih ⊢
          omega
    | none =>
      rw [mergeLoop_cons_none _ _ _ _ hlook]
      have hih := ih (cur ++ [g]) (by
        intro q j hq
        have h1 := hmap q j hq
        have hlt : j < (cur.map (fun x => x.ProductID)).length :=
          (List.getElem?_eq_some.mp h1).1
        rw [List.map_append, List.getElem?_append_left hlt]
        exact h1)
      rw [quantityOf_append, quantityOf_cons] at hih
      have e : quantityOf p [] = 0 := rfl
      rw [e] at hih
      rw [quantityOf_cons]
      by_cases hgp : g.ProductID = p
      · rw [if_pos hgp] at hih ⊢
        omega
      · rw [if_neg hgp] at hih ⊢
        omega

/-- Two numbers that differ by a multiple of 2^64 are the same Go `int`. -/
theorem wrapInt_eq_of_emod (a b : Int) (h : (a - b) % 18446744073709551616 = 0) :
    wrapInt a = wrapInt b := by
  unfold wrapInt
  omega

theorem find?_product_of_nodup (source : List CartItem)
    (hs : (source.map (fun x => x.ProductID)).Nodup) (g : CartItem) (hg : g ∈ source)
    (p : String) (hp : g.ProductID = p) :
    source.find? (fun x => decide (x.ProductID = p)) = some g := by
  induction source with
  | nil => simp at hg
  | cons x xs ih =>
    rw [List.map_cons, List.nodup_cons] at hs
    by_cases hx : x.ProductID = p
    · have hgx : g = x := by
        rcases List.mem_cons.mp hg with e | e
        · exact e
        · exfalso
          apply hs.1
          rw [hx, ← hp]
          exact List.mem_map.mpr ⟨g, e, rfl⟩
      rw [List.find?_cons, hgx]
      simp [hx]
    · have hgx : g ∈ xs := by
        rcases List.mem_cons.mp hg with e | e
        · exfalso
          rw [e] at hp
          exact hx hp
        · exact e
      rw [List.find?_cons]
      simp only [hx, decide_False]
      exact ih hs.2 hgx

theorem mem_mergedItemsInt_bumped (target source : List CartItem)
    (hs : (source.map (fun x => x.ProductID)).Nodup)
    (t : CartItem) (ht : t ∈ target) (g : CartItem) (hg : g ∈ source)
    (hp : g.ProductID = t.ProductID) :
    ({ t with Quantity := addInt t.Quantity g.Quantity } : CartItem)
      ∈ mergedItemsInt target source := by
  unfold mergedItemsInt
  apply List.mem_append_left
  refine List.mem_map.mpr ⟨t, ht, ?_⟩
  unfold bumpAll
  rw [find?_product_of_nodup source hs g hg t.ProductID hp]

/-- Two merges of the same source into the same target, for distinct stored
ids: what the calls return and leave, in terms of the merge loop. -/
theorem merge_twice_eq (s : CartService) (store : Store) (now1 now2 : Time)
    (ok2 : Bool) (userCartID guestCartID : String) (userOID guestOID : ObjectID)
    (target source : Cart)
    (hu : ObjectIDFromHex userCartID = .ok userOID)
    (hg : ObjectIDFromHex guestCartID = .ok guestOID)
    (hft : FindOne store userOID = some target)
    (hfs : FindOne store guestOID = some source)
    (hne : userOID ≠ guestOID) :
    ∃ first second,
      (MergeGuestCart s store now1 true userCartID guestCartID).1 = .ok first
        ∧ first.Items
            = mergeLoop (buildItemMap target.Items 0 []) source.Items target.Items
        ∧ FindOne (MergeGuestCart s store now1 true userCartID guestCartID).2 guestOID
            = some (markMerged userCartID source)
        ∧ (MergeGuestCart s (MergeGuestCart s store now1 true userCartID guestCartID).2
            now2 ok2 userCartID guestCartID).1 = .ok second
        ∧ second.Items = mergeLoop (buildItemMap first.Items 0 []) source.Items first.Items
        ∧ FindOne (MergeGuestCart s (MergeGuestCart s store now1 true userCartID guestCartID).2
            now2 ok2 userCartID guestCartID).2 userOID = some second := by
  have htid : target.ID = userOID := (FindOne_some_mem hft).2
  have hsid : source.ID = guestOID := (FindOne_some_mem hfs).2
  have hr1 : MergeGuestCart s store now1 true userCartID guestCartID
      = (.ok (setItemsAndTotals (recomputed s now1 (mergedCart target source)) target),
         updateFirst guestOID (markMerged userCartID)
           (updateFirst userOID
             (setItemsAndTotals (recomputed s now1 (mergedCart target source))) store)) := by
    rw [MergeGuestCart_eq hu hg hft hfs]
    rfl
  have hft1 : FindOne (updateFirst guestOID (markMerged userCartID)
      (updateFirst userOID
        (setItemsAndTotals (recomputed s now1 (mergedCart target source))) store)) userOID
      = some (setItemsAndTotals (recomputed s now1 (mergedCart target source)) target) := by
    rw [FindOne_updateFirst _ (markMerged_ID userCartID),
      FindOne_updateFirst_self (setItemsAndTotals_ID _) hft, Option.map_some',
      if_neg (by rw [setItemsAndTotals_ID, htid]; exact hne)]
  have hmid : FindOne (updateFirst userOID
      (setItemsAndTotals (recomputed s now1 (mergedCart target source))) store) guestOID
      = some source := by
    rw [FindOne_updateFirst _ (setItemsAndTotals_ID _), hfs, Option.map_some',
      if_neg (by rw [hsid]; exact fun e => hne e.symm)]
  have hfs1 : FindOne (updateFirst guestOID (markMerged userCartID)
      (updateFirst userOID
        (setItemsAndTotals (recomputed s now1 (mergedCart target source))) store)) guestOID
      = some (markMerged userCartID source) :=
    FindOne_updateFirst_self (markMerged_ID userCartID) hmid
  rw [hr1]
  rw [MergeGuestCart_eq hu hg hft1 hfs1]
  refine ⟨_, _, rfl, rfl, hfs1, rfl, rfl, ?_⟩
  cases ok2 with
  | false =>
    simp only [Bool.false_eq_true, if_false]
    exact FindOne_updateFirst_self (setItemsAndTotals_ID _) hft1
  | true =>
    simp only [if_true]
    rw [FindOne_updateFirst _ (markMerged_ID userCartID),
      FindOne_updateFirst_self (setItemsAndTotals_ID _) hft1, Option.map_some',
      if_neg (by rw [setItemsAndTotals_ID, setItemsAndTotals_ID, htid]; exact hne)]

/-- C29 as stated fails when a sum leaves the range of a Go `int`: with 2^62
units of `p1` in the target and 2^62 in the source (distinct ids, one line
each), the first merge leaves the target with −2^63 units and the second with
−2^62, where the target quantity plus twice the source quantity is 3 × 2^62. -/
theorem MergeGuestCart_twice_wraps :
    FindOne [halfTarget, halfSource] 1 = some halfTarget
      ∧ FindOne [halfTarget, halfSource] 2 = some halfSource
      ∧ halfTarget.Items = [mkItem 11 "p1" 10 4611686018427387904]
      ∧ halfSource.Items = [mkItem 21 "p1" 10 4611686018427387904]
      ∧ (mkItem 11 "p1" 10 4611686018427387904).Quantity
          + 2 * (mkItem 21 "p1" 10 4611686018427387904).Quantity = 13835058055282163712
      ∧ ∃ first second,
          (MergeGuestCart defaultService [halfTarget, halfSource] 1 true
            "000000000000000000000001" "000000000000000000000002").1 = .ok first
          ∧ first.Items = [mkItem 11 "p1" 10 (-9223372036854775808)]
          ∧ (MergeGuestCart defaultService
              (MergeGuestCart defaultService [halfTarget, halfSource] 1 true
                "000000000000000000000001" "000000000000000000000002").2
              2 true "000000000000000000000001" "000000000000000000000002").1 = .ok second
          ∧ second.Items = [mkItem 11 "p1" 10 (-4611686018427387904)] := by
  refine ⟨rfl, rfl, rfl, rfl, by decide, ?_⟩
  obtain ⟨first, second, h1, h2, _, h4, h5, _⟩ := merge_twice_eq defaultService
    [halfTarget, halfSource] 1 2 true
    "000000000000000000000001" "000000000000000000000002" 1 2 halfTarget halfSource
    ObjectIDFromHex_one ObjectIDFromHex_two rfl rfl (by decide)
  have e1 : first.Items = [mkItem 11 "p1" 10 (-9223372036854775808)] := by
    rw [h2]
    simp [halfTarget, halfSource, mkCart, mkItem, mergeLoop, buildItemMap, addQuantityAt,
      addInt, wrapInt]
  refine ⟨first, second, h1, e1, h4, ?_⟩
  rw [h5, e1]
  simp [halfSource, mkCart, mkItem, mergeLoop, buildItemMap, addQuantityAt, addInt, wrapInt]

/-- C29, amended: for every target and source stored under distinct ids, a
first `MergeGuestCart` (secondary write going through) leaves the source with
its items intact and status `completed`; a second `MergeGuestCart` of the same
pair on the collection so obtained succeeds all the same and adds the source
quantities again: for every product, the quantity the target holds (the sum
over its lines, in the cart returned and stored) is, as a Go `int`, the
original target quantity plus the source quantity after the first merge, and
the original target quantity plus twice the source quantity after the second
(exactly so when both sides lie in the range of a Go `int`).  When the lines
of each cart have pairwise distinct product ids, the line of a product present
in both carts ends with the target quantity plus twice the source quantity
taken as a Go `int`, which is the exact value when that lies in the range of a
Go `int`. -/
theorem MergeGuestCart_twice (s : CartService) (store : Store) (now1 now2 : Time)
    (ok2 : Bool) (userCartID guestCartID : String) (userOID guestOID : ObjectID)
    (target source : Cart)
    (hu : ObjectIDFromHex userCartID = .ok userOID)
    (hg : ObjectIDFromHex guestCartID = .ok guestOID)
    (hft : FindOne store userOID = some target)
    (hfs : FindOne store guestOID = some source)
    (hne : userOID ≠ guestOID) :
    ∃ first guest1 second,
      (MergeGuestCart s store now1 true userCartID guestCartID).1 = .ok first
        ∧ FindOne (MergeGuestCart s store now1 true userCartID guestCartID).2 guestOID
            = some guest1
        ∧ guest1.Items = source.Items
        ∧ guest1.Status = CartStatusCompleted
        ∧ (MergeGuestCart s (MergeGuestCart s store now1 true userCartID guestCartID).2
            now2 ok2 userCartID guestCartID).1 = .ok second
        ∧ FindOne (MergeGuestCart s (MergeGuestCart s store now1 true userCartID guestCartID).2
            now2 ok2 userCartID guestCartID).2 userOID = some second
        ∧ (∀ p, wrapInt (quantityOf p first.Items)
            = wrapInt (quantityOf p target.Items + quantityOf p source.Items))
        ∧ (∀ p, wrapInt (quantityOf p second.Items)
            = wrapInt (quantityOf p target.Items + 2 * quantityOf p source.Items))
        ∧ (∀ p, InIntRange (quantityOf p second.Items) →
            InIntRange (quantityOf p target.Items + 2 * quantityOf p source.Items) →
            quantityOf p second.Items
              = quantityOf p target.Items + 2 * quantityOf p source.Items)
        ∧ ((target.Items.map (fun x => x.ProductID)).Nodup →
            (source.Items.map (fun x => x.ProductID)).Nodup →
            first.Items = mergedItemsInt target.Items source.Items
              ∧ second.Items
                  = mergedItemsInt (mergedItemsInt target.Items source.Items) source.Items
              ∧ ∀ t ∈ target.Items, ∀ g ∈ source.Items, g.ProductID = t.ProductID →
                  ({ t with Quantity := wrapInt (t.Quantity + 2 * g.Quantity) } : CartItem)
                      ∈ second.Items
                    ∧ (InIntRange (t.Quantity + 2 * g.Quantity) →
                        ({ t with Quantity := t.Quantity + 2 * g.Quantity } : CartItem)
                          ∈ second.Items)) := by
  obtain ⟨first, second, h1, h2, h3, h4, h5, h6⟩ := merge_twice_eq s store now1 now2
    ok2 userCartID guestCartID userOID guestOID target source hu hg hft hfs hne
  have hq2 : ∀ p, wrapInt (quantityOf p second.Items)
      = wrapInt (quantityOf p target.Items + 2 * quantityOf p source.Items) := by
    intro p
    apply wrapInt_eq_of_emod
    have q1 := quantityOf_mergeLoop p (buildItemMap target.Items 0 []) source.Items
      target.Items (fun q idx hq => buildItemMap_index target.Items q idx hq)
    have q2 := quantityOf_mergeLoop p (buildItemMap first.Items 0 []) source.Items
      first.Items (fun q idx hq => buildItemMap_index first.Items q idx hq)
    rw [← h2] at q1
    rw [← h5] at q2
    omega
  refine ⟨first, markMerged userCartID source, second, h1, h3, rfl, rfl, h4, h6, ?_, hq2, ?_,
    ?_⟩
  · intro p
    apply wrapInt_eq_of_emod
    have q1 := quantityOf_mergeLoop p (buildItemMap target.Items 0 []) source.Items
      target.Items (fun q idx hq => buildItemMap_index target.Items q idx hq)
    rw [← h2] at q1
    exact q1
  · intro p hr1 hr2
    rw [← wrapInt_of_inRange _ hr1, ← wrapInt_of_inRange _ hr2]
    exact hq2 p
  · intro hnt hns
    have hitems1 : first.Items = mergedItemsInt target.Items source.Items := by
      rw [h2]
      exact mergeLoop_eq_mergedItemsInt target.Items source.Items hnt hns
    have hnt1 : (first.Items.map (fun x => x.ProductID)).Nodup := by
      rw [h2]
      exact nodup_mergeLoop target.Items source.Items hnt hns
    have hitems2 : second.Items
        = mergedItemsInt (mergedItemsInt target.Items source.Items) source.Items := by
      rw [h5, mergeLoop_eq_mergedItemsInt first.Items source.Items hnt1 hns, hitems1]
    have hmem : ∀ t ∈ target.Items, ∀ g ∈ source.Items, g.ProductID = t.ProductID →
        ({ t with Quantity := wrapInt (t.Quantity + 2 * g.Quantity) } : CartItem)
          ∈ second.Items := by
      intro t ht g hgm hp
      rw [hitems2]
      have m1 := mem_mergedItemsInt_bumped target.Items source.Items hns t ht g hgm hp
      have m2 := mem_mergedItemsInt_bumped (mergedItemsInt target.Items source.Items)
        source.Items hns _ m1 g hgm hp
      rw [← addInt_addInt_self]
      exact m2
    refine ⟨hitems1, hitems2, ?_⟩
    intro t ht g hgm hp
    refine ⟨hmem t ht g hgm hp, ?_⟩
    intro hr
    rw [← wrapInt_of_inRange _ hr]
    exact hmem t ht g hgm hp

/-- C29, amended, worked examples: merging source `[p1 × 2, p2 × 1]` twice
into target `[p1 × 1]` leaves the line of `p1` with quantity 1 + 2 × 2 = 5;
merging a source with two lines of `p1` (2 and 3 units) twice into the same
target leaves the target with 1 + 2 × 5 = 11 units of `p1`. -/
theorem MergeGuestCart_twice_witness :
    (ObjectIDFromHex "000000000000000000000001" = .ok 1
      ∧ ObjectIDFromHex "000000000000000000000002" = .ok 2
      ∧ FindOne [mergeTarget, mergeSource] 1 = some mergeTarget
      ∧ FindOne [mergeTarget, mergeSource] 2 = some mergeSource
      ∧ ∃ second,
          (MergeGuestCart defaultService
            (MergeGuestCart defaultService [mergeTarget, mergeSource] 1 true
              "000000000000000000000001" "000000000000000000000002").2
            2 true "000000000000000000000001" "000000000000000000000002").1 = .ok second
          ∧ mkItem 11 "p1" 10 5 ∈ second.Items)
      ∧ (FindOne [mergeTarget, twoLineSource] 1 = some mergeTarget
        ∧ FindOne [mergeTarget, twoLineSource] 2 = some twoLineSource
        ∧ ∃ second,
            (MergeGuestCart defaultService
              (MergeGuestCart defaultService [mergeTarget, twoLineSource] 1 true
                "000000000000000000000001" "000000000000000000000002").2
              2 true "000000000000000000000001" "000000000000000000000002").1 = .ok second
            ∧ wrapInt (quantityOf "p1" second.Items) = 11) := by
  constructor
  · refine ⟨rfl, rfl, rfl, rfl, ?_⟩
    obtain ⟨_, _, second, _, _, _, _, h5, _, _, _, _, h8⟩ :=
      MergeGuestCart_twice defaultService [mergeTarget, mergeSource] 1 2 true
        "000000000000000000000001" "000000000000000000000002" 1 2 mergeTarget mergeSource
        rfl rfl rfl rfl (by decide)
    exact ⟨second, h5, ((h8 (by decide) (by decide)).2.2 (mkItem 11 "p1" 10 1)
      (List.mem_cons_self _ _) (mkItem 21 "p1" 10 2) (List.mem_cons_self _ _) rfl).2
      (by decide)⟩
  · refine ⟨rfl, rfl, ?_⟩
    obtain ⟨_, _, second, _, _, _, _, h5, _, _, h7, _, _⟩ :=
      MergeGuestCart_twice defaultService [mergeTarget, twoLineSource] 1 2 true
        "000000000000000000000001" "000000000000000000000002" 1 2 mergeTarget twoLineSource
        rfl rfl rfl rfl (by decide)
    refine ⟨second, h5, ?_⟩
    rw [h7 "p1"]
    decide

/-! ## The handlers' ownership check: claims -/

theorem ownershipDenied_none (cart : Cart) : ownershipDenied none cart = false := rfl

/-- C28: the ownership check of the handlers is skipped when the request
carries no authenticated user. `GetCart` and `ClearCart` never answer 403 to
such a request; with no `Authorization` header, or with a `Bearer` token that
does not validate, the middleware leaves no user id, and the request for the
cart owned by `alice` is answered 200 with the cart (and `ClearCart` empties
it), while the same request authenticated as `bob` is answered 403. -/
theorem ownership_check_skipped_without_user :
    (∀ (h : CartHandler) (store : Store) (now : Time) (cartID : String),
        (h.GetCart store now none cartID).1.status ≠ 403)
      ∧ (∀ (h : CartHandler) (store : Store) (now now2 : Time) (cartID : String),
        (h.ClearCart store now now2 none cartID).1.status ≠ 403)
      ∧ demoHandler.OptionalAuthMiddleware "" = none
      ∧ demoHandler.OptionalAuthMiddleware "Bearer forged" = none
      ∧ aliceCart.UserID = "alice"
      ∧ demoHandler.GetCart [aliceCart] 0 none "000000000000000000000001"
          = ({ status := 200, body := some aliceCart }, [aliceCart])
      ∧ demoHandler.ClearCart [aliceCart] 0 0 none "000000000000000000000001"
          = ({ status := 200, body := some (clearPatch defaultService 0 aliceCart) },
             [clearPatch defaultService 0 aliceCart])
      ∧ demoHandler.OptionalAuthMiddleware "Bearer bob-token" = some "bob"
      ∧ demoHandler.GetCart [aliceCart] 0 (some "bob") "000000000000000000000001"
          = ({ status := 403, body := none }, [aliceCart])
      ∧ demoHandler.OptionalAuthMiddleware "Bearer alice-token" = some "alice"
      ∧ demoHandler.GetCart [aliceCart] 0 (some "alice") "000000000000000000000001"
          = ({ status := 200, body := some aliceCart }, [aliceCart]) := by
  refine ⟨?_, ?_, rfl, rfl, rfl, rfl, rfl, rfl, rfl, rfl, rfl⟩
  · intro h store now cartID
    unfold CartHandler.GetCart
    split
    · split_ifs <;> simp
    · rw [ownershipDenied_none]
      simp
  · intro h store now now2 cartID
    unfold CartHandler.ClearCart
    split
    · split_ifs <;> simp
    · rw [ownershipDenied_none]
      simp only [Bool.false_eq_true, if_false]
      split
      · split_ifs <;> simp
      · simp

end Sattviko
